import Mathlib

/-!
# libcanberra GTK module: event coalescing and sound dispatch

A shallow embedding of `src/canberra-gtk-module.c`, and of the accessors of
`src/read-sound-file.c`.

* Pointers to GObjects and to queued records are natural numbers.
* The GTK/GDK/X11 facts the module queries (runtime type checks, window type
  hints, qdata flags, widget parents, window properties) are read from a
  `World` value.
* The playback port (`ca_gtk_play_for_widget` / `ca_gtk_play_for_event`) is a
  trace of calls plus an oracle giving the return code of each call.
* The `do ... while (i)` loop of `filter_sound_event` and the `while` loop of
  `idle_cb` take a fuel argument and return `none` when it runs out.
-/

namespace Canberra

/-! ## Data model -/

/-- The twelve signals hooked by `gtk_module_init`; each `signal_id_*` static
holds the id `g_signal_lookup` returned, and the ids are pairwise distinct. -/
inductive SignalId where
  | dialog_response
  | widget_show
  | widget_hide
  | check_menu_item_toggled
  | menu_item_activate
  | toggle_button_toggled
  | button_pressed
  | button_released
  | widget_window_state_event
  | notebook_switch_page
  | tree_view_cursor_changed
  | icon_view_selection_changed
  deriving DecidableEq, Repr

/-- GDK enumeration `GdkWindowTypeHint` (from the GDK headers). -/
inductive GdkWindowTypeHint where
  | NORMAL
  | DIALOG
  | MENU
  | TOOLBAR
  | SPLASHSCREEN
  | UTILITY
  | DOCK
  | DESKTOP
  | DROPDOWN_MENU
  | POPUP_MENU
  | TOOLTIP
  | NOTIFICATION
  | COMBO
  | DND
  deriving DecidableEq, Repr

/-- The fields of a `GdkEventWindowState` that the module reads. -/
structure GdkEvent where
  window : Nat
  changed_mask : Nat
  new_window_state : Nat
  deriving DecidableEq, Repr

/-- The record `SoundEventData`. `ptr` is the address of the slice allocation:
the queue holds pointers, so two records are the same record exactly when
their addresses agree. `arg1` is the integer read by `g_value_get_int`. -/
structure SoundEventData where
  ptr : Nat
  signal_id : SignalId
  object : Nat
  arg1 : Int
  arg1_is_set : Bool
  event : Option GdkEvent
  deriving DecidableEq, Repr

/-- What the module can observe of one GObject: the runtime type checks
(`GTK_IS_*`), the window type hint, the `message_type` property, whether the
bin child is a menu, the active state of a toggle, whether a menu item has a
submenu, `gtk_dialog_get_response_for_widget`, the qdata stored under
`disable_sound_quark`, and `GTK_WIDGET_DRAWABLE`. -/
structure GObject where
  is_window : Bool
  is_dialog : Bool
  is_message_dialog : Bool
  is_menu_item : Bool
  is_check_menu_item : Bool
  is_toggle_button : Bool
  is_link_button : Bool
  is_button : Bool
  is_notebook : Bool
  is_tree_view : Bool
  is_icon_view : Bool
  is_combo_box : Bool
  type_hint : GdkWindowTypeHint
  message_type : Nat
  bin_child_is_menu : Bool
  active : Bool
  submenu : Bool
  response_for_widget : Nat → Int
  disable_sound : Bool
  drawable : Bool

/-- A widget together with its chain of parents (`gtk_widget_get_parent`);
the widget hierarchy is a finite tree, so the chain ends. -/
inductive GtkWidget where
  | toplevel (o : GObject)
  | child (o : GObject) (parent : GtkWidget)

/-- The object at the bottom of the chain, i.e. the widget itself. -/
def GtkWidget.obj : GtkWidget → GObject
  | .toplevel o => o
  | .child o _ => o

/-- Reply of `XGetWindowProperty` for `_NET_WM_STATE`: `status` is 0 for
`Success`; `data` holds the `nitems_return` atoms, `none` for a NULL buffer. -/
structure XWindowProperty where
  status : Nat
  type_return : Nat
  format_return : Nat
  data : Option (List Nat)

/-- Everything outside the module that it reads: the object behind each
pointer, the X server reply per GDK window, the atom of
`_NET_WM_STATE_HIDDEN`, and the return code of the n-th playback call. -/
structure World where
  widget : Nat → GtkWidget
  x_property : Nat → XWindowProperty
  net_wm_state_hidden : Nat
  play_result : Nat → Int

/-- Attributes of the object behind pointer `p`. -/
def World.obj (w : World) (p : Nat) : GObject := (w.widget p).obj

/-- One call on the playback port: `CA_PROP_EVENT_ID` and
`CA_PROP_EVENT_DESCRIPTION`. -/
structure PlayCall where
  event_id : String
  description : String
  deriving DecidableEq, Repr

/-- Mutable state touched by `dispatch_sound_event`: the static
`menu_is_popped_up`, the qdata under `was_hidden_quark` per object, the calls
made on the playback port so far, and the codes passed to `g_warning`. -/
structure DispatchState where
  menu_is_popped_up : Bool
  was_hidden : Nat → Bool
  played : List PlayCall
  warnings : List Int

/-- `CA_SUCCESS`. -/
def CA_SUCCESS : Int := 0

/-- X11 predefined atom `XA_ATOM`. -/
def XA_ATOM : Nat := 4

/-- `GDK_WINDOW_STATE_ICONIFIED`. -/
def GDK_WINDOW_STATE_ICONIFIED : Nat := 2

/-- `GDK_WINDOW_STATE_MAXIMIZED`. -/
def GDK_WINDOW_STATE_MAXIMIZED : Nat := 4

/-- `GDK_WINDOW_STATE_FULLSCREEN`. -/
def GDK_WINDOW_STATE_FULLSCREEN : Nat := 16

/-- `GTK_MESSAGE_INFO` of `GtkMessageType`. -/
def GTK_MESSAGE_INFO : Nat := 0

/-- `GTK_MESSAGE_WARNING`. -/
def GTK_MESSAGE_WARNING : Nat := 1

/-- `GTK_MESSAGE_QUESTION`. -/
def GTK_MESSAGE_QUESTION : Nat := 2

/-- `GTK_MESSAGE_ERROR`. -/
def GTK_MESSAGE_ERROR : Nat := 3

/-- `GTK_MESSAGE_OTHER`. -/
def GTK_MESSAGE_OTHER : Nat := 4

/-- `GTK_RESPONSE_NONE` of `GtkResponseType`. -/
def GTK_RESPONSE_NONE : Int := -1

/-- `GTK_RESPONSE_REJECT`. -/
def GTK_RESPONSE_REJECT : Int := -2

/-- `GTK_RESPONSE_ACCEPT`. -/
def GTK_RESPONSE_ACCEPT : Int := -3

/-- `GTK_RESPONSE_DELETE_EVENT`. -/
def GTK_RESPONSE_DELETE_EVENT : Int := -4

/-- `GTK_RESPONSE_OK`. -/
def GTK_RESPONSE_OK : Int := -5

/-- `GTK_RESPONSE_CANCEL`. -/
def GTK_RESPONSE_CANCEL : Int := -6

/-- `GTK_RESPONSE_CLOSE`. -/
def GTK_RESPONSE_CLOSE : Int := -7

/-- `GTK_RESPONSE_YES`. -/
def GTK_RESPONSE_YES : Int := -8

/-- `GTK_RESPONSE_NO`. -/
def GTK_RESPONSE_NO : Int := -9

/-- `GTK_RESPONSE_APPLY`. -/
def GTK_RESPONSE_APPLY : Int := -10

/-- `GTK_RESPONSE_HELP`. -/
def GTK_RESPONSE_HELP : Int := -11

/-! ## Translation tables -/

/-- The table `message_type_table`, indexed by `GtkMessageType`
(INFO = 0, WARNING = 1, QUESTION = 2, ERROR = 3, OTHER = 4). -/
def message_type_table : List (Option String) :=
  [some "dialog-information", some "dialog-warning", some "dialog-question",
   some "dialog-error", none]

/-- Function `translate_message_tye`: the comparison is unsigned. -/
def translate_message_tye (mt : Nat) : Option String :=
  if mt ≥ message_type_table.length then none
  else (message_type_table.get? mt).join

/-- The table `response_table`, indexed by the negated `GtkResponseType`
(NONE = -1, REJECT = -2, ACCEPT = -3, DELETE_EVENT = -4, OK = -5, CANCEL = -6,
CLOSE = -7, YES = -8, NO = -9, APPLY = -10, HELP = -11); slot 0 has no
initialiser. -/
def response_table : List (Option String) :=
  [none, none, some "dialog-cancel", some "dialog-ok", some "dialog-cancel",
   some "dialog-ok", some "dialog-cancel", some "dialog-ok", some "dialog-ok",
   some "dialog-cancel", some "dialog-ok", none]

/-- The value of `-response` in a 32-bit two's complement `int`. -/
def neg_int (response : Int) : Int := (-response + 2 ^ 31) % 2 ^ 32 - 2 ^ 31

/-- The cast `(unsigned) x` of a 32-bit `int`. -/
def as_unsigned (x : Int) : Nat := (x % 2 ^ 32).toNat

/-- The index `-response` with which `translate_response` reads
`response_table`, `none` when it returns before indexing. -/
def translate_response_slot (response : Int) : Option Int :=
  if response ≥ 0 then none
  else if as_unsigned (neg_int response) ≥ response_table.length then none
  else some (neg_int response)

/-- Function `translate_response`. A read outside the table yields `none`. -/
def translate_response (response : Int) : Option String :=
  match translate_response_slot response with
  | none => none
  | some i => if 0 ≤ i then (response_table.get? i.toNat).join else none

/-! ## Widget hierarchy walks -/

/-- Function `is_child_of_combo_box`. -/
def is_child_of_combo_box : GtkWidget → Bool
  | .toplevel o => o.is_combo_box
  | .child o p => if o.is_combo_box then true else is_child_of_combo_box p

/-- Function `find_parent_dialog`: the first dialog on the parent chain. -/
def find_parent_dialog : GtkWidget → Option GObject
  | .toplevel o => if o.is_dialog then some o else none
  | .child o p => if o.is_dialog then some o else find_parent_dialog p

/-- Function `is_menu_hint`. -/
def is_menu_hint (hint : GdkWindowTypeHint) : Bool :=
  hint = .POPUP_MENU || hint = .DROPDOWN_MENU || hint = .MENU

/-! ## Coalescing filter -/

/-- How one pass of the `for` loop in `filter_sound_event` ends. Each case
carries the queue as the pass leaves it and the records released by
`free_sound_event`, oldest first. -/
inductive ScanResult where
  | returned_null (queue freed : List SoundEventData)
  | broke (d : SoundEventData) (queue freed : List SoundEventData)
  | completed (queue freed : List SoundEventData)

/-- The link of `j` stays in the queue and the pass goes on behind it. -/
def ScanResult.keep (j : SoundEventData) : ScanResult → ScanResult
  | .returned_null q f => .returned_null (j :: q) f
  | .broke d q f => .broke d (j :: q) f
  | .completed q f => .completed (j :: q) f

/-- Record `j` was freed and unlinked, and the pass goes on behind it. -/
def ScanResult.drop (j : SoundEventData) : ScanResult → ScanResult
  | .returned_null q f => .returned_null q (j :: f)
  | .broke d q f => .broke d q (j :: f)
  | .completed q f => .completed q (j :: f)

/-- Same-object test of the second `if`: the candidate is freed and `j` is
adopted. -/
def adopts_same_object (d j : SoundEventData) : Bool :=
  (d.signal_id = .widget_hide && j.signal_id = .dialog_response) ||
  (d.signal_id = .widget_window_state_event && j.signal_id = .widget_hide) ||
  (d.signal_id = .widget_window_state_event && j.signal_id = .widget_show)

/-- Same-object test of the third `if`: `j` is freed, the candidate stays. -/
def drops_same_object (d j : SoundEventData) : Bool :=
  (d.signal_id = .dialog_response && j.signal_id = .widget_hide) ||
  (d.signal_id = .widget_show && j.signal_id = .widget_window_state_event) ||
  (d.signal_id = .widget_hide && j.signal_id = .widget_window_state_event) ||
  (d.signal_id = j.signal_id)

/-- The `else if` guard: both objects are windows and both hints are menu
hints. -/
def both_menu_windows (w : World) (a b : Nat) : Bool :=
  ((w.obj a).is_window && (w.obj b).is_window) &&
  (is_menu_hint (w.obj a).type_hint && is_menu_hint (w.obj b).type_hint)

/-- One pass of the `for` loop of `filter_sound_event` with candidate `d` over
the links from `i` on. -/
def scan (w : World) (d : SoundEventData) : List SoundEventData → ScanResult
  | [] => .completed [] []
  | j :: n =>
    if d.object = j.object then
      if d.signal_id = .widget_show ∧ j.signal_id = .widget_hide then
        .returned_null n [d, j]
      else if adopts_same_object d j then
        .broke j n [d]
      else if drops_same_object d j then
        (scan w d n).drop j
      else
        (scan w d n).keep j
    else if both_menu_windows w d.object j.object then
      if d.signal_id = .widget_hide ∧ j.signal_id = .widget_show then
        .broke j n [d]
      else if d.signal_id = .widget_show ∧ j.signal_id = .widget_hide then
        (scan w d n).drop j
      else
        (scan w d n).keep j
    else
      (scan w d n).keep j

/-- Result of `filter_sound_event`: the returned pointer (`none` for NULL),
the queue afterwards, and the records freed, oldest first. -/
structure FilterResult where
  ret : Option SoundEventData
  queue : List SoundEventData
  freed : List SoundEventData
  deriving DecidableEq, Repr

/-- The `do ... while (i)` loop of `filter_sound_event`: a pass that ends in
`break` leaves `i` non-NULL and is retried with the adopted candidate. -/
def filter_loop (w : World) : Nat → SoundEventData → List SoundEventData → Option FilterResult
  | 0, _, _ => none
  | fuel + 1, d, q =>
    match scan w d q with
    | .returned_null q1 f => some ⟨none, q1, f⟩
    | .broke d1 q1 f =>
      match filter_loop w fuel d1 q1 with
      | none => none
      | some r => some ⟨r.ret, r.queue, f ++ r.freed⟩
    | .completed q1 f => some ⟨some d, q1, f⟩

/-- Function `filter_sound_event` on candidate `d` and the global queue `q`.
Every retry has unlinked one record, so `q.length + 1` passes suffice. -/
def filter_sound_event (w : World) (d : SoundEventData) (q : List SoundEventData) :
    Option FilterResult :=
  filter_loop w (q.length + 1) d q

/-- Queue left by a pass. -/
def ScanResult.queue : ScanResult → List SoundEventData
  | .returned_null q _ => q
  | .broke _ q _ => q
  | .completed q _ => q

/-- Records freed by a pass. -/
def ScanResult.freed : ScanResult → List SoundEventData
  | .returned_null _ f => f
  | .broke _ _ f => f
  | .completed _ f => f

/-- The pass kept the links `k` and freed the records `f` before it reached
the part of the queue that produced the result. -/
def ScanResult.prepend (k f : List SoundEventData) : ScanResult → ScanResult
  | .returned_null q fr => .returned_null (k ++ q) (f ++ fr)
  | .broke d q fr => .broke d (k ++ q) (f ++ fr)
  | .completed q fr => .completed (k ++ q) (f ++ fr)

/-- Entry `j` makes the pass return NULL: a show followed by a hide of the
same object. -/
def cancels (d j : SoundEventData) : Bool :=
  d.object = j.object && (d.signal_id = .widget_show && j.signal_id = .widget_hide)

/-- Entry `j` replaces the candidate `d`, by the same-object test or by the
test on two menu windows. -/
def adopts (w : World) (d j : SoundEventData) : Bool :=
  (d.object = j.object && adopts_same_object d j) ||
  (d.object ≠ j.object && both_menu_windows w d.object j.object &&
    (d.signal_id = .widget_hide && j.signal_id = .widget_show))

/-- Entry `j` is freed while the candidate `d` stays. -/
def eliminates (w : World) (d j : SoundEventData) : Bool :=
  (d.object = j.object && drops_same_object d j) ||
  (d.object ≠ j.object && both_menu_windows w d.object j.object &&
    (d.signal_id = .widget_show && j.signal_id = .widget_hide))

/-- Two records may be coalesced with one another: same object, or two menu
windows. -/
def related (w : World) (a b : SoundEventData) : Prop :=
  a.object = b.object ∨ both_menu_windows w a.object b.object = true

/-! ## Dispatch -/

/-- Function `is_hidden`: whether `_NET_WM_STATE` of the window lists
`_NET_WM_STATE_HIDDEN`. -/
def is_hidden (w : World) (win : Nat) : Bool :=
  if (w.x_property win).status ≠ 0 then false
  else if (w.x_property win).type_return = XA_ATOM ∧ (w.x_property win).format_return = 32 then
    match (w.x_property win).data with
    | some atoms => atoms.any (fun a => decide (a = w.net_wm_state_hidden))
    | none => false
  else false

/-- The locals of a running `dispatch_sound_event`: the state of the module
and the variable `ret`. -/
structure DispatchCtx where
  st : DispatchState
  ret : Int

/-- A call of `ca_gtk_play_for_widget` or `ca_gtk_play_for_event` assigned to
`ret`: the call is appended to the trace and the port answers with the code
the world holds for this call. -/
def ca_gtk_play (w : World) (c : DispatchCtx) (event_id description : String) : DispatchCtx :=
  ⟨{ c.st with played := c.st.played ++ [⟨event_id, description⟩] },
   w.play_result c.st.played.length⟩

/-- Block `if (d->signal_id == signal_id_widget_show)`. -/
def dispatch_widget_show (w : World) (d : SoundEventData) (c : DispatchCtx) : DispatchCtx :=
  if d.signal_id = .widget_show then
    if is_menu_hint (w.obj d.object).type_hint then
      let c1 :=
        if c.st.menu_is_popped_up then ca_gtk_play w c "menu-popup" "Menu popped up"
        else ca_gtk_play w c "menu-replace" "Menu replaced"
      ⟨{ c1.st with menu_is_popped_up := true }, c1.ret⟩
    else if (w.obj d.object).type_hint = .TOOLTIP then
      ca_gtk_play w c "tooltip-popup" "Tooltip popped up"
    else if (w.obj d.object).type_hint = .NORMAL ∨ (w.obj d.object).type_hint = .DIALOG then
      let id := if (w.obj d.object).is_message_dialog then
          translate_message_tye (w.obj d.object).message_type
        else none
      match id with
      | some s => ca_gtk_play w c s "Message dialog shown"
      | none => ca_gtk_play w c "window-new" "Window shown"
    else c
  else c

/-- Block `if (GTK_IS_DIALOG(..) && .. == signal_id_dialog_response) .. else if
(.. == signal_id_widget_hide)`. -/
def dispatch_response_or_hide (w : World) (d : SoundEventData) (c : DispatchCtx) : DispatchCtx :=
  if (w.obj d.object).is_dialog ∧ d.signal_id = .dialog_response then
    match translate_response d.arg1 with
    | some s => ca_gtk_play w c s "Dialog closed"
    | none => ca_gtk_play w c "window-close" "Window closed"
  else if d.signal_id = .widget_hide then
    if is_menu_hint (w.obj d.object).type_hint then
      let c1 :=
        if (w.obj d.object).bin_child_is_menu then ca_gtk_play w c "menu-popdown" "Menu popped down"
        else c
      ⟨{ c1.st with menu_is_popped_up := false }, c1.ret⟩
    else if (w.obj d.object).type_hint = .TOOLTIP then
      ca_gtk_play w c "tooltip-popdown" "Tooltip popped down"
    else if (w.obj d.object).type_hint = .NORMAL ∨ (w.obj d.object).type_hint = .DIALOG then
      ca_gtk_play w c "window-close" "Window closed"
    else c
  else c

/-- Block `if (GTK_IS_WINDOW(..) && .. == signal_id_widget_window_state_event)`.
The emission hook stores the event of every window-state record, so a record
without one is never read here. -/
def dispatch_window_state (w : World) (d : SoundEventData) (c : DispatchCtx) : DispatchCtx :=
  if (w.obj d.object).is_window ∧ d.signal_id = .widget_window_state_event then
    match d.event with
    | none => c
    | some e =>
      let h := is_hidden w e.window
      let ph := c.st.was_hidden d.object
      let c1 : DispatchCtx :=
        ⟨{ c.st with was_hidden := fun p => if p = d.object then h else c.st.was_hidden p }, c.ret⟩
      if (e.changed_mask &&& GDK_WINDOW_STATE_ICONIFIED ≠ 0) ∧
          (e.new_window_state &&& GDK_WINDOW_STATE_ICONIFIED ≠ 0) ∧ h = true ∧ ph = false then
        ca_gtk_play w c1 "window-minimized" "Window minimized"
      else if (e.changed_mask &&& (GDK_WINDOW_STATE_MAXIMIZED ||| GDK_WINDOW_STATE_FULLSCREEN) ≠ 0) ∧
          (e.new_window_state &&& (GDK_WINDOW_STATE_MAXIMIZED ||| GDK_WINDOW_STATE_FULLSCREEN) ≠ 0) then
        ca_gtk_play w c1 "window-maximized" "Window maximized"
      else if (e.changed_mask &&& GDK_WINDOW_STATE_ICONIFIED ≠ 0) ∧
          ¬ (e.new_window_state &&& GDK_WINDOW_STATE_ICONIFIED ≠ 0) ∧ ph = true then
        ca_gtk_play w c1 "window-unminimized" "Window unminimized"
      else if (e.changed_mask &&& (GDK_WINDOW_STATE_MAXIMIZED ||| GDK_WINDOW_STATE_FULLSCREEN) ≠ 0) ∧
          ¬ (e.new_window_state &&& (GDK_WINDOW_STATE_MAXIMIZED ||| GDK_WINDOW_STATE_FULLSCREEN) ≠ 0) then
        ca_gtk_play w c1 "window-unmaximized" "Window unmaximized"
      else c1
  else c

/-- Block `if (GTK_IS_CHECK_MENU_ITEM(..) && ..) .. else if (GTK_IS_MENU_ITEM(..)
&& ..)`. -/
def dispatch_menu_item (w : World) (d : SoundEventData) (c : DispatchCtx) : DispatchCtx :=
  if (w.obj d.object).is_check_menu_item ∧ d.signal_id = .check_menu_item_toggled then
    if (w.obj d.object).active then
      ca_gtk_play w c "button-toggle-on" "Check menu item checked"
    else
      ca_gtk_play w c "button-toggle-off" "Check menu item unchecked"
  else if (w.obj d.object).is_menu_item ∧ d.signal_id = .menu_item_activate then
    if (w.obj d.object).submenu = false then
      ca_gtk_play w c "menu-click" "Menu item clicked"
    else c
  else c

/-- Block `if (GTK_IS_TOGGLE_BUTTON(..)) .. else if (GTK_IS_LINK_BUTTON(..)) ..
else if (GTK_IS_BUTTON(..) && !GTK_IS_TOGGLE_BUTTON(..))`. -/
def dispatch_button (w : World) (d : SoundEventData) (c : DispatchCtx) : DispatchCtx :=
  if (w.obj d.object).is_toggle_button then
    if d.signal_id = .toggle_button_toggled then
      if is_child_of_combo_box (w.widget d.object) = false then
        if (w.obj d.object).active then
          ca_gtk_play w c "button-toggle-on" "Toggle button checked"
        else
          ca_gtk_play w c "button-toggle-off" "Toggle button unchecked"
      else c
    else c
  else if (w.obj d.object).is_link_button then
    if d.signal_id = .button_pressed then
      ca_gtk_play w c "link-pressed" "Link pressed"
    else if d.signal_id = .button_released then
      ca_gtk_play w c "link-released" "Link released"
    else c
  else if (w.obj d.object).is_button ∧ (w.obj d.object).is_toggle_button = false then
    if d.signal_id = .button_pressed then
      ca_gtk_play w c "button-pressed" "Button pressed"
    else if d.signal_id = .button_released then
      let dont_play :=
        match find_parent_dialog (w.widget d.object) with
        | some dialog => (translate_response (dialog.response_for_widget d.object)).isSome
        | none => false
      if dont_play = false then
        ca_gtk_play w c "button-released" "Button released"
      else c
    else c
  else c

/-- Block `if (GTK_IS_NOTEBOOK(..) && ..)`. -/
def dispatch_notebook (w : World) (d : SoundEventData) (c : DispatchCtx) : DispatchCtx :=
  if (w.obj d.object).is_notebook ∧ d.signal_id = .notebook_switch_page then
    ca_gtk_play w c "notebook-tab-changed" "Tab changed"
  else c

/-- Block `if (GTK_IS_TREE_VIEW(..) && ..)`. -/
def dispatch_tree_view (w : World) (d : SoundEventData) (c : DispatchCtx) : DispatchCtx :=
  if (w.obj d.object).is_tree_view ∧ d.signal_id = .tree_view_cursor_changed then
    ca_gtk_play w c "item-selected" "Item selected"
  else c

/-- Block `if (GTK_IS_ICON_VIEW(..) && ..)`. -/
def dispatch_icon_view (w : World) (d : SoundEventData) (c : DispatchCtx) : DispatchCtx :=
  if (w.obj d.object).is_icon_view ∧ d.signal_id = .icon_view_selection_changed then
    ca_gtk_play w c "item-selected" "Item selected"
  else c

/-- The final `if (ret != CA_SUCCESS) g_warning(..)`. -/
def dispatch_warn (c : DispatchCtx) : DispatchState :=
  if c.ret ≠ CA_SUCCESS then { c.st with warnings := c.st.warnings ++ [c.ret] } else c.st

/-- Function `dispatch_sound_event`: the blocks run one after the other on the
same record. -/
def dispatch_sound_event (w : World) (s : DispatchState) (d : SoundEventData) : DispatchState :=
  if (w.obj d.object).disable_sound then s
  else
    dispatch_warn
      (dispatch_icon_view w d
        (dispatch_tree_view w d
          (dispatch_notebook w d
            (dispatch_button w d
              (dispatch_menu_item w d
                (dispatch_window_state w d
                  (dispatch_response_or_hide w d
                    (dispatch_widget_show w d ⟨s, CA_SUCCESS⟩))))))))

/-- The event ids `dispatch_sound_event` hands to the playback port for `d`,
in call order. -/
def dispatched_ids (w : World) (s : DispatchState) (d : SoundEventData) : List String :=
  ((dispatch_sound_event w s d).played.drop s.played.length).map PlayCall.event_id

/-! ## Idle handler -/

/-- State of the module: the static queue, `idle_id`, the dispatch state, and
two traces: the records handed to `dispatch_sound_event` and the records
released by `free_sound_event`, both oldest first. -/
structure ModuleState where
  sound_event_queue : List SoundEventData
  idle_id : Nat
  dispatch : DispatchState
  dispatched : List SoundEventData
  freed : List SoundEventData

/-- The `while ((d = g_queue_pop_head(..)))` loop of `idle_cb`, with no record
submitted while it runs. -/
def drain (w : World) : Nat → ModuleState → Option ModuleState
  | 0, _ => none
  | fuel + 1, s =>
    match s.sound_event_queue with
    | [] => some s
    | d :: q =>
      match filter_sound_event w d q with
      | none => none
      | some r =>
        match r.ret with
        | none =>
          drain w fuel
            { s with sound_event_queue := r.queue, freed := s.freed ++ r.freed }
        | some d1 =>
          drain w fuel
            { s with
              sound_event_queue := r.queue
              dispatch := dispatch_sound_event w s.dispatch d1
              dispatched := s.dispatched ++ [d1]
              freed := s.freed ++ r.freed ++ [d1] }

/-- Function `idle_cb`. Every turn of the loop pops one record, so
`length + 1` turns suffice. -/
def idle_cb (w : World) (s : ModuleState) : Option ModuleState :=
  drain w (s.sound_event_queue.length + 1) { s with idle_id := 0 }

/-- The records `idle_cb` hands to `dispatch_sound_event`, in call order. -/
def dispatch_order (w : World) (s : ModuleState) : List SoundEventData :=
  match idle_cb w s with
  | some s1 => s1.dispatched.drop s.dispatched.length
  | none => []

instance (w : World) (a b : SoundEventData) : Decidable (related w a b) := by
  unfold related
  infer_instance

/-- The block of `dispatch_sound_event` whose tests compare `d->signal_id` with
the given signal. -/
def block_for : SignalId → World → SoundEventData → DispatchCtx → DispatchCtx
  | .widget_show => dispatch_widget_show
  | .dialog_response => dispatch_response_or_hide
  | .widget_hide => dispatch_response_or_hide
  | .widget_window_state_event => dispatch_window_state
  | .check_menu_item_toggled => dispatch_menu_item
  | .menu_item_activate => dispatch_menu_item
  | .toggle_button_toggled => dispatch_button
  | .button_pressed => dispatch_button
  | .button_released => dispatch_button
  | .notebook_switch_page => dispatch_notebook
  | .tree_view_cursor_changed => dispatch_tree_view
  | .icon_view_selection_changed => dispatch_icon_view

/-- The same world with another playback port. -/
def World.with_port (w : World) (port : Nat → Int) : World :=
  { w with play_result := port }

/-- A context with the flags of `c`, an empty call trace, no warning and
`ret` at `CA_SUCCESS`. -/
def DispatchCtx.flags_only (c : DispatchCtx) : DispatchCtx :=
  ⟨⟨c.st.menu_is_popped_up, c.st.was_hidden, [], []⟩, CA_SUCCESS⟩

/-- The sound the window-state block picks for event `e`, from the detected
hidden state `h` and the stored was-hidden flag `ph`. -/
def window_state_sound (e : GdkEvent) (h ph : Bool) : List String :=
  if (e.changed_mask &&& GDK_WINDOW_STATE_ICONIFIED ≠ 0) ∧
      (e.new_window_state &&& GDK_WINDOW_STATE_ICONIFIED ≠ 0) ∧ h = true ∧ ph = false then
    ["window-minimized"]
  else if (e.changed_mask &&& (GDK_WINDOW_STATE_MAXIMIZED ||| GDK_WINDOW_STATE_FULLSCREEN) ≠ 0) ∧
      (e.new_window_state &&& (GDK_WINDOW_STATE_MAXIMIZED ||| GDK_WINDOW_STATE_FULLSCREEN) ≠ 0) then
    ["window-maximized"]
  else if (e.changed_mask &&& GDK_WINDOW_STATE_ICONIFIED ≠ 0) ∧
      (e.new_window_state &&& GDK_WINDOW_STATE_ICONIFIED = 0) ∧ ph = true then
    ["window-unminimized"]
  else if (e.changed_mask &&& (GDK_WINDOW_STATE_MAXIMIZED ||| GDK_WINDOW_STATE_FULLSCREEN) ≠ 0) ∧
      (e.new_window_state &&& (GDK_WINDOW_STATE_MAXIMIZED ||| GDK_WINDOW_STATE_FULLSCREEN) = 0) then
    ["window-unmaximized"]
  else []

/-- The records a pass with candidate `d` holds when it ends: the pointer it
goes on with or returns, the queue, and the freed records. -/
def ScanResult.contents (d : SoundEventData) : ScanResult → List SoundEventData
  | .returned_null q f => q ++ f
  | .broke d1 q f => d1 :: (q ++ f)
  | .completed q f => d :: (q ++ f)

/-- The number of times the `do ... while (i)` loop of `filter_sound_event`
goes back to the head of the queue, within the given number of passes. -/
def filter_restarts (w : World) : Nat → SoundEventData → List SoundEventData → Nat
  | 0, _, _ => 0
  | fuel + 1, d, q =>
    match scan w d q with
    | .broke d1 q1 _ => filter_restarts w fuel d1 q1 + 1
    | _ => 0

/-- The warnings a run logs for the playback calls number `start` to
`start + n - 1`: the codes the port returned for them that are not
`CA_SUCCESS`, in call order. -/
def failed_codes (port : Nat → Int) (start n : Nat) : List Int :=
  ((List.range' start n).map port).filter (fun c => decide (c ≠ CA_SUCCESS))

/-! ## Emission hook and host loop -/

/-- What `emission_hook_cb` reads of one signal emission: `hint->signal_id`,
the object in `param_values[0]`, `n_param_values`, the second parameter (as the
integer `g_value_get_int` reads later and as the event pointer
`g_value_peek_pointer` returns), the result of `gtk_get_current_event`, and
the address `g_slice_new0` hands out. -/
structure Emission where
  signal_id : SignalId
  object : Nat
  n_param_values : Nat
  param1_int : Int
  param1_pointer : Option GdkEvent
  current_event : Option GdkEvent
  slice : Nat

/-- The record `emission_hook_cb` fills in after `g_slice_new0`. -/
def new_sound_event (e : Emission) : SoundEventData where
  ptr := e.slice
  signal_id := e.signal_id
  object := e.object
  arg1 := if e.n_param_values > 1 then e.param1_int else 0
  arg1_is_set := decide (e.n_param_values > 1)
  event :=
    if e.signal_id = .widget_window_state_event then e.param1_pointer
    else e.current_event

/-- The module together with the GLib main loop: the idle sources added by
`g_idle_add_full` that have not run yet, and the last source id handed out
(ids are positive). -/
structure HostState where
  module : ModuleState
  idle_sources : List Nat
  last_source_id : Nat

/-- Function `emission_hook_cb` (it always returns TRUE, so the hook stays
installed): the two early returns, then the record is pushed to the tail of
the queue and an idle source is added when `idle_id` is 0. -/
def emission_hook_cb (w : World) (e : Emission) (h : HostState) : HostState :=
  if (e.signal_id = .widget_hide ∨ e.signal_id = .widget_show ∨
      e.signal_id = .widget_window_state_event) ∧ (w.obj e.object).is_window = false then h
  else if e.signal_id ≠ .widget_hide ∧ e.signal_id ≠ .dialog_response ∧
      (w.obj e.object).drawable = false then h
  else if h.module.idle_id = 0 then
    ⟨{ h.module with
        sound_event_queue := h.module.sound_event_queue ++ [new_sound_event e]
        idle_id := h.last_source_id + 1 },
      h.idle_sources ++ [h.last_source_id + 1], h.last_source_id + 1⟩
  else
    ⟨{ h.module with
        sound_event_queue := h.module.sound_event_queue ++ [new_sound_event e] },
      h.idle_sources, h.last_source_id⟩

/-- The pre-filter of `emission_hook_cb` as the two conditions under which a
record is enqueued. -/
def hook_accepts (w : World) (e : Emission) : Prop :=
  ((e.signal_id = .widget_hide ∨ e.signal_id = .widget_show ∨
      e.signal_id = .widget_window_state_event) → (w.obj e.object).is_window = true) ∧
  ((e.signal_id ≠ .widget_hide ∧ e.signal_id ≠ .dialog_response) →
    (w.obj e.object).drawable = true)

/-- The module and the main loop at start-up. -/
def initial_host_state : HostState :=
  ⟨⟨[], 0, ⟨true, fun _ => false, [], []⟩, [], []⟩, [], 0⟩

/-- States the host loop can be in between two callbacks: from start-up, a
signal emission runs `emission_hook_cb`, and the main loop runs a pending idle
source, which calls `idle_cb` and, as it returns FALSE, is removed. -/
inductive Reachable : HostState → Prop where
  | start : Reachable initial_host_state
  | submit (w : World) (e : Emission) (h : HostState) :
      Reachable h → Reachable (emission_hook_cb w e h)
  | idle (w : World) (h : HostState) (id : Nat) (rest : List Nat) (m : ModuleState) :
      Reachable h → h.idle_sources = id :: rest → idle_cb w h.module = some m →
      Reachable ⟨m, rest, h.last_source_id⟩

/-! ## Sound file reader (`src/read-sound-file.c`) -/

/-- The struct `ca_sound_file`: the two decoder handles (`none` for NULL), the
file name, and the channel count, sample rate and sample type stored when the
file was opened. -/
structure ca_sound_file where
  wav : Option Nat
  vorbis : Option Nat
  filename : String
  nchannels : Nat
  rate : Nat
  type : Nat
  deriving DecidableEq, Repr

/-- Function `ca_sound_file_get_nchannels`: the value returned and the struct
behind `f` after the call. -/
def ca_sound_file_get_nchannels (f : ca_sound_file) : Nat × ca_sound_file :=
  (f.nchannels, f)

/-- Function `ca_sound_file_get_rate`: the value returned and the struct behind
`f` after the call. -/
def ca_sound_file_get_rate (f : ca_sound_file) : Nat × ca_sound_file :=
  (f.nchannels, f)

/-- Function `ca_sound_file_get_sample_type`: the value returned and the struct
behind `f` after the call. -/
def ca_sound_file_get_sample_type (f : ca_sound_file) : Nat × ca_sound_file :=
  (f.type, f)

/-! ## Sample objects and records -/

/-- An object that passes no type check, with a normal type hint. -/
def plain_object : GObject where
  is_window := false
  is_dialog := false
  is_message_dialog := false
  is_menu_item := false
  is_check_menu_item := false
  is_toggle_button := false
  is_link_button := false
  is_button := false
  is_notebook := false
  is_tree_view := false
  is_icon_view := false
  is_combo_box := false
  type_hint := .NORMAL
  message_type := 0
  bin_child_is_menu := false
  active := false
  submenu := false
  response_for_widget := fun _ => -1
  disable_sound := false
  drawable := true

/-- A plain top-level window. -/
def sample_window : GObject := { plain_object with is_window := true }

/-- A dialog window. -/
def sample_dialog : GObject :=
  { plain_object with is_window := true, is_dialog := true, type_hint := .DIALOG }

/-- A popup-menu window holding a menu. -/
def sample_menu : GObject :=
  { plain_object with is_window := true, type_hint := .POPUP_MENU, bin_child_is_menu := true }

/-- A push button. -/
def sample_button : GObject := { plain_object with is_button := true }

/-- A world with a window at 1, a dialog at 2, menu windows at 3 and 4 and a
button at 5; every other pointer is a plain object. No window is hidden and
every playback call succeeds. -/
def sample_world : World where
  widget := fun p =>
    if p = 1 then .toplevel sample_window
    else if p = 2 then .toplevel sample_dialog
    else if p = 3 then .toplevel sample_menu
    else if p = 4 then .toplevel sample_menu
    else if p = 5 then .child sample_button (.toplevel sample_dialog)
    else .toplevel plain_object
  x_property := fun _ => ⟨0, XA_ATOM, 32, some []⟩
  net_wm_state_hidden := 7
  play_result := fun _ => CA_SUCCESS

/-- A record at address `ptr` for signal `sig` on object `obj`, without
argument or event. -/
def sample_record (ptr : Nat) (sig : SignalId) (obj : Nat) : SoundEventData :=
  ⟨ptr, sig, obj, 0, false, none⟩

/-- The state of the module at start-up, before any dispatch. -/
def initial_dispatch_state : DispatchState := ⟨true, fun _ => false, [], []⟩

/-- The sample world with every window reported hidden by the X server. -/
def sample_world_hidden : World :=
  { sample_world with x_property := fun _ => ⟨0, XA_ATOM, 32, some [7]⟩ }

/-- A window carrying the disable flag. -/
def sample_muted_window : GObject := { sample_window with disable_sound := true }

/-- A check menu item that is active. -/
def sample_check_item : GObject :=
  { plain_object with is_menu_item := true, is_check_menu_item := true, active := true }

/-- A toggle button that is not active. -/
def sample_toggle : GObject := { plain_object with is_button := true, is_toggle_button := true }

/-- A combo box. -/
def sample_combo : GObject := { plain_object with is_combo_box := true }

/-- A link button. -/
def sample_link : GObject := { plain_object with is_button := true, is_link_button := true }

/-- A button that is not drawable. -/
def sample_unmapped_button : GObject := { plain_object with is_button := true, drawable := false }

/-- A dialog in which every widget is the response widget for OK. -/
def sample_ok_dialog : GObject :=
  { sample_dialog with response_for_widget := fun _ => GTK_RESPONSE_OK }

/-- The sample world with the disable flag set on the window at 6, a check
menu item at 7, a toggle button at 8, a toggle button inside a combo box at 9,
a link button at 10, an undrawable button at 11 and the OK button of a dialog
at 12. -/
def sample_world_widgets : World :=
  { sample_world with
    widget := fun p =>
      if p = 6 then .toplevel sample_muted_window
      else if p = 7 then .toplevel sample_check_item
      else if p = 8 then .toplevel sample_toggle
      else if p = 9 then .child sample_toggle (.toplevel sample_combo)
      else if p = 10 then .toplevel sample_link
      else if p = 11 then .toplevel sample_unmapped_button
      else if p = 12 then .child sample_button (.toplevel sample_ok_dialog)
      else sample_world.widget p }

end Canberra

namespace Canberra

/-! ## One pass of the filter -/

theorem scan_cons (w : World) (d j : SoundEventData) (n : List SoundEventData) :
    scan w d (j :: n) =
      if cancels d j then .returned_null n [d, j]
      else if adopts w d j then .broke j n [d]
      else if eliminates w d j then (scan w d n).drop j
      else (scan w d n).keep j := by
  cases hd : d.signal_id <;> cases hj : j.signal_id <;>
    by_cases ho : d.object = j.object <;>
    cases hm : both_menu_windows w d.object j.object <;>
    simp [scan, cancels, adopts, eliminates, adopts_same_object, drops_same_object, hd, hj, ho, hm]

theorem prepend_nil (r : ScanResult) : r.prepend [] [] = r := by
  cases r <;> simp [ScanResult.prepend]

theorem prepend_keep (j : SoundEventData) (k f : List SoundEventData) (r : ScanResult) :
    (r.prepend k f).keep j = r.prepend (j :: k) f := by
  cases r <;> simp [ScanResult.prepend, ScanResult.keep]

theorem prepend_drop (j : SoundEventData) (k f : List SoundEventData) (r : ScanResult) :
    (r.prepend k f).drop j = r.prepend k (j :: f) := by
  cases r <;> simp [ScanResult.prepend, ScanResult.drop]

/-- A stretch of the queue in which no entry cancels or replaces the candidate
is passed over: its eliminated entries are freed, the others stay. -/
theorem scan_append (w : World) (d : SoundEventData) (pre rest : List SoundEventData)
    (h : ∀ j ∈ pre, cancels d j = false ∧ adopts w d j = false) :
    scan w d (pre ++ rest) =
      (scan w d rest).prepend (pre.filter (fun j => !eliminates w d j))
        (pre.filter (fun j => eliminates w d j)) := by
  induction pre with
  | nil => simp [prepend_nil]
  | cons j pre ih =>
    have hj := h j (List.mem_cons_self j pre)
    have ih1 := ih (fun x hx => h x (List.mem_cons_of_mem j hx))
    rw [List.cons_append, scan_cons, hj.1, hj.2, ih1]
    cases he : eliminates w d j <;> simp [he, prepend_keep, prepend_drop]

/-- A pass in which no entry cancels or replaces the candidate runs to the end
of the queue. -/
theorem scan_completed (w : World) (d : SoundEventData) (q : List SoundEventData)
    (h : ∀ j ∈ q, cancels d j = false ∧ adopts w d j = false) :
    scan w d q =
      .completed (q.filter (fun j => !eliminates w d j)) (q.filter (fun j => eliminates w d j)) := by
  have := scan_append w d q [] h
  simpa [scan, ScanResult.prepend] using this

/-- The queue a pass leaves is a sublist of the queue it started on. -/
theorem scan_queue_sublist (w : World) (d : SoundEventData) (q : List SoundEventData) :
    (scan w d q).queue.Sublist q := by
  induction q with
  | nil => simp [scan, ScanResult.queue]
  | cons j n ih =>
    rw [scan_cons]
    split
    · simp [ScanResult.queue]
    · split
      · simp [ScanResult.queue]
      · split
        · have : ((scan w d n).drop j).queue = (scan w d n).queue := by
            cases scan w d n <;> rfl
          rw [this]; exact ih.cons j
        · have : ((scan w d n).keep j).queue = j :: (scan w d n).queue := by
            cases scan w d n <;> rfl
          rw [this]; exact ih.cons₂ j

/-- A pass that breaks out has adopted an entry of the queue and unlinked it. -/
theorem scan_broke (w : World) (d : SoundEventData) (q : List SoundEventData)
    (d1 : SoundEventData) (q1 f : List SoundEventData) (h : scan w d q = .broke d1 q1 f) :
    adopts w d d1 = true ∧ d1 ∈ q ∧ q1.length < q.length ∧ d ∈ f ∧
      (q.Nodup → d1 ∉ q1) := by
  induction q generalizing q1 f with
  | nil => simp [scan] at h
  | cons j n ih =>
    rw [scan_cons] at h
    split at h
    · simp at h
    · rename_i hc
      split at h
      · rename_i ha
        simp only [ScanResult.broke.injEq] at h
        obtain ⟨rfl, rfl, rfl⟩ := h
        refine ⟨ha, List.mem_cons_self _ _, by simp, by simp, ?_⟩
        intro hn
        exact (List.nodup_cons.mp hn).1
      · split at h
        · cases hs : scan w d n with
          | returned_null a b => simp [hs, ScanResult.drop] at h
          | completed a b => simp [hs, ScanResult.drop] at h
          | broke d2 q2 f2 =>
            simp only [hs, ScanResult.drop, ScanResult.broke.injEq] at h
            obtain ⟨rfl, rfl, rfl⟩ := h
            obtain ⟨h1, h2, h3, h4, h5⟩ := ih q2 f2 hs
            refine ⟨h1, List.mem_cons_of_mem _ h2, ?_, List.mem_cons_of_mem _ h4, ?_⟩
            · simp only [List.length_cons]; omega
            · intro hn; exact h5 (List.nodup_cons.mp hn).2
        · cases hs : scan w d n with
          | returned_null a b => simp [hs, ScanResult.keep] at h
          | completed a b => simp [hs, ScanResult.keep] at h
          | broke d2 q2 f2 =>
            simp only [hs, ScanResult.keep, ScanResult.broke.injEq] at h
            obtain ⟨rfl, rfl, rfl⟩ := h
            obtain ⟨h1, h2, h3, h4, h5⟩ := ih q2 f2 hs
            refine ⟨h1, List.mem_cons_of_mem _ h2, ?_, h4, ?_⟩
            · simp only [List.length_cons]; omega
            · intro hn
              have hn' := List.nodup_cons.mp hn
              intro hmem
              rcases List.mem_cons.mp hmem with heq | hmem'
              · exact hn'.1 (heq ▸ h2)
              · exact h5 hn'.2 hmem'

/-! ## The retry loop of the filter -/

theorem filter_loop_succ (w : World) (fuel : Nat) (d : SoundEventData) (q : List SoundEventData) :
    filter_loop w (fuel + 1) d q =
      match scan w d q with
      | .returned_null q1 f => some ⟨none, q1, f⟩
      | .broke d1 q1 f =>
        match filter_loop w fuel d1 q1 with
        | none => none
        | some r => some ⟨r.ret, r.queue, f ++ r.freed⟩
      | .completed q1 f => some ⟨some d, q1, f⟩ := rfl

/-- With more passes allowed than the queue has entries, the loop returns. -/
theorem filter_loop_total (w : World) (fuel : Nat) (d : SoundEventData) (q : List SoundEventData)
    (h : q.length < fuel) : ∃ r, filter_loop w fuel d q = some r := by
  induction fuel generalizing d q with
  | zero => omega
  | succ n ih =>
    rw [filter_loop_succ]
    cases hs : scan w d q with
    | returned_null q1 f => exact ⟨_, rfl⟩
    | completed q1 f => exact ⟨_, rfl⟩
    | broke d1 q1 f =>
      have hlen := (scan_broke w d q d1 q1 f hs).2.2.1
      obtain ⟨r, hr⟩ := ih d1 q1 (by omega)
      exact ⟨⟨r.ret, r.queue, f ++ r.freed⟩, by simp [hr]⟩

/-- Induction over the passes of the loop. -/
theorem filter_loop_induct (w : World)
    (M : SoundEventData → List SoundEventData → FilterResult → Prop)
    (hnull : ∀ d q q1 f, scan w d q = .returned_null q1 f → M d q ⟨none, q1, f⟩)
    (hdone : ∀ d q q1 f, scan w d q = .completed q1 f → M d q ⟨some d, q1, f⟩)
    (hretry : ∀ d q d1 q1 f r, scan w d q = .broke d1 q1 f → M d1 q1 r →
      M d q ⟨r.ret, r.queue, f ++ r.freed⟩)
    (fuel : Nat) (d : SoundEventData) (q : List SoundEventData) (r : FilterResult)
    (h : filter_loop w fuel d q = some r) : M d q r := by
  induction fuel generalizing d q r with
  | zero => simp [filter_loop] at h
  | succ n ih =>
    rw [filter_loop_succ] at h
    cases hs : scan w d q with
    | returned_null q1 f =>
      simp only [hs, Option.some.injEq] at h
      subst h
      exact hnull d q q1 f hs
    | completed q1 f =>
      simp only [hs, Option.some.injEq] at h
      subst h
      exact hdone d q q1 f hs
    | broke d1 q1 f =>
      simp only [hs] at h
      cases hr : filter_loop w n d1 q1 with
      | none => simp [hr] at h
      | some r1 =>
        simp only [hr, Option.some.injEq] at h
        subst h
        exact hretry d q d1 q1 f r1 hs (ih d1 q1 r1 hr)

/-- The queue the filter leaves is a sublist of the queue it was given. -/
theorem filter_loop_sublist (w : World) (fuel : Nat) (d : SoundEventData)
    (q : List SoundEventData) (r : FilterResult) (h : filter_loop w fuel d q = some r) :
    r.queue.Sublist q := by
  refine filter_loop_induct w (fun _ q r => r.queue.Sublist q) ?_ ?_ ?_ fuel d q r h
  · intro d q q1 f hs
    have := scan_queue_sublist w d q
    rwa [hs] at this
  · intro d q q1 f hs
    have := scan_queue_sublist w d q
    rwa [hs] at this
  · intro d q d1 q1 f r hs ih
    have := scan_queue_sublist w d q
    rw [hs] at this
    exact ih.trans this

/-- The survivor is the candidate or an entry of the queue. -/
theorem filter_loop_ret_mem (w : World) (fuel : Nat) (d : SoundEventData)
    (q : List SoundEventData) (r : FilterResult) (h : filter_loop w fuel d q = some r) :
    ∀ s, r.ret = some s → s = d ∨ s ∈ q := by
  refine filter_loop_induct w (fun d q r => ∀ s, r.ret = some s → s = d ∨ s ∈ q)
    ?_ ?_ ?_ fuel d q r h
  · intro d q q1 f _ s hs
    simp at hs
  · intro d q q1 f _ s hs
    simp only [Option.some.injEq] at hs
    exact Or.inl hs.symm
  · intro d q d1 q1 f r hs ih s hr
    have hb := scan_broke w d q d1 q1 f hs
    have hsub := scan_queue_sublist w d q
    rw [hs] at hsub
    rcases ih s hr with h1 | h1
    · exact Or.inr (h1 ▸ hb.2.1)
    · exact Or.inr (hsub.subset h1)

theorem both_menu_windows_trans (w : World) (a b c : Nat)
    (h1 : both_menu_windows w a b = true) (h2 : both_menu_windows w b c = true) :
    both_menu_windows w a c = true := by
  simp only [both_menu_windows, Bool.and_eq_true] at *
  exact ⟨⟨h1.1.1, h2.1.2⟩, ⟨h1.2.1, h2.2.2⟩⟩

/-- An adopted entry may be coalesced with the candidate it replaces. -/
theorem adopts_related (w : World) (d j : SoundEventData) (h : adopts w d j = true) :
    related w d j := by
  simp only [adopts, Bool.or_eq_true, Bool.and_eq_true, decide_eq_true_eq] at h
  rcases h with h | h
  · exact Or.inl h.1
  · exact Or.inr h.1.2

/-- An adopted entry is a show, hide or dialog-response record. -/
theorem adopts_signal (w : World) (d j : SoundEventData) (h : adopts w d j = true) :
    j.signal_id = .widget_show ∨ j.signal_id = .widget_hide ∨ j.signal_id = .dialog_response := by
  simp only [adopts, adopts_same_object, Bool.or_eq_true, Bool.and_eq_true,
    decide_eq_true_eq] at h
  rcases h with ⟨_, (h | h) | h⟩ | h
  · exact Or.inr (Or.inr h.2)
  · exact Or.inr (Or.inl h.2)
  · exact Or.inl h.2
  · exact Or.inl h.2.2

/-- The survivor may be coalesced with the candidate the filter started on. -/
theorem filter_loop_related (w : World) (fuel : Nat) (d : SoundEventData)
    (q : List SoundEventData) (r : FilterResult) (h : filter_loop w fuel d q = some r) :
    ∀ s, r.ret = some s → related w d s := by
  refine filter_loop_induct w (fun d _ r => ∀ s, r.ret = some s → related w d s)
    ?_ ?_ ?_ fuel d q r h
  · intro d q q1 f _ s hs
    simp at hs
  · intro d q q1 f _ s hs
    simp only [Option.some.injEq] at hs
    exact Or.inl (by rw [hs])
  · intro d q d1 q1 f r hs ih s hr
    have ha := adopts_related w d d1 (scan_broke w d q d1 q1 f hs).1
    rcases ha with ha | ha <;> rcases ih s hr with h1 | h1
    · exact Or.inl (ha.trans h1)
    · exact Or.inr (by rw [ha]; exact h1)
    · exact Or.inr (by rw [← h1]; exact ha)
    · exact Or.inr (both_menu_windows_trans w _ _ _ ha h1)

/-- With distinct records, the survivor is no longer linked in the queue. -/
theorem filter_loop_ret_not_mem (w : World) (fuel : Nat) (d : SoundEventData)
    (q : List SoundEventData) (r : FilterResult) (h : filter_loop w fuel d q = some r) :
    (d :: q).Nodup → ∀ s, r.ret = some s → s ∉ r.queue := by
  refine filter_loop_induct w (fun d q r => (d :: q).Nodup → ∀ s, r.ret = some s → s ∉ r.queue)
    ?_ ?_ ?_ fuel d q r h
  · intro d q q1 f _ _ s hs
    simp at hs
  · intro d q q1 f hs hn s hr
    simp only [Option.some.injEq] at hr
    subst hr
    have hsub := scan_queue_sublist w d q
    rw [hs] at hsub
    intro hmem
    exact (List.nodup_cons.mp hn).1 (hsub.subset hmem)
  · intro d q d1 q1 f r hs ih hn s hr
    have hb := scan_broke w d q d1 q1 f hs
    have hsub := scan_queue_sublist w d q
    rw [hs] at hsub
    have hq := (List.nodup_cons.mp hn).2
    have hn1 : (d1 :: q1).Nodup :=
      List.nodup_cons.mpr ⟨hb.2.2.2.2 hq, hq.sublist hsub⟩
    exact ih hn1 s hr

/-- The first entry of a list with a given property splits the list. -/
theorem first_split {α : Type} (p : α → Prop) (q : List α) (h : ∃ j ∈ q, p j) :
    ∃ pre x post, q = pre ++ x :: post ∧ p x ∧ ∀ j ∈ pre, ¬ p j := by
  induction q with
  | nil => simp at h
  | cons a n ih =>
    by_cases ha : p a
    · exact ⟨[], a, n, rfl, ha, by simp⟩
    · obtain ⟨j, hj, hpj⟩ := h
      have hjn : j ∈ n := by
        rcases List.mem_cons.mp hj with rfl | hjn
        · exact absurd hpj ha
        · exact hjn
      obtain ⟨pre, x, post, hq, hx, hpre⟩ := ih ⟨j, hjn, hpj⟩
      refine ⟨a :: pre, x, post, by simp [hq], hx, ?_⟩
      intro k hk
      rcases List.mem_cons.mp hk with rfl | hk
      · exact ha
      · exact hpre k hk

/-! ## Coalescing rules -/

/-- C1: when the candidate is a show record on object A and the queue holds a
hide record for A, `filter_sound_event` returns NULL; the first such hide is
unlinked and freed together with the candidate, and the part of the queue
behind it is left as it was. -/
theorem show_then_hide_is_dropped (w : World) (d : SoundEventData) (q : List SoundEventData)
    (hd : d.signal_id = .widget_show)
    (hq : ∃ j ∈ q, j.object = d.object ∧ j.signal_id = .widget_hide) :
    ∃ pre h post, q = pre ++ h :: post ∧
      (h.object = d.object ∧ h.signal_id = .widget_hide) ∧
      (∀ j ∈ pre, ¬ (j.object = d.object ∧ j.signal_id = .widget_hide)) ∧
      filter_sound_event w d q =
        some ⟨none, pre.filter (fun j => !eliminates w d j) ++ post,
          pre.filter (fun j => eliminates w d j) ++ [d, h]⟩ := by
  obtain ⟨pre, h, post, hsplit, hh, hpre⟩ :=
    first_split (fun j => j.object = d.object ∧ j.signal_id = .widget_hide) q hq
  refine ⟨pre, h, post, hsplit, hh, hpre, ?_⟩
  have hpass : ∀ j ∈ pre, cancels d j = false ∧ adopts w d j = false := by
    intro j hj
    have hne := hpre j hj
    constructor
    · by_cases ho : d.object = j.object
      · have hs : j.signal_id ≠ .widget_hide := fun hs => hne ⟨ho.symm, hs⟩
        simp [cancels, hs]
      · simp [cancels, ho]
    · simp [adopts, adopts_same_object, hd]
  have hcancel : cancels d h = true := by
    simp [cancels, hd, hh.1, hh.2]
  have hscan : scan w d q =
      .returned_null (pre.filter (fun j => !eliminates w d j) ++ post)
        (pre.filter (fun j => eliminates w d j) ++ [d, h]) := by
    rw [hsplit, scan_append w d pre (h :: post) hpass, scan_cons, hcancel]
    simp [ScanResult.prepend]
  simp [filter_sound_event, filter_loop_succ, hscan]

/-- Witness for C1: a show on window 1, then a window-state event and a hide
of the same window. -/
theorem show_then_hide_is_dropped_witness :
    ∃ pre h post,
      [sample_record 11 .widget_window_state_event 1, sample_record 12 .widget_hide 1] =
        pre ++ h :: post ∧
      (h.object = (sample_record 10 .widget_show 1).object ∧ h.signal_id = .widget_hide) ∧
      (∀ j ∈ pre, ¬ (j.object = (sample_record 10 .widget_show 1).object ∧
        j.signal_id = .widget_hide)) ∧
      filter_sound_event sample_world (sample_record 10 .widget_show 1)
          [sample_record 11 .widget_window_state_event 1, sample_record 12 .widget_hide 1] =
        some ⟨none,
          pre.filter (fun j => !eliminates sample_world (sample_record 10 .widget_show 1) j) ++ post,
          pre.filter (fun j => eliminates sample_world (sample_record 10 .widget_show 1) j) ++
            [sample_record 10 .widget_show 1, h]⟩ :=
  show_then_hide_is_dropped sample_world (sample_record 10 .widget_show 1)
    [sample_record 11 .widget_window_state_event 1, sample_record 12 .widget_hide 1] rfl
    ⟨sample_record 12 .widget_hide 1, by simp, rfl, rfl⟩

/-! ## Dispatch: which block handles which signal -/

theorem dispatch_widget_show_other (w : World) (d : SoundEventData) (c : DispatchCtx)
    (h : d.signal_id ≠ .widget_show) : dispatch_widget_show w d c = c := by
  simp [dispatch_widget_show, h]

theorem dispatch_response_or_hide_other (w : World) (d : SoundEventData) (c : DispatchCtx)
    (h1 : d.signal_id ≠ .dialog_response) (h2 : d.signal_id ≠ .widget_hide) :
    dispatch_response_or_hide w d c = c := by
  simp [dispatch_response_or_hide, h1, h2]

theorem dispatch_window_state_other (w : World) (d : SoundEventData) (c : DispatchCtx)
    (h : d.signal_id ≠ .widget_window_state_event) : dispatch_window_state w d c = c := by
  simp [dispatch_window_state, h]

theorem dispatch_menu_item_other (w : World) (d : SoundEventData) (c : DispatchCtx)
    (h1 : d.signal_id ≠ .check_menu_item_toggled) (h2 : d.signal_id ≠ .menu_item_activate) :
    dispatch_menu_item w d c = c := by
  simp [dispatch_menu_item, h1, h2]

theorem dispatch_button_other (w : World) (d : SoundEventData) (c : DispatchCtx)
    (h1 : d.signal_id ≠ .toggle_button_toggled) (h2 : d.signal_id ≠ .button_pressed)
    (h3 : d.signal_id ≠ .button_released) : dispatch_button w d c = c := by
  simp [dispatch_button, h1, h2, h3]

theorem dispatch_notebook_other (w : World) (d : SoundEventData) (c : DispatchCtx)
    (h : d.signal_id ≠ .notebook_switch_page) : dispatch_notebook w d c = c := by
  simp [dispatch_notebook, h]

theorem dispatch_tree_view_other (w : World) (d : SoundEventData) (c : DispatchCtx)
    (h : d.signal_id ≠ .tree_view_cursor_changed) : dispatch_tree_view w d c = c := by
  simp [dispatch_tree_view, h]

theorem dispatch_icon_view_other (w : World) (d : SoundEventData) (c : DispatchCtx)
    (h : d.signal_id ≠ .icon_view_selection_changed) : dispatch_icon_view w d c = c := by
  simp [dispatch_icon_view, h]

theorem dispatch_warn_played (c : DispatchCtx) : (dispatch_warn c).played = c.st.played := by
  unfold dispatch_warn; split <;> rfl

theorem dispatch_warn_menu (c : DispatchCtx) :
    (dispatch_warn c).menu_is_popped_up = c.st.menu_is_popped_up := by
  unfold dispatch_warn; split <;> rfl

theorem dispatch_warn_was_hidden (c : DispatchCtx) :
    (dispatch_warn c).was_hidden = c.st.was_hidden := by
  unfold dispatch_warn; split <;> rfl

/-- A show record on an object without the disable flag is handled by the show
block alone. -/
theorem dispatch_show_eq (w : World) (s : DispatchState) (d : SoundEventData)
    (hs : d.signal_id = .widget_show) (hdis : (w.obj d.object).disable_sound = false) :
    dispatch_sound_event w s d = dispatch_warn (dispatch_widget_show w d ⟨s, CA_SUCCESS⟩) := by
  unfold dispatch_sound_event
  rw [dispatch_response_or_hide_other w d _ (by simp [hs]) (by simp [hs]),
    dispatch_window_state_other w d _ (by simp [hs]),
    dispatch_menu_item_other w d _ (by simp [hs]) (by simp [hs]),
    dispatch_button_other w d _ (by simp [hs]) (by simp [hs]) (by simp [hs]),
    dispatch_notebook_other w d _ (by simp [hs]),
    dispatch_tree_view_other w d _ (by simp [hs]),
    dispatch_icon_view_other w d _ (by simp [hs])]
  simp [hdis]

/-- A dialog-response or hide record on an object without the disable flag is
handled by the response/hide block alone. -/
theorem dispatch_response_hide_eq (w : World) (s : DispatchState) (d : SoundEventData)
    (hs : d.signal_id = .dialog_response ∨ d.signal_id = .widget_hide)
    (hdis : (w.obj d.object).disable_sound = false) :
    dispatch_sound_event w s d =
      dispatch_warn (dispatch_response_or_hide w d ⟨s, CA_SUCCESS⟩) := by
  unfold dispatch_sound_event
  rw [dispatch_widget_show_other w d _ (by rcases hs with hs | hs <;> simp [hs]),
    dispatch_window_state_other w d _ (by rcases hs with hs | hs <;> simp [hs]),
    dispatch_menu_item_other w d _ (by rcases hs with hs | hs <;> simp [hs])
      (by rcases hs with hs | hs <;> simp [hs]),
    dispatch_button_other w d _ (by rcases hs with hs | hs <;> simp [hs])
      (by rcases hs with hs | hs <;> simp [hs]) (by rcases hs with hs | hs <;> simp [hs]),
    dispatch_notebook_other w d _ (by rcases hs with hs | hs <;> simp [hs]),
    dispatch_tree_view_other w d _ (by rcases hs with hs | hs <;> simp [hs]),
    dispatch_icon_view_other w d _ (by rcases hs with hs | hs <;> simp [hs])]
  simp [hdis]

/-! ## Translation tables -/

theorem translate_response_nonneg (r : Int) (h : 0 ≤ r) : translate_response r = none := by
  simp [translate_response, translate_response_slot, h]

theorem translate_response_below (r : Int) (h1 : -2 ^ 31 ≤ r) (h2 : r < -11) :
    translate_response r = none := by
  have hu : as_unsigned (neg_int r) ≥ 12 := by
    unfold as_unsigned neg_int
    norm_num at h1 ⊢
    omega
  have hneg : ¬ (r ≥ 0) := by omega
  simp [translate_response, translate_response_slot, hneg, response_table, hu]

theorem translate_response_table (r : Int) (h1 : -11 ≤ r) (h2 : r < 0) :
    translate_response r =
      if r = GTK_RESPONSE_ACCEPT ∨ r = GTK_RESPONSE_OK ∨ r = GTK_RESPONSE_CLOSE ∨
          r = GTK_RESPONSE_YES ∨ r = GTK_RESPONSE_APPLY then some "dialog-ok"
      else if r = GTK_RESPONSE_REJECT ∨ r = GTK_RESPONSE_DELETE_EVENT ∨
          r = GTK_RESPONSE_CANCEL ∨ r = GTK_RESPONSE_NO then some "dialog-cancel"
      else none := by
  interval_cases r <;> rfl

/-- Function `translate_response` on every 32-bit response code. -/
theorem translate_response_eq (r : Int) (h1 : -2 ^ 31 ≤ r) (h2 : r < 2 ^ 31) :
    translate_response r =
      if r = GTK_RESPONSE_ACCEPT ∨ r = GTK_RESPONSE_OK ∨ r = GTK_RESPONSE_CLOSE ∨
          r = GTK_RESPONSE_YES ∨ r = GTK_RESPONSE_APPLY then some "dialog-ok"
      else if r = GTK_RESPONSE_REJECT ∨ r = GTK_RESPONSE_DELETE_EVENT ∨
          r = GTK_RESPONSE_CANCEL ∨ r = GTK_RESPONSE_NO then some "dialog-cancel"
      else none := by
  by_cases h0 : 0 ≤ r
  · rw [translate_response_nonneg r h0]
    simp only [GTK_RESPONSE_ACCEPT, GTK_RESPONSE_OK, GTK_RESPONSE_CLOSE, GTK_RESPONSE_YES,
      GTK_RESPONSE_APPLY, GTK_RESPONSE_REJECT, GTK_RESPONSE_DELETE_EVENT, GTK_RESPONSE_CANCEL,
      GTK_RESPONSE_NO]
    rw [if_neg (by omega), if_neg (by omega)]
  · by_cases h11 : r < -11
    · rw [translate_response_below r h1 h11]
      simp only [GTK_RESPONSE_ACCEPT, GTK_RESPONSE_OK, GTK_RESPONSE_CLOSE, GTK_RESPONSE_YES,
        GTK_RESPONSE_APPLY, GTK_RESPONSE_REJECT, GTK_RESPONSE_DELETE_EVENT, GTK_RESPONSE_CANCEL,
        GTK_RESPONSE_NO]
      rw [if_neg (by omega), if_neg (by omega)]
    · exact translate_response_table r (by omega) (by omega)

/-- Whenever `translate_response` indexes `response_table`, the index lies in
the table. -/
theorem translate_response_slot_bound (r : Int)
    (i : Int) (h : translate_response_slot r = some i) :
    0 ≤ i ∧ i < response_table.length := by
  unfold translate_response_slot at h
  split at h
  · simp at h
  · split at h
    · simp at h
    · rename_i hneg hlt
      simp only [Option.some.injEq] at h
      subst h
      simp only [response_table, List.length_cons, List.length_nil] at hlt ⊢
      unfold as_unsigned neg_int at hlt
      unfold neg_int
      norm_num at hlt ⊢
      omega

/-! ## Dispatch table -/

/-- C8: a dialog-response record with a 32-bit code on a dialog without the
disable flag plays `dialog-ok` for ACCEPT, OK, CLOSE, YES and APPLY,
`dialog-cancel` for REJECT, DELETE_EVENT, CANCEL and NO, and `window-close`
for every other code; and an index with which `translate_response` reads its
table lies inside the twelve entries. -/
theorem dialog_response_dispatch (w : World) (s : DispatchState) (d : SoundEventData)
    (hs : d.signal_id = .dialog_response) (hdlg : (w.obj d.object).is_dialog = true)
    (hdis : (w.obj d.object).disable_sound = false)
    (hlo : -2 ^ 31 ≤ d.arg1) (hhi : d.arg1 < 2 ^ 31) :
    dispatched_ids w s d =
      [if d.arg1 = GTK_RESPONSE_ACCEPT ∨ d.arg1 = GTK_RESPONSE_OK ∨ d.arg1 = GTK_RESPONSE_CLOSE ∨
          d.arg1 = GTK_RESPONSE_YES ∨ d.arg1 = GTK_RESPONSE_APPLY then "dialog-ok"
        else if d.arg1 = GTK_RESPONSE_REJECT ∨ d.arg1 = GTK_RESPONSE_DELETE_EVENT ∨
          d.arg1 = GTK_RESPONSE_CANCEL ∨ d.arg1 = GTK_RESPONSE_NO then "dialog-cancel"
        else "window-close"] ∧
    response_table.length = 12 ∧
    ∀ i, translate_response_slot d.arg1 = some i → 0 ≤ i ∧ i < response_table.length := by
  refine ⟨?_, rfl, translate_response_slot_bound d.arg1⟩
  rw [dispatched_ids, dispatch_response_hide_eq w s d (Or.inl hs) hdis, dispatch_warn_played]
  simp only [dispatch_response_or_hide, hdlg, hs, and_self, if_true,
    translate_response_eq d.arg1 hlo hhi]
  split_ifs <;> simp [ca_gtk_play]

/-- Witness for C8: the code CANCEL on the dialog at 2. -/
theorem dialog_response_dispatch_witness :
    dispatched_ids sample_world initial_dispatch_state
        ⟨20, .dialog_response, 2, GTK_RESPONSE_CANCEL, true, none⟩ =
      [if GTK_RESPONSE_CANCEL = GTK_RESPONSE_ACCEPT ∨ GTK_RESPONSE_CANCEL = GTK_RESPONSE_OK ∨
          GTK_RESPONSE_CANCEL = GTK_RESPONSE_CLOSE ∨ GTK_RESPONSE_CANCEL = GTK_RESPONSE_YES ∨
          GTK_RESPONSE_CANCEL = GTK_RESPONSE_APPLY then "dialog-ok"
        else if GTK_RESPONSE_CANCEL = GTK_RESPONSE_REJECT ∨
          GTK_RESPONSE_CANCEL = GTK_RESPONSE_DELETE_EVENT ∨
          GTK_RESPONSE_CANCEL = GTK_RESPONSE_CANCEL ∨
          GTK_RESPONSE_CANCEL = GTK_RESPONSE_NO then "dialog-cancel"
        else "window-close"] ∧
    response_table.length = 12 ∧
    ∀ i, translate_response_slot GTK_RESPONSE_CANCEL = some i →
      0 ≤ i ∧ i < response_table.length :=
  dialog_response_dispatch sample_world initial_dispatch_state
    ⟨20, .dialog_response, 2, GTK_RESPONSE_CANCEL, true, none⟩ rfl rfl rfl
    (by decide) (by decide)

theorem translate_message_tye_eq (mt : Nat) :
    translate_message_tye mt =
      if mt = GTK_MESSAGE_INFO then some "dialog-information"
      else if mt = GTK_MESSAGE_WARNING then some "dialog-warning"
      else if mt = GTK_MESSAGE_QUESTION then some "dialog-question"
      else if mt = GTK_MESSAGE_ERROR then some "dialog-error"
      else none := by
  by_cases h : mt < 5
  · interval_cases mt <;> rfl
  · have h5 : mt ≥ message_type_table.length := by
      simp only [message_type_table, List.length_cons, List.length_nil]; omega
    simp only [translate_message_tye, h5, if_true, GTK_MESSAGE_INFO, GTK_MESSAGE_WARNING,
      GTK_MESSAGE_QUESTION, GTK_MESSAGE_ERROR]
    rw [if_neg (by omega), if_neg (by omega), if_neg (by omega), if_neg (by omega)]

/-- C9: a show record on an object without the disable flag whose type hint is
not a menu hint plays `tooltip-popup` for a tooltip hint; for a normal or
dialog hint the `dialog-*` id of a message dialog of type info, warning,
question or error and `window-new` otherwise; and nothing for any other
hint. -/
theorem show_dispatch_without_menu_hint (w : World) (s : DispatchState) (d : SoundEventData)
    (hs : d.signal_id = .widget_show) (hdis : (w.obj d.object).disable_sound = false)
    (hmenu : is_menu_hint (w.obj d.object).type_hint = false) :
    dispatched_ids w s d =
      if (w.obj d.object).type_hint = .TOOLTIP then ["tooltip-popup"]
      else if (w.obj d.object).type_hint = .NORMAL ∨ (w.obj d.object).type_hint = .DIALOG then
        if (w.obj d.object).is_message_dialog = true ∧
            (w.obj d.object).message_type = GTK_MESSAGE_INFO then ["dialog-information"]
        else if (w.obj d.object).is_message_dialog = true ∧
            (w.obj d.object).message_type = GTK_MESSAGE_WARNING then ["dialog-warning"]
        else if (w.obj d.object).is_message_dialog = true ∧
            (w.obj d.object).message_type = GTK_MESSAGE_QUESTION then ["dialog-question"]
        else if (w.obj d.object).is_message_dialog = true ∧
            (w.obj d.object).message_type = GTK_MESSAGE_ERROR then ["dialog-error"]
        else ["window-new"]
      else [] := by
  rw [dispatched_ids, dispatch_show_eq w s d hs hdis, dispatch_warn_played]
  simp only [dispatch_widget_show, hs, if_true, hmenu, Bool.false_eq_true, if_false]
  by_cases ht : (w.obj d.object).type_hint = .TOOLTIP
  · simp [ht, ca_gtk_play]
  · by_cases hn : (w.obj d.object).type_hint = .NORMAL ∨ (w.obj d.object).type_hint = .DIALOG
    · simp only [ht, hn, if_true, if_false]
      cases hmd : (w.obj d.object).is_message_dialog
      · simp [ca_gtk_play]
      · simp only [if_true, translate_message_tye_eq, true_and]
        split_ifs <;> simp [ca_gtk_play]
    · simp [ht, hn]

/-- Witness for C9: a show of the plain window at 1. -/
theorem show_dispatch_without_menu_hint_witness :
    dispatched_ids sample_world initial_dispatch_state (sample_record 30 .widget_show 1) =
      if (sample_world.obj (sample_record 30 .widget_show 1).object).type_hint = .TOOLTIP then
        ["tooltip-popup"]
      else if (sample_world.obj (sample_record 30 .widget_show 1).object).type_hint = .NORMAL ∨
          (sample_world.obj (sample_record 30 .widget_show 1).object).type_hint = .DIALOG then
        if (sample_world.obj (sample_record 30 .widget_show 1).object).is_message_dialog = true ∧
            (sample_world.obj (sample_record 30 .widget_show 1).object).message_type =
              GTK_MESSAGE_INFO then ["dialog-information"]
        else if (sample_world.obj (sample_record 30 .widget_show 1).object).is_message_dialog = true ∧
            (sample_world.obj (sample_record 30 .widget_show 1).object).message_type =
              GTK_MESSAGE_WARNING then ["dialog-warning"]
        else if (sample_world.obj (sample_record 30 .widget_show 1).object).is_message_dialog = true ∧
            (sample_world.obj (sample_record 30 .widget_show 1).object).message_type =
              GTK_MESSAGE_QUESTION then ["dialog-question"]
        else if (sample_world.obj (sample_record 30 .widget_show 1).object).is_message_dialog = true ∧
            (sample_world.obj (sample_record 30 .widget_show 1).object).message_type =
              GTK_MESSAGE_ERROR then ["dialog-error"]
        else ["window-new"]
      else [] :=
  show_dispatch_without_menu_hint sample_world initial_dispatch_state
    (sample_record 30 .widget_show 1) rfl rfl rfl

/-- C10: a hide record on an object without the disable flag plays, for a menu
hint, `menu-popdown` exactly when the child of the window is a menu, and
clears `menu_is_popped_up` either way; for a tooltip hint `tooltip-popdown`;
for a normal or dialog hint `window-close`; nothing for any other hint; and
for a hint that is not a menu hint `menu_is_popped_up` keeps its value. -/
theorem hide_dispatch (w : World) (s : DispatchState) (d : SoundEventData)
    (hs : d.signal_id = .widget_hide) (hdis : (w.obj d.object).disable_sound = false) :
    dispatched_ids w s d =
      (if is_menu_hint (w.obj d.object).type_hint = true then
        (if (w.obj d.object).bin_child_is_menu = true then ["menu-popdown"] else [])
      else if (w.obj d.object).type_hint = .TOOLTIP then ["tooltip-popdown"]
      else if (w.obj d.object).type_hint = .NORMAL ∨ (w.obj d.object).type_hint = .DIALOG then
        ["window-close"]
      else []) ∧
    (dispatch_sound_event w s d).menu_is_popped_up =
      (if is_menu_hint (w.obj d.object).type_hint = true then false
      else s.menu_is_popped_up) := by
  have hne : d.signal_id ≠ .dialog_response := by simp [hs]
  rw [dispatched_ids, dispatch_response_hide_eq w s d (Or.inr hs) hdis, dispatch_warn_played,
    dispatch_warn_menu]
  simp only [dispatch_response_or_hide, hs, if_true]
  constructor
  · split_ifs <;> simp_all [ca_gtk_play]
  · split_ifs <;> simp_all [ca_gtk_play]

/-- Witness for C10: a hide of the popup-menu window at 3. -/
theorem hide_dispatch_witness :
    dispatched_ids sample_world initial_dispatch_state (sample_record 40 .widget_hide 3) =
      (if is_menu_hint (sample_world.obj (sample_record 40 .widget_hide 3).object).type_hint = true
      then
        (if (sample_world.obj (sample_record 40 .widget_hide 3).object).bin_child_is_menu = true
          then ["menu-popdown"] else [])
      else if (sample_world.obj (sample_record 40 .widget_hide 3).object).type_hint = .TOOLTIP then
        ["tooltip-popdown"]
      else if (sample_world.obj (sample_record 40 .widget_hide 3).object).type_hint = .NORMAL ∨
          (sample_world.obj (sample_record 40 .widget_hide 3).object).type_hint = .DIALOG then
        ["window-close"]
      else []) ∧
    (dispatch_sound_event sample_world initial_dispatch_state
        (sample_record 40 .widget_hide 3)).menu_is_popped_up =
      (if is_menu_hint (sample_world.obj (sample_record 40 .widget_hide 3).object).type_hint = true
        then false
      else initial_dispatch_state.menu_is_popped_up) :=
  hide_dispatch sample_world initial_dispatch_state (sample_record 40 .widget_hide 3) rfl rfl

/-- What the show block plays for a menu hint, and the flag it leaves. -/
theorem show_dispatch_menu_hint (w : World) (s : DispatchState) (d : SoundEventData)
    (hs : d.signal_id = .widget_show) (hdis : (w.obj d.object).disable_sound = false)
    (hmenu : is_menu_hint (w.obj d.object).type_hint = true) :
    dispatched_ids w s d = [if s.menu_is_popped_up = true then "menu-popup" else "menu-replace"] ∧
    (dispatch_sound_event w s d).menu_is_popped_up = true := by
  rw [dispatched_ids, dispatch_show_eq w s d hs hdis, dispatch_warn_played, dispatch_warn_menu]
  simp only [dispatch_widget_show, hs, if_true, hmenu]
  cases hf : s.menu_is_popped_up <;> simp [ca_gtk_play]

/-- C3: with a show record for window W as candidate and a window-state record
for W as the only queued record, the filter frees the window-state record and
returns the show, leaving the queue empty; dispatching that show on a window
without the disable flag, with a normal or dialog hint, that is not a message
dialog plays exactly `window-new`. -/
theorem show_absorbs_window_state (w : World) (s : DispatchState) (d j : SoundEventData)
    (hd : d.signal_id = .widget_show) (hj : j.signal_id = .widget_window_state_event)
    (hobj : j.object = d.object) (hdis : (w.obj d.object).disable_sound = false)
    (hhint : (w.obj d.object).type_hint = .NORMAL ∨ (w.obj d.object).type_hint = .DIALOG)
    (hmsg : (w.obj d.object).is_message_dialog = false) :
    filter_sound_event w d [j] = some ⟨some d, [], [j]⟩ ∧
    dispatched_ids w s d = ["window-new"] := by
  constructor
  · simp [filter_sound_event, filter_loop_succ, scan_cons, cancels, adopts, eliminates,
      adopts_same_object, drops_same_object, hd, hj, hobj, scan, ScanResult.drop]
  · rw [dispatched_ids, dispatch_show_eq w s d hd hdis, dispatch_warn_played]
    rcases hhint with h | h <;>
      simp [dispatch_widget_show, hd, h, is_menu_hint, hmsg, ca_gtk_play]

/-- Witness for C3: show then window-state event of the plain window at 1. -/
theorem show_absorbs_window_state_witness :
    filter_sound_event sample_world (sample_record 50 .widget_show 1)
        [⟨51, .widget_window_state_event, 1, 0, true, some ⟨1, 2, 2⟩⟩] =
      some ⟨some (sample_record 50 .widget_show 1), [],
        [⟨51, .widget_window_state_event, 1, 0, true, some ⟨1, 2, 2⟩⟩]⟩ ∧
    dispatched_ids sample_world initial_dispatch_state (sample_record 50 .widget_show 1) =
      ["window-new"] :=
  show_absorbs_window_state sample_world initial_dispatch_state (sample_record 50 .widget_show 1)
    ⟨51, .widget_window_state_event, 1, 0, true, some ⟨1, 2, 2⟩⟩ rfl rfl rfl rfl
    (Or.inl rfl) rfl

/-- C5: for records `a` and `b` on two different objects that are both windows
with a menu hint, candidate hide `a` against the queue holding show `b` frees
`a` and returns `b`, whose dispatch plays `menu-popup` or `menu-replace`, which
of the two being fixed by `menu_is_popped_up`; candidate show `a` against the
queue holding hide `b` frees `b` and returns `a`. When the two objects are not
both menu windows, neither record is freed. -/
theorem menu_windows_cross_object (w : World) (a b : SoundEventData)
    (hab : a.object ≠ b.object) :
    (both_menu_windows w a.object b.object = true →
      (a.signal_id = .widget_hide → b.signal_id = .widget_show →
        filter_sound_event w a [b] = some ⟨some b, [], [a]⟩ ∧
        ((w.obj b.object).disable_sound = false → ∀ s : DispatchState,
          (dispatched_ids w s b = ["menu-popup"] ∨ dispatched_ids w s b = ["menu-replace"]) ∧
          ∀ s1 : DispatchState, s1.menu_is_popped_up ≠ s.menu_is_popped_up →
            dispatched_ids w s1 b ≠ dispatched_ids w s b)) ∧
      (a.signal_id = .widget_show → b.signal_id = .widget_hide →
        filter_sound_event w a [b] = some ⟨some a, [], [b]⟩)) ∧
    (both_menu_windows w a.object b.object = false →
      (a.signal_id = .widget_hide ∧ b.signal_id = .widget_show) ∨
        (a.signal_id = .widget_show ∧ b.signal_id = .widget_hide) →
      filter_sound_event w a [b] = some ⟨some a, [b], []⟩) := by
  refine ⟨fun hm => ⟨fun ha hb => ⟨?_, ?_⟩, fun ha hb => ?_⟩, fun hm hsig => ?_⟩
  · simp [filter_sound_event, filter_loop_succ, scan_cons, cancels, adopts, eliminates,
      adopts_same_object, drops_same_object, ha, hb, hab, hm, scan]
  · intro hdis s
    have hmenu : is_menu_hint (w.obj b.object).type_hint = true := by
      simp only [both_menu_windows, Bool.and_eq_true] at hm
      exact hm.2.2
    have key := fun t => (show_dispatch_menu_hint w t b hb hdis hmenu).1
    refine ⟨?_, ?_⟩
    · rw [key s]
      cases s.menu_is_popped_up <;> simp
    · intro s1 hne
      rw [key s, key s1]
      cases h1 : s1.menu_is_popped_up <;> cases h2 : s.menu_is_popped_up <;>
        simp_all
  · simp [filter_sound_event, filter_loop_succ, scan_cons, cancels, adopts, eliminates,
      adopts_same_object, drops_same_object, ha, hb, hab, hm, scan, ScanResult.drop]
  · rcases hsig with ⟨ha, hb⟩ | ⟨ha, hb⟩ <;>
      simp [filter_sound_event, filter_loop_succ, scan_cons, cancels, adopts, eliminates,
        adopts_same_object, drops_same_object, ha, hb, hab, hm, scan, ScanResult.keep]

/-- Witness for C5: the menu windows at 3 and 4, and the plain window at 1
against the menu window at 3. -/
theorem menu_windows_cross_object_witness :
    (filter_sound_event sample_world (sample_record 60 .widget_hide 3)
        [sample_record 61 .widget_show 4] =
      some ⟨some (sample_record 61 .widget_show 4), [], [sample_record 60 .widget_hide 3]⟩ ∧
    (dispatched_ids sample_world initial_dispatch_state (sample_record 61 .widget_show 4) =
        ["menu-popup"] ∨
      dispatched_ids sample_world initial_dispatch_state (sample_record 61 .widget_show 4) =
        ["menu-replace"])) ∧
    filter_sound_event sample_world (sample_record 62 .widget_show 3)
        [sample_record 63 .widget_hide 4] =
      some ⟨some (sample_record 62 .widget_show 3), [], [sample_record 63 .widget_hide 4]⟩ ∧
    filter_sound_event sample_world (sample_record 64 .widget_hide 1)
        [sample_record 65 .widget_show 3] =
      some ⟨some (sample_record 64 .widget_hide 1), [sample_record 65 .widget_show 3], []⟩ :=
  ⟨⟨(((menu_windows_cross_object sample_world (sample_record 60 .widget_hide 3)
        (sample_record 61 .widget_show 4) (by decide)).1 rfl).1 rfl rfl).1,
    ((((menu_windows_cross_object sample_world (sample_record 60 .widget_hide 3)
        (sample_record 61 .widget_show 4) (by decide)).1 rfl).1 rfl rfl).2 rfl
          initial_dispatch_state).1⟩,
   ((menu_windows_cross_object sample_world (sample_record 62 .widget_show 3)
        (sample_record 63 .widget_hide 4) (by decide)).1 rfl).2 rfl rfl,
   (menu_windows_cross_object sample_world (sample_record 64 .widget_hide 1)
        (sample_record 65 .widget_show 3) (by decide)).2 rfl (Or.inl ⟨rfl, rfl⟩)⟩

/-- C7, evaluated on the code: a show of the popup-menu window at 3 plays
`menu-replace` when `menu_is_popped_up` is false and `menu-popup` when it is
true. From start-up, popping a menu up, down and up again plays `menu-popup`,
`menu-popdown`, `menu-replace`, although no menu is up at the second show. -/
theorem show_menu_flag_is_read_inverted :
    dispatched_ids sample_world ⟨false, fun _ => false, [], []⟩
        (sample_record 70 .widget_show 3) = ["menu-replace"] ∧
    dispatched_ids sample_world ⟨true, fun _ => false, [], []⟩
        (sample_record 70 .widget_show 3) = ["menu-popup"] ∧
    ((dispatch_sound_event sample_world
        (dispatch_sound_event sample_world
          (dispatch_sound_event sample_world initial_dispatch_state
            (sample_record 70 .widget_show 3))
          (sample_record 71 .widget_hide 3))
        (sample_record 72 .widget_show 3)).played.map PlayCall.event_id) =
      ["menu-popup", "menu-popdown", "menu-replace"] := by
  refine ⟨?_, ?_, ?_⟩
  · exact (show_dispatch_menu_hint sample_world ⟨false, fun _ => false, [], []⟩
      (sample_record 70 .widget_show 3) rfl rfl rfl).1
  · exact (show_dispatch_menu_hint sample_world ⟨true, fun _ => false, [], []⟩
      (sample_record 70 .widget_show 3) rfl rfl rfl).1
  · rfl

/-! ## Hide, dialog response and window state on one object -/

/-- A dialog-response candidate is never cancelled or replaced: one pass frees
the entries it eliminates and the candidate is returned. -/
theorem filter_loop_response (w : World) (fuel : Nat) (d : SoundEventData)
    (q : List SoundEventData) (hd : d.signal_id = .dialog_response) :
    filter_loop w (fuel + 1) d q =
      some ⟨some d, q.filter (fun j => !eliminates w d j),
        q.filter (fun j => eliminates w d j)⟩ := by
  have hpass : ∀ j ∈ q, cancels d j = false ∧ adopts w d j = false := by
    intro j _
    simp [cancels, adopts, adopts_same_object, hd]
  rw [filter_loop_succ, scan_completed w d q hpass]

/-- Behind a dialog-response candidate no hide of its object stays queued. -/
theorem no_hide_left_after_response (w : World) (d : SoundEventData)
    (q : List SoundEventData) (hd : d.signal_id = .dialog_response) :
    ∀ j ∈ q.filter (fun j => !eliminates w d j),
      ¬ (j.object = d.object ∧ j.signal_id = .widget_hide) := by
  intro j hj hc
  have hkeep := (List.mem_filter.mp hj).2
  simp [eliminates, drops_same_object, hd, hc.1, hc.2] at hkeep

/-- C2: (i) a dialog-response candidate on A is returned itself; (ii) for a
hide candidate on A, A not being a window with a menu hint, and a queue holding
a dialog response on A, the first such response is returned; in both cases no
hide on A is left in the queue. When A is a dialog without the disable flag and
the code is CANCEL, draining the queue holding the response and the hide, in
either order, dispatches the response alone and plays exactly `dialog-cancel`. -/
theorem hide_dropped_for_dialog_response (w : World) (d : SoundEventData)
    (q : List SoundEventData) :
    (d.signal_id = .dialog_response →
      ∃ r, filter_sound_event w d q = some r ∧ r.ret = some d ∧
        ∀ j ∈ r.queue, ¬ (j.object = d.object ∧ j.signal_id = .widget_hide)) ∧
    (d.signal_id = .widget_hide →
      ¬ ((w.obj d.object).is_window = true ∧ is_menu_hint (w.obj d.object).type_hint = true) →
      (∃ j ∈ q, j.object = d.object ∧ j.signal_id = .dialog_response) →
      ∃ pre x post, q = pre ++ x :: post ∧
        (x.object = d.object ∧ x.signal_id = .dialog_response) ∧
        (∀ j ∈ pre, ¬ (j.object = d.object ∧ j.signal_id = .dialog_response)) ∧
        ∃ r, filter_sound_event w d q = some r ∧ r.ret = some x ∧
          ∀ j ∈ r.queue, ¬ (j.object = d.object ∧ j.signal_id = .widget_hide)) ∧
    (∀ (x h : SoundEventData) (s : ModuleState),
      x.signal_id = .dialog_response → x.arg1 = GTK_RESPONSE_CANCEL →
      h.signal_id = .widget_hide → h.object = x.object →
      (w.obj x.object).is_dialog = true → (w.obj x.object).disable_sound = false →
      dispatched_ids w s.dispatch x = ["dialog-cancel"] ∧
      ∀ q0, q0 = [x, h] ∨ q0 = [h, x] →
        ∃ s1, idle_cb w { s with sound_event_queue := q0 } = some s1 ∧
          s1.sound_event_queue = [] ∧
          s1.dispatched = s.dispatched ++ [x] ∧
          s1.dispatch.played = s.dispatch.played ++ [⟨"dialog-cancel", "Dialog closed"⟩]) := by
  have part1 : ∀ (d : SoundEventData) (q : List SoundEventData),
      d.signal_id = .dialog_response →
      ∃ r, filter_sound_event w d q = some r ∧ r.ret = some d ∧
        ∀ j ∈ r.queue, ¬ (j.object = d.object ∧ j.signal_id = .widget_hide) := by
    intro d q hd
    exact ⟨_, filter_loop_response w q.length d q hd, rfl, no_hide_left_after_response w d q hd⟩
  have part2 : ∀ (d : SoundEventData) (q : List SoundEventData),
      d.signal_id = .widget_hide →
      ¬ ((w.obj d.object).is_window = true ∧ is_menu_hint (w.obj d.object).type_hint = true) →
      (∃ j ∈ q, j.object = d.object ∧ j.signal_id = .dialog_response) →
      ∃ pre x post, q = pre ++ x :: post ∧
        (x.object = d.object ∧ x.signal_id = .dialog_response) ∧
        (∀ j ∈ pre, ¬ (j.object = d.object ∧ j.signal_id = .dialog_response)) ∧
        ∃ r, filter_sound_event w d q = some r ∧ r.ret = some x ∧
          ∀ j ∈ r.queue, ¬ (j.object = d.object ∧ j.signal_id = .widget_hide) := by
    intro d q hd hnm hq
    obtain ⟨pre, x, post, hsplit, hx, hpre⟩ :=
      first_split (fun j => j.object = d.object ∧ j.signal_id = .dialog_response) q hq
    refine ⟨pre, x, post, hsplit, hx, hpre, ?_⟩
    have hbm : ∀ o, both_menu_windows w d.object o = false := by
      intro o
      cases h1 : (w.obj d.object).is_window <;>
        cases h2 : is_menu_hint (w.obj d.object).type_hint <;>
        simp_all [both_menu_windows]
    have hpass : ∀ j ∈ pre, cancels d j = false ∧ adopts w d j = false := by
      intro j hj
      have hne := hpre j hj
      constructor
      · simp [cancels, hd]
      · by_cases ho : d.object = j.object
        · have hs : j.signal_id ≠ .dialog_response := fun hs => hne ⟨ho.symm, hs⟩
          simp [adopts, adopts_same_object, hd, hs, hbm]
        · simp [adopts, ho, hbm]
    have hcx : cancels d x = false := by simp [cancels, hd]
    have hax : adopts w d x = true := by
      simp [adopts, adopts_same_object, hd, hx.1, hx.2]
    have hscan : scan w d q =
        .broke x (pre.filter (fun j => !eliminates w d j) ++ post)
          (pre.filter (fun j => eliminates w d j) ++ [d]) := by
      rw [hsplit, scan_append w d pre (x :: post) hpass, scan_cons, hcx, hax]
      simp [ScanResult.prepend]
    obtain ⟨n, hn⟩ : ∃ n, q.length = n + 1 := by
      rw [hsplit]; exact ⟨pre.length + post.length, by simp; omega⟩
    have hres : filter_sound_event w d q =
        some ⟨some x,
          (pre.filter (fun j => !eliminates w d j) ++ post).filter (fun j => !eliminates w x j),
          (pre.filter (fun j => eliminates w d j) ++ [d]) ++
            (pre.filter (fun j => !eliminates w d j) ++ post).filter
              (fun j => eliminates w x j)⟩ := by
      rw [filter_sound_event, hn, filter_loop_succ, hscan]
      simp only [filter_loop_response w n x _ hx.2]
    refine ⟨_, hres, rfl, ?_⟩
    intro j hj
    have := no_hide_left_after_response w x _ hx.2 j hj
    rwa [hx.1] at this
  refine ⟨part1 d q, part2 d q, ?_⟩
  intro x h s hx hcode hh hobj hdlg hdis
  have hplay : (dispatch_sound_event w s.dispatch x).played =
      s.dispatch.played ++ [⟨"dialog-cancel", "Dialog closed"⟩] := by
    rw [dispatch_response_hide_eq w s.dispatch x (Or.inl hx) hdis, dispatch_warn_played]
    have ht : translate_response x.arg1 = some "dialog-cancel" := by rw [hcode]; rfl
    simp [dispatch_response_or_hide, hdlg, hx, ht, ca_gtk_play]
  have hf1 : filter_sound_event w x [h] = some ⟨some x, [], [h]⟩ := by
    simp [filter_sound_event, filter_loop_succ, scan_cons, cancels, adopts, eliminates,
      adopts_same_object, drops_same_object, hx, hh, hobj, scan, ScanResult.drop]
  have hf2 : filter_sound_event w h [x] = some ⟨some x, [], [h]⟩ := by
    simp [filter_sound_event, filter_loop_succ, scan_cons, cancels, adopts, eliminates,
      adopts_same_object, drops_same_object, hx, hh, hobj, scan]
  have hrun : ∀ q0, q0 = [x, h] ∨ q0 = [h, x] →
      idle_cb w { s with sound_event_queue := q0 } =
        some ⟨[], 0, dispatch_sound_event w s.dispatch x, s.dispatched ++ [x],
          s.freed ++ [h] ++ [x]⟩ := by
    intro q0 hq0
    rcases hq0 with rfl | rfl
    · simp only [idle_cb, drain, hf1, List.length_cons, List.length_nil]
    · simp only [idle_cb, drain, hf2, List.length_cons, List.length_nil]
  refine ⟨?_, fun q0 hq0 => ⟨_, hrun q0 hq0, rfl, rfl, hplay⟩⟩
  simp [dispatched_ids, hplay]

/-- Witness for C2: the dialog at 2 with a hide candidate and a queue holding
a window-state event, the response CANCEL and a second hide; and the drain of
the response followed by the hide. -/
theorem hide_dropped_for_dialog_response_witness :
    (∃ pre x post,
      [sample_record 91 .widget_window_state_event 2,
        ⟨92, .dialog_response, 2, GTK_RESPONSE_CANCEL, true, none⟩,
        sample_record 93 .widget_hide 2] = pre ++ x :: post ∧
      (x.object = (sample_record 90 .widget_hide 2).object ∧ x.signal_id = .dialog_response) ∧
      (∀ j ∈ pre, ¬ (j.object = (sample_record 90 .widget_hide 2).object ∧
        j.signal_id = .dialog_response)) ∧
      ∃ r, filter_sound_event sample_world (sample_record 90 .widget_hide 2)
          [sample_record 91 .widget_window_state_event 2,
            ⟨92, .dialog_response, 2, GTK_RESPONSE_CANCEL, true, none⟩,
            sample_record 93 .widget_hide 2] = some r ∧ r.ret = some x ∧
        ∀ j ∈ r.queue, ¬ (j.object = (sample_record 90 .widget_hide 2).object ∧
          j.signal_id = .widget_hide)) ∧
    dispatched_ids sample_world initial_dispatch_state
      ⟨92, .dialog_response, 2, GTK_RESPONSE_CANCEL, true, none⟩ = ["dialog-cancel"] ∧
    (∃ s1, idle_cb sample_world
        { (⟨[], 1, initial_dispatch_state, [], []⟩ : ModuleState) with
          sound_event_queue := [⟨92, .dialog_response, 2, GTK_RESPONSE_CANCEL, true, none⟩,
            sample_record 93 .widget_hide 2] } = some s1 ∧
      s1.sound_event_queue = [] ∧
      s1.dispatched = (⟨[], 1, initial_dispatch_state, [], []⟩ : ModuleState).dispatched ++
        [⟨92, .dialog_response, 2, GTK_RESPONSE_CANCEL, true, none⟩] ∧
      s1.dispatch.played =
        (⟨[], 1, initial_dispatch_state, [], []⟩ : ModuleState).dispatch.played ++
          [⟨"dialog-cancel", "Dialog closed"⟩]) :=
  ⟨(hide_dropped_for_dialog_response sample_world (sample_record 90 .widget_hide 2)
      [sample_record 91 .widget_window_state_event 2,
        ⟨92, .dialog_response, 2, GTK_RESPONSE_CANCEL, true, none⟩,
        sample_record 93 .widget_hide 2]).2.1 rfl (by decide)
      ⟨⟨92, .dialog_response, 2, GTK_RESPONSE_CANCEL, true, none⟩, by simp, rfl, rfl⟩,
   ((hide_dropped_for_dialog_response sample_world (sample_record 90 .widget_hide 2) []).2.2
      ⟨92, .dialog_response, 2, GTK_RESPONSE_CANCEL, true, none⟩
      (sample_record 93 .widget_hide 2) ⟨[], 1, initial_dispatch_state, [], []⟩
      rfl rfl rfl rfl rfl rfl).1,
   ((hide_dropped_for_dialog_response sample_world (sample_record 90 .widget_hide 2) []).2.2
      ⟨92, .dialog_response, 2, GTK_RESPONSE_CANCEL, true, none⟩
      (sample_record 93 .widget_hide 2) ⟨[], 1, initial_dispatch_state, [], []⟩
      rfl rfl rfl rfl rfl rfl).2 _ (Or.inl rfl)⟩

/-- A candidate that is a show, hide or dialog-response record is only ever
replaced by such a record. -/
theorem filter_loop_signal (w : World) (fuel : Nat) (d : SoundEventData)
    (q : List SoundEventData) (r : FilterResult) (h : filter_loop w fuel d q = some r)
    (hd : d.signal_id = .widget_show ∨ d.signal_id = .widget_hide ∨
      d.signal_id = .dialog_response) :
    ∀ s, r.ret = some s →
      s.signal_id = .widget_show ∨ s.signal_id = .widget_hide ∨
        s.signal_id = .dialog_response := by
  refine filter_loop_induct w
    (fun d _ r => (d.signal_id = .widget_show ∨ d.signal_id = .widget_hide ∨
        d.signal_id = .dialog_response) →
      ∀ s, r.ret = some s →
        s.signal_id = .widget_show ∨ s.signal_id = .widget_hide ∨
          s.signal_id = .dialog_response) ?_ ?_ ?_ fuel d q r h hd
  · intro d q q1 f _ _ s hs
    simp at hs
  · intro d q q1 f _ hd s hs
    simp only [Option.some.injEq] at hs
    rw [← hs]; exact hd
  · intro d q d1 q1 f r hs ih _ s hr
    exact ih (adopts_signal w d d1 (scan_broke w d q d1 q1 f hs).1) s hr

/-- C4: when the candidate is a window-state record on object A and the queue
holds a show or hide record on A, the filter returns and its result is not a
window-state record: it is NULL or a show, hide or dialog-response record; the
candidate itself is freed. -/
theorem window_state_dropped_for_show_hide (w : World) (d : SoundEventData)
    (q : List SoundEventData) (hd : d.signal_id = .widget_window_state_event)
    (hq : ∃ j ∈ q, j.object = d.object ∧
      (j.signal_id = .widget_show ∨ j.signal_id = .widget_hide)) :
    ∃ r, filter_sound_event w d q = some r ∧
      (r.ret = none ∨ ∃ s, r.ret = some s ∧
        (s.signal_id = .widget_show ∨ s.signal_id = .widget_hide ∨
          s.signal_id = .dialog_response)) ∧
      (∀ s, r.ret = some s → s.signal_id ≠ .widget_window_state_event) ∧
      d ∈ r.freed ∧ r.ret ≠ some d := by
  obtain ⟨pre, x, post, hsplit, hx, hpre⟩ :=
    first_split (fun j => j.object = d.object ∧
      (j.signal_id = .widget_show ∨ j.signal_id = .widget_hide)) q hq
  have hpass : ∀ j ∈ pre, cancels d j = false ∧ adopts w d j = false := by
    intro j hj
    have hne := hpre j hj
    constructor
    · simp [cancels, hd]
    · by_cases ho : d.object = j.object
      · have h1 : j.signal_id ≠ .widget_show := fun hs => hne ⟨ho.symm, Or.inl hs⟩
        have h2 : j.signal_id ≠ .widget_hide := fun hs => hne ⟨ho.symm, Or.inr hs⟩
        simp [adopts, adopts_same_object, hd, h1, h2]
      · simp [adopts, ho, hd]
  have hcx : cancels d x = false := by simp [cancels, hd]
  have hax : adopts w d x = true := by
    rcases hx.2 with h | h <;> simp [adopts, adopts_same_object, hd, hx.1, h]
  have hscan : scan w d q =
      .broke x (pre.filter (fun j => !eliminates w d j) ++ post)
        (pre.filter (fun j => eliminates w d j) ++ [d]) := by
    rw [hsplit, scan_append w d pre (x :: post) hpass, scan_cons, hcx, hax]
    simp [ScanResult.prepend]
  have hlen := (scan_broke w d q x _ _ hscan).2.2.1
  obtain ⟨r1, hr1⟩ := filter_loop_total w q.length x _ hlen
  have hsig := filter_loop_signal w q.length x _ r1 hr1
    (by rcases hx.2 with h | h <;> simp [h])
  have hres : filter_sound_event w d q =
      some ⟨r1.ret, r1.queue, (pre.filter (fun j => eliminates w d j) ++ [d]) ++ r1.freed⟩ := by
    rw [filter_sound_event, filter_loop_succ, hscan]
    simp only [hr1]
  have hnot : ∀ s, r1.ret = some s → s.signal_id ≠ .widget_window_state_event := by
    intro s hs
    rcases hsig s hs with h | h | h <;> simp [h]
  refine ⟨_, hres, ?_, hnot, by simp, ?_⟩
  · cases hret : r1.ret with
    | none => exact Or.inl rfl
    | some s => exact Or.inr ⟨s, rfl, hsig s hret⟩
  · intro hc
    exact hnot d hc hd

/-- Witness for C4: a window-state event of window 1 followed by a button
press and a show of window 1. -/
theorem window_state_dropped_for_show_hide_witness :
    ∃ r, filter_sound_event sample_world (sample_record 100 .widget_window_state_event 1)
        [sample_record 101 .button_pressed 5, sample_record 102 .widget_show 1] = some r ∧
      (r.ret = none ∨ ∃ s, r.ret = some s ∧
        (s.signal_id = .widget_show ∨ s.signal_id = .widget_hide ∨
          s.signal_id = .dialog_response)) ∧
      (∀ s, r.ret = some s → s.signal_id ≠ .widget_window_state_event) ∧
      sample_record 100 .widget_window_state_event 1 ∈ r.freed ∧
      r.ret ≠ some (sample_record 100 .widget_window_state_event 1) :=
  window_state_dropped_for_show_hide sample_world
    (sample_record 100 .widget_window_state_event 1)
    [sample_record 101 .button_pressed 5, sample_record 102 .widget_show 1] rfl
    ⟨sample_record 102 .widget_show 1, by simp, rfl, Or.inl rfl⟩

/-- Only a hide or window-state candidate is ever replaced. -/
theorem adopts_candidate_signal (w : World) (d j : SoundEventData) (h : adopts w d j = true) :
    d.signal_id = .widget_hide ∨ d.signal_id = .widget_window_state_event := by
  simp only [adopts, adopts_same_object, Bool.or_eq_true, Bool.and_eq_true,
    decide_eq_true_eq] at h
  rcases h with ⟨_, (h | h) | h⟩ | h
  · exact Or.inl h.1
  · exact Or.inr h.1
  · exact Or.inr h.1
  · exact Or.inl h.2.1

/-- A survivor other than the candidate was adopted in place of a hide or
window-state candidate. -/
theorem filter_loop_ret_adopted (w : World) (fuel : Nat) (d : SoundEventData)
    (q : List SoundEventData) (r : FilterResult) (h : filter_loop w fuel d q = some r) :
    ∀ s, r.ret = some s → s ≠ d →
      d.signal_id = .widget_hide ∨ d.signal_id = .widget_window_state_event := by
  refine filter_loop_induct w
    (fun d _ r => ∀ s, r.ret = some s → s ≠ d →
      d.signal_id = .widget_hide ∨ d.signal_id = .widget_window_state_event)
    ?_ ?_ ?_ fuel d q r h
  · intro d q q1 f _ s hs
    simp at hs
  · intro d q q1 f _ s hs hne
    simp only [Option.some.injEq] at hs
    exact absurd hs.symm hne
  · intro d q d1 q1 f r hs _ s _ _
    exact adopts_candidate_signal w d d1 (scan_broke w d q d1 q1 f hs).1

/-! ## Order of dispatch while the queue is drained -/

/-- In a list without repetition, the order of two entries of a sublist is
their order in the list. -/
theorem pair_sublist_restrict {α : Type} (l1 l : List α) (x y : α) (hsub : l1.Sublist l)
    (hn : l.Nodup) (hx : x ∈ l1) (hy : y ∈ l1) (hxy : [x, y].Sublist l) :
    [x, y].Sublist l1 := by
  induction hsub with
  | slnil => simp at hx
  | @cons k m a hkm ih =>
    have hnd := List.nodup_cons.mp hn
    cases hxy with
    | cons _ h1 => exact ih hnd.2 hx hy h1
    | cons₂ _ h1 => exact absurd (hkm.subset hx) hnd.1
  | @cons₂ k m a hkm ih =>
    have hnd := List.nodup_cons.mp hn
    cases hxy with
    | cons _ h1 =>
      have hxm : x ∈ m := h1.subset (by simp)
      have hym : y ∈ m := h1.subset (by simp)
      have hxk : x ∈ k := by
        rcases List.mem_cons.mp hx with rfl | h
        · exact absurd hxm hnd.1
        · exact h
      have hyk : y ∈ k := by
        rcases List.mem_cons.mp hy with rfl | h
        · exact absurd hym hnd.1
        · exact h
      exact (ih hnd.2 hxk hyk h1).cons a
    | cons₂ _ h1 =>
      have hym : y ∈ m := h1.subset (by simp)
      have hyk : y ∈ k := by
        rcases List.mem_cons.mp hy with rfl | h
        · exact absurd hym hnd.1
        · exact h
      exact (List.singleton_sublist.mpr hyk).cons₂ _

theorem drain_succ (w : World) (fuel : Nat) (s : ModuleState) :
    drain w (fuel + 1) s =
      match s.sound_event_queue with
      | [] => some s
      | d :: q =>
        match filter_sound_event w d q with
        | none => none
        | some r =>
          match r.ret with
          | none =>
            drain w fuel
              { s with sound_event_queue := r.queue, freed := s.freed ++ r.freed }
          | some d1 =>
            drain w fuel
              { s with
                sound_event_queue := r.queue
                dispatch := dispatch_sound_event w s.dispatch d1
                dispatched := s.dispatched ++ [d1]
                freed := s.freed ++ r.freed ++ [d1] } := rfl

/-- With more turns allowed than the queue has entries, the drain loop ends,
and it ends on an empty queue. -/
theorem drain_total (w : World) (fuel : Nat) (s : ModuleState)
    (h : s.sound_event_queue.length < fuel) :
    ∃ s1, drain w fuel s = some s1 ∧ s1.sound_event_queue = [] := by
  induction fuel generalizing s with
  | zero => omega
  | succ n ih =>
    rw [drain_succ]
    cases hq : s.sound_event_queue with
    | nil => exact ⟨s, rfl, hq⟩
    | cons d q =>
      rw [hq] at h
      simp only [List.length_cons] at h
      obtain ⟨r, hr⟩ := filter_loop_total w (q.length + 1) d q (by omega)
      have hlen := (filter_loop_sublist w _ d q r hr).length_le
      have hr1 : filter_sound_event w d q = some r := hr
      simp only [hr1]
      cases hret : r.ret with
      | none => exact ih _ (by simp only; omega)
      | some d1 => exact ih _ (by simp only; omega)

/-- The records dispatched by the drain loop come from the queue, none is
dispatched twice, and two of them that may not be coalesced keep their queue
order when no hide or window-state record before the first may be coalesced
with the second. -/
theorem drain_order (w : World) (fuel : Nat) (s s1 : ModuleState)
    (h : drain w fuel s = some s1) (hn : s.sound_event_queue.Nodup) :
    ∃ D, s1.dispatched = s.dispatched ++ D ∧ (∀ z ∈ D, z ∈ s.sound_event_queue) ∧ D.Nodup ∧
      ∀ x y, [x, y].Sublist s.sound_event_queue → x ∈ D → y ∈ D → ¬ related w x y →
        (∀ z, [z, x].Sublist s.sound_event_queue →
          (z.signal_id = .widget_hide ∨ z.signal_id = .widget_window_state_event) →
          ¬ related w z y) →
        [x, y].Sublist D := by
  induction fuel generalizing s with
  | zero => simp [drain] at h
  | succ n ih =>
    rw [drain_succ] at h
    cases hq : s.sound_event_queue with
    | nil =>
      simp only [hq, Option.some.injEq] at h
      subst h
      exact ⟨[], by simp, by simp, List.nodup_nil, by simp⟩
    | cons d q =>
      rw [hq] at hn
      have hnd0 := List.nodup_cons.mp hn
      have hnq := hnd0.2
      simp only [hq] at h
      cases hf : filter_sound_event w d q with
      | none => simp [hf] at h
      | some r =>
        simp only [hf] at h
        have hsub : r.queue.Sublist q := filter_loop_sublist w _ d q r hf
        have hsub1 : r.queue.Sublist (d :: q) := hsub.cons d
        have hnr : r.queue.Nodup := hnq.sublist hsub
        -- order among the records dispatched after this turn
        have later : ∀ D1 : List SoundEventData,
            (∀ z ∈ D1, z ∈ r.queue) →
            (∀ x y, [x, y].Sublist r.queue → x ∈ D1 → y ∈ D1 → ¬ related w x y →
              (∀ z, [z, x].Sublist r.queue →
                (z.signal_id = .widget_hide ∨ z.signal_id = .widget_window_state_event) →
                ¬ related w z y) →
              [x, y].Sublist D1) →
            ∀ x y, [x, y].Sublist (d :: q) → x ∈ D1 → y ∈ D1 → ¬ related w x y →
              (∀ z, [z, x].Sublist (d :: q) →
                (z.signal_id = .widget_hide ∨ z.signal_id = .widget_window_state_event) →
                ¬ related w z y) →
              [x, y].Sublist D1 := by
          intro D1 hmem hord x y hxy hx hy hun hrel
          refine hord x y ?_ hx hy hun ?_
          · exact pair_sublist_restrict r.queue (d :: q) x y hsub1 hn (hmem x hx) (hmem y hy) hxy
          · intro z hz
            exact hrel z (hz.trans hsub1)
        cases hret : r.ret with
        | none =>
          simp only [hret] at h
          obtain ⟨D1, hD1, hmem, hnd, hord⟩ := ih _ h hnr
          refine ⟨D1, hD1, ?_, hnd, later D1 hmem hord⟩
          intro z hz
          exact hsub1.subset (hmem z hz)
        | some d1 =>
          simp only [hret] at h
          obtain ⟨D1, hD1, hmem, hnd, hord⟩ := ih _ h hnr
          have hd1 : d1 = d ∨ d1 ∈ q := filter_loop_ret_mem w _ d q r hf d1 hret
          have hrel1 : related w d d1 := filter_loop_related w _ d q r hf d1 hret
          have hout : d1 ∉ r.queue := filter_loop_ret_not_mem w _ d q r hf hn d1 hret
          refine ⟨d1 :: D1, ?_, ?_, ?_, ?_⟩
          · rw [hD1]; simp
          · intro z hz
            rcases List.mem_cons.mp hz with rfl | hz
            · exact List.mem_cons.mpr hd1
            · exact hsub1.subset (hmem z hz)
          · exact List.nodup_cons.mpr ⟨fun hc => hout (hmem d1 hc), hnd⟩
          · intro x y hxy hx hy hun hrel
            rcases List.mem_cons.mp hy with hy1 | hy1
            · -- the survivor cannot be the later record
              exfalso
              rw [← hy1] at hrel1 hret
              have hyq : y ∈ q := by
                cases hxy with
                | cons _ h1 => exact h1.subset (by simp)
                | cons₂ _ h1 => exact h1.subset (by simp)
              have hyd : y ≠ d := fun hc => hnd0.1 (hc ▸ hyq)
              have hsig := filter_loop_ret_adopted w _ d q r hf y hret hyd
              by_cases hxd : d = x
              · exact hun (hxd ▸ hrel1)
              · have hxq : x ∈ q := by
                  have : x ∈ d :: q := hxy.subset (by simp)
                  rcases List.mem_cons.mp this with h1 | h1
                  · exact absurd h1.symm hxd
                  · exact h1
                exact hrel d ((List.singleton_sublist.mpr hxq).cons₂ d) hsig hrel1
            · rcases List.mem_cons.mp hx with hx1 | hx1
              · rw [hx1]
                exact (List.singleton_sublist.mpr hy1).cons₂ _
              · exact (later D1 hmem hord x y hxy hx1 hy1 hun hrel).cons d1

/-- C6 as stated fails: with a window-state event of window 1, then a press
of button 5, then a show of window 1 in the queue, the press is enqueued before
the show, the two objects differ and are not both menu windows, both records
are dispatched, and the show is dispatched first. -/
theorem dispatch_order_not_fifo_for_unrelated :
    [sample_record 121 .button_pressed 5, sample_record 122 .widget_show 1].Sublist
      [sample_record 120 .widget_window_state_event 1, sample_record 121 .button_pressed 5,
        sample_record 122 .widget_show 1] ∧
    (sample_record 121 .button_pressed 5).object ≠ (sample_record 122 .widget_show 1).object ∧
    both_menu_windows sample_world (sample_record 121 .button_pressed 5).object
      (sample_record 122 .widget_show 1).object = false ∧
    dispatch_order sample_world
        ⟨[sample_record 120 .widget_window_state_event 1, sample_record 121 .button_pressed 5,
          sample_record 122 .widget_show 1], 1, initial_dispatch_state, [], []⟩ =
      [sample_record 122 .widget_show 1, sample_record 121 .button_pressed 5] ∧
    ¬ [sample_record 121 .button_pressed 5, sample_record 122 .widget_show 1].Sublist
      (dispatch_order sample_world
        ⟨[sample_record 120 .widget_window_state_event 1, sample_record 121 .button_pressed 5,
          sample_record 122 .widget_show 1], 1, initial_dispatch_state, [], []⟩) := by
  refine ⟨by decide, by decide, by decide, by decide, by decide⟩

/-- C6 (amended): `idle_cb` without reentrant submissions returns and
dispatches no record twice; for records `x` and `y` of a queue of distinct
records that are on different objects, not both menu windows, with `x` enqueued
before `y` and both dispatched, `x` is dispatched before `y` provided that no
hide or window-state record enqueued before `x` is on the object of `y`, or on
a menu window while the object of `y` is a menu window too. -/
theorem dispatch_order_fifo (w : World) (s : ModuleState) (x y : SoundEventData)
    (hn : s.sound_event_queue.Nodup)
    (hxy : [x, y].Sublist s.sound_event_queue)
    (hx : x ∈ dispatch_order w s) (hy : y ∈ dispatch_order w s)
    (hobj : x.object ≠ y.object)
    (hmenu : both_menu_windows w x.object y.object = false)
    (hrel : ∀ z ∈ s.sound_event_queue, [z, x].Sublist s.sound_event_queue →
      (z.signal_id = .widget_hide ∨ z.signal_id = .widget_window_state_event) →
      ¬ (z.object = y.object ∨ both_menu_windows w z.object y.object = true)) :
    (idle_cb w s).isSome = true ∧ (dispatch_order w s).Nodup ∧
      [x, y].Sublist (dispatch_order w s) := by
  obtain ⟨s1, hs1, _⟩ := drain_total w (s.sound_event_queue.length + 1)
    { s with idle_id := 0 } (by simp)
  obtain ⟨D, hD, hmem, hnd, hord⟩ := drain_order w _ _ s1 hs1 hn
  have hrun : idle_cb w s = some s1 := hs1
  have horder : dispatch_order w s = D := by
    simp only [dispatch_order, hrun]
    rw [hD]
    exact List.drop_left _ _
  rw [horder] at hx hy ⊢
  have hun : ¬ related w x y := by
    intro hc
    rcases hc with hc | hc
    · exact hobj hc
    · simp [hmenu] at hc
  refine ⟨by simp [hrun], hnd, hord x y hxy hx hy hun ?_⟩
  intro z hz hsig
  exact hrel z (hz.subset (by simp)) hz hsig

/-- Witness for C6 (amended): a hide of the dialog at 2, a press of button 5,
then a window-state event and a show of window 1. -/
theorem dispatch_order_fifo_witness :
    (idle_cb sample_world
        ⟨[sample_record 129 .widget_hide 2, sample_record 131 .button_pressed 5,
          sample_record 130 .widget_window_state_event 1,
          sample_record 132 .widget_show 1], 1, initial_dispatch_state, [], []⟩).isSome = true ∧
    (dispatch_order sample_world
        ⟨[sample_record 129 .widget_hide 2, sample_record 131 .button_pressed 5,
          sample_record 130 .widget_window_state_event 1,
          sample_record 132 .widget_show 1], 1, initial_dispatch_state, [], []⟩).Nodup ∧
    [sample_record 131 .button_pressed 5, sample_record 132 .widget_show 1].Sublist
      (dispatch_order sample_world
        ⟨[sample_record 129 .widget_hide 2, sample_record 131 .button_pressed 5,
          sample_record 130 .widget_window_state_event 1,
          sample_record 132 .widget_show 1], 1, initial_dispatch_state, [], []⟩) :=
  dispatch_order_fifo sample_world
    ⟨[sample_record 129 .widget_hide 2, sample_record 131 .button_pressed 5,
      sample_record 130 .widget_window_state_event 1,
      sample_record 132 .widget_show 1], 1, initial_dispatch_state, [], []⟩
    (sample_record 131 .button_pressed 5) (sample_record 132 .widget_show 1)
    (by decide) (by decide) (by decide) (by decide) (by decide) (by decide) (by decide)

/-! ## Dispatch: one block per record -/

/-- For an object without the disable flag, `dispatch_sound_event` is the one
block that tests for the signal of the record, followed by the warning. -/
theorem dispatch_block_eq (w : World) (s : DispatchState) (d : SoundEventData)
    (hdis : (w.obj d.object).disable_sound = false) :
    dispatch_sound_event w s d =
      dispatch_warn (block_for d.signal_id w d ⟨s, CA_SUCCESS⟩) := by
  unfold dispatch_sound_event
  simp only [hdis, Bool.false_eq_true, if_false]
  cases hs : d.signal_id <;>
    simp [block_for, hs, dispatch_widget_show_other, dispatch_response_or_hide_other,
      dispatch_window_state_other, dispatch_menu_item_other, dispatch_button_other,
      dispatch_notebook_other, dispatch_tree_view_other, dispatch_icon_view_other]

theorem with_port_obj (w : World) (port : Nat → Int) (p : Nat) :
    (w.with_port port).obj p = w.obj p := rfl

theorem with_port_widget (w : World) (port : Nat → Int) (p : Nat) :
    (w.with_port port).widget p = w.widget p := rfl

theorem with_port_is_hidden (w : World) (port : Nat → Int) (x : Nat) :
    is_hidden (w.with_port port) x = is_hidden w x := rfl

/-- What a block does to a context, read off a run of the block on the flags
alone: the flags it leaves, the calls it appends, and no warning. The return
codes of the playback port play no part. -/
theorem block_for_frame (sig : SignalId) (w : World) (port : Nat → Int) (d : SoundEventData)
    (c : DispatchCtx) :
    (block_for sig w d c).st.menu_is_popped_up =
      (block_for sig (w.with_port port) d c.flags_only).st.menu_is_popped_up ∧
    (block_for sig w d c).st.was_hidden =
      (block_for sig (w.with_port port) d c.flags_only).st.was_hidden ∧
    (block_for sig w d c).st.played =
      c.st.played ++ (block_for sig (w.with_port port) d c.flags_only).st.played ∧
    (block_for sig w d c).st.warnings = c.st.warnings := by
  cases sig <;>
    simp only [block_for, dispatch_widget_show, dispatch_response_or_hide, dispatch_window_state,
      dispatch_menu_item, dispatch_button, dispatch_notebook, dispatch_tree_view,
      dispatch_icon_view, with_port_obj, with_port_widget, with_port_is_hidden,
      DispatchCtx.flags_only] <;>
    (repeat' split) <;> simp [ca_gtk_play]

/-- A block makes no call and leaves `ret` alone, or makes one call and
stores the code the port returns for it. -/
theorem block_for_play (sig : SignalId) (w : World) (d : SoundEventData) (c : DispatchCtx) :
    ((block_for sig w d c).st.played = c.st.played ∧ (block_for sig w d c).ret = c.ret) ∨
    (∃ call, (block_for sig w d c).st.played = c.st.played ++ [call] ∧
      (block_for sig w d c).ret = w.play_result c.st.played.length) := by
  cases sig <;>
    simp only [block_for, dispatch_widget_show, dispatch_response_or_hide, dispatch_window_state,
      dispatch_menu_item, dispatch_button, dispatch_notebook, dispatch_tree_view,
      dispatch_icon_view] <;>
    (repeat' split) <;> simp [ca_gtk_play]

theorem dispatch_warn_warnings (c : DispatchCtx) :
    (dispatch_warn c).warnings =
      if c.ret ≠ CA_SUCCESS then c.st.warnings ++ [c.ret] else c.st.warnings := by
  unfold dispatch_warn; split <;> rfl

/-- The window-state block on a window: the sound picked from the detected and
the stored hidden state, and the stored state afterwards. -/
theorem window_state_dispatch (w : World) (s : DispatchState) (d : SoundEventData) (e : GdkEvent)
    (hs : d.signal_id = .widget_window_state_event) (hwin : (w.obj d.object).is_window = true)
    (hdis : (w.obj d.object).disable_sound = false) (he : d.event = some e) :
    dispatched_ids w s d = window_state_sound e (is_hidden w e.window) (s.was_hidden d.object) ∧
    (dispatch_sound_event w s d).was_hidden =
      (fun p => if p = d.object then is_hidden w e.window else s.was_hidden p) ∧
    (dispatch_sound_event w s d).menu_is_popped_up = s.menu_is_popped_up := by
  rw [dispatched_ids, dispatch_block_eq w s d hdis, dispatch_warn_played, dispatch_warn_was_hidden,
    dispatch_warn_menu, hs]
  simp only [block_for, dispatch_window_state, hwin, hs, he, and_self, if_true,
    window_state_sound]
  refine ⟨?_, ?_, ?_⟩ <;> split_ifs <;> simp_all [ca_gtk_play]

/-- C11: a window-state record on a window without the disable flag, with `h`
the detected hidden state and `ph` the stored was-hidden flag, plays at most
one sound, the first that applies of: `window-minimized` when the iconified bit
is in the changed mask and in the new state, `h` holds and `ph` does not;
`window-maximized` when a maximized or fullscreen bit is in the changed mask
and one is set in the new state; `window-unminimized` when the iconified bit is
in the changed mask, clear in the new state, and `ph` holds;
`window-unmaximized` when a maximized or fullscreen bit is in the changed mask
and none is set in the new state; otherwise nothing. -/
theorem window_state_priority (w : World) (s : DispatchState) (d : SoundEventData) (e : GdkEvent)
    (hs : d.signal_id = .widget_window_state_event) (hwin : (w.obj d.object).is_window = true)
    (hdis : (w.obj d.object).disable_sound = false) (he : d.event = some e) :
    dispatched_ids w s d =
      if (e.changed_mask &&& GDK_WINDOW_STATE_ICONIFIED ≠ 0) ∧
          (e.new_window_state &&& GDK_WINDOW_STATE_ICONIFIED ≠ 0) ∧
          is_hidden w e.window = true ∧ s.was_hidden d.object = false then
        ["window-minimized"]
      else if (e.changed_mask &&&
            (GDK_WINDOW_STATE_MAXIMIZED ||| GDK_WINDOW_STATE_FULLSCREEN) ≠ 0) ∧
          (e.new_window_state &&&
            (GDK_WINDOW_STATE_MAXIMIZED ||| GDK_WINDOW_STATE_FULLSCREEN) ≠ 0) then
        ["window-maximized"]
      else if (e.changed_mask &&& GDK_WINDOW_STATE_ICONIFIED ≠ 0) ∧
          (e.new_window_state &&& GDK_WINDOW_STATE_ICONIFIED = 0) ∧
          s.was_hidden d.object = true then
        ["window-unminimized"]
      else if (e.changed_mask &&&
            (GDK_WINDOW_STATE_MAXIMIZED ||| GDK_WINDOW_STATE_FULLSCREEN) ≠ 0) ∧
          (e.new_window_state &&&
            (GDK_WINDOW_STATE_MAXIMIZED ||| GDK_WINDOW_STATE_FULLSCREEN) = 0) then
        ["window-unmaximized"]
      else [] := by
  rw [(window_state_dispatch w s d e hs hwin hdis he).1]
  rfl

/-- C13: for a record whose object carries the disable flag,
`dispatch_sound_event` leaves the state as it is: no call on the playback
port, no warning, and the was-hidden flags and `menu_is_popped_up` unchanged,
whatever the signal. -/
theorem disabled_object_is_skipped (w : World) (s : DispatchState) (d : SoundEventData)
    (hdis : (w.obj d.object).disable_sound = true) :
    dispatch_sound_event w s d = s ∧ dispatched_ids w s d = [] ∧
    (dispatch_sound_event w s d).was_hidden = s.was_hidden ∧
    (dispatch_sound_event w s d).menu_is_popped_up = s.menu_is_popped_up := by
  have h : dispatch_sound_event w s d = s := by
    simp [dispatch_sound_event, hdis]
  refine ⟨h, ?_, by rw [h], by rw [h]⟩
  simp [dispatched_ids, h]

/-- C14: one call of `dispatch_sound_event` makes no call on the playback port
or exactly one, for every record and every state. -/
theorem dispatch_plays_at_most_once (w : World) (s : DispatchState) (d : SoundEventData) :
    ((dispatch_sound_event w s d).played = s.played ∨
      ∃ call, (dispatch_sound_event w s d).played = s.played ++ [call]) ∧
    (dispatched_ids w s d).length ≤ 1 := by
  have key : (dispatch_sound_event w s d).played = s.played ∨
      ∃ call, (dispatch_sound_event w s d).played = s.played ++ [call] := by
    cases hdis : (w.obj d.object).disable_sound
    · rw [dispatch_block_eq w s d hdis, dispatch_warn_played]
      rcases block_for_play d.signal_id w d ⟨s, CA_SUCCESS⟩ with h | ⟨call, h⟩
      · exact Or.inl h.1
      · exact Or.inr ⟨call, h.1⟩
    · left
      simp [dispatch_sound_event, hdis]
  refine ⟨key, ?_⟩
  rcases key with h | ⟨call, h⟩ <;> simp [dispatched_ids, h]

/-- C12 as stated fails for the reverse transition: from start-up, window 1
being reported hidden, the event that sets the iconified bit plays
`window-minimized`; the next event has the iconified bit in the changed mask
and clear in the new state, and also the maximized bit in the changed mask and
set in the new state, and it plays `window-maximized`. -/
theorem unminimize_loses_to_maximize :
    dispatched_ids sample_world_hidden initial_dispatch_state
        ⟨140, .widget_window_state_event, 1, 0, true, some ⟨1, 2, 2⟩⟩ = ["window-minimized"] ∧
    (6 &&& GDK_WINDOW_STATE_ICONIFIED ≠ 0 ∧ 4 &&& GDK_WINDOW_STATE_ICONIFIED = 0) ∧
    dispatched_ids sample_world
        (dispatch_sound_event sample_world_hidden initial_dispatch_state
          ⟨140, .widget_window_state_event, 1, 0, true, some ⟨1, 2, 2⟩⟩)
        ⟨141, .widget_window_state_event, 1, 0, true, some ⟨1, 6, 4⟩⟩ = ["window-maximized"] ∧
    dispatched_ids sample_world
        (dispatch_sound_event sample_world_hidden initial_dispatch_state
          ⟨140, .widget_window_state_event, 1, 0, true, some ⟨1, 2, 2⟩⟩)
        ⟨141, .widget_window_state_event, 1, 0, true, some ⟨1, 6, 4⟩⟩ ≠
      ["window-unminimized"] := by
  refine ⟨by decide, by decide, by decide, by decide⟩

/-- C12 (amended): on a window without the disable flag whose was-hidden flag
is false, a window-state record with the iconified bit in the changed mask and
in the new state, dispatched while the window is detected hidden, plays exactly
`window-minimized`; a window-state record for the same window dispatched next,
with the iconified bit in the changed mask and clear in the new state, plays
exactly `window-unminimized`, provided it does not have a maximized or
fullscreen bit in the changed mask together with one set in the new state. -/
theorem minimize_then_unminimize (w1 w2 : World) (s : DispatchState)
    (d1 d2 : SoundEventData) (e1 e2 : GdkEvent)
    (hs1 : d1.signal_id = .widget_window_state_event)
    (hs2 : d2.signal_id = .widget_window_state_event)
    (hobj : d2.object = d1.object)
    (hwin1 : (w1.obj d1.object).is_window = true)
    (hdis1 : (w1.obj d1.object).disable_sound = false)
    (hwin2 : (w2.obj d1.object).is_window = true)
    (hdis2 : (w2.obj d1.object).disable_sound = false)
    (he1 : d1.event = some e1) (he2 : d2.event = some e2)
    (hph : s.was_hidden d1.object = false)
    (hon : e1.changed_mask &&& GDK_WINDOW_STATE_ICONIFIED ≠ 0 ∧
      e1.new_window_state &&& GDK_WINDOW_STATE_ICONIFIED ≠ 0)
    (hhid : is_hidden w1 e1.window = true)
    (hoff : e2.changed_mask &&& GDK_WINDOW_STATE_ICONIFIED ≠ 0 ∧
      e2.new_window_state &&& GDK_WINDOW_STATE_ICONIFIED = 0)
    (hmax : ¬ ((e2.changed_mask &&&
        (GDK_WINDOW_STATE_MAXIMIZED ||| GDK_WINDOW_STATE_FULLSCREEN) ≠ 0) ∧
      (e2.new_window_state &&&
        (GDK_WINDOW_STATE_MAXIMIZED ||| GDK_WINDOW_STATE_FULLSCREEN) ≠ 0))) :
    dispatched_ids w1 s d1 = ["window-minimized"] ∧
    dispatched_ids w2 (dispatch_sound_event w1 s d1) d2 = ["window-unminimized"] := by
  have h1 := window_state_dispatch w1 s d1 e1 hs1 hwin1 hdis1 he1
  have h2 := window_state_dispatch w2 (dispatch_sound_event w1 s d1) d2 e2 hs2
    (by rw [hobj]; exact hwin2) (by rw [hobj]; exact hdis2) he2
  constructor
  · rw [h1.1]
    simp [window_state_sound, hon.1, hon.2, hhid, hph]
  · rw [h2.1, h1.2.1]
    simp only [hobj, if_true, hhid]
    unfold window_state_sound
    rw [if_neg (by simp [hoff.2]), if_neg hmax, if_pos ⟨hoff.1, hoff.2, rfl⟩]

/-- Witness for C12 (amended): window 1 is minimized while reported hidden and
then unminimized. -/
theorem minimize_then_unminimize_witness :
    dispatched_ids sample_world_hidden initial_dispatch_state
        ⟨142, .widget_window_state_event, 1, 0, true, some ⟨1, 2, 2⟩⟩ = ["window-minimized"] ∧
    dispatched_ids sample_world
        (dispatch_sound_event sample_world_hidden initial_dispatch_state
          ⟨142, .widget_window_state_event, 1, 0, true, some ⟨1, 2, 2⟩⟩)
        ⟨143, .widget_window_state_event, 1, 0, true, some ⟨1, 2, 0⟩⟩ =
      ["window-unminimized"] :=
  minimize_then_unminimize sample_world_hidden sample_world initial_dispatch_state
    ⟨142, .widget_window_state_event, 1, 0, true, some ⟨1, 2, 2⟩⟩
    ⟨143, .widget_window_state_event, 1, 0, true, some ⟨1, 2, 0⟩⟩ ⟨1, 2, 2⟩ ⟨1, 2, 0⟩
    rfl rfl rfl rfl rfl rfl rfl rfl rfl rfl (by decide) (by decide) (by decide) (by decide)

/-- Witness for C11: the window at 1, reported hidden, is iconified. -/
theorem window_state_priority_witness :
    dispatched_ids sample_world_hidden initial_dispatch_state
        ⟨144, .widget_window_state_event, 1, 0, true, some ⟨1, 2, 2⟩⟩ =
      if ((⟨1, 2, 2⟩ : GdkEvent).changed_mask &&& GDK_WINDOW_STATE_ICONIFIED ≠ 0) ∧
          ((⟨1, 2, 2⟩ : GdkEvent).new_window_state &&& GDK_WINDOW_STATE_ICONIFIED ≠ 0) ∧
          is_hidden sample_world_hidden (⟨1, 2, 2⟩ : GdkEvent).window = true ∧
          initial_dispatch_state.was_hidden
            (⟨144, .widget_window_state_event, 1, 0, true, some ⟨1, 2, 2⟩⟩ :
              SoundEventData).object = false then
        ["window-minimized"]
      else if ((⟨1, 2, 2⟩ : GdkEvent).changed_mask &&&
            (GDK_WINDOW_STATE_MAXIMIZED ||| GDK_WINDOW_STATE_FULLSCREEN) ≠ 0) ∧
          ((⟨1, 2, 2⟩ : GdkEvent).new_window_state &&&
            (GDK_WINDOW_STATE_MAXIMIZED ||| GDK_WINDOW_STATE_FULLSCREEN) ≠ 0) then
        ["window-maximized"]
      else if ((⟨1, 2, 2⟩ : GdkEvent).changed_mask &&& GDK_WINDOW_STATE_ICONIFIED ≠ 0) ∧
          ((⟨1, 2, 2⟩ : GdkEvent).new_window_state &&& GDK_WINDOW_STATE_ICONIFIED = 0) ∧
          initial_dispatch_state.was_hidden
            (⟨144, .widget_window_state_event, 1, 0, true, some ⟨1, 2, 2⟩⟩ :
              SoundEventData).object = true then
        ["window-unminimized"]
      else if ((⟨1, 2, 2⟩ : GdkEvent).changed_mask &&&
            (GDK_WINDOW_STATE_MAXIMIZED ||| GDK_WINDOW_STATE_FULLSCREEN) ≠ 0) ∧
          ((⟨1, 2, 2⟩ : GdkEvent).new_window_state &&&
            (GDK_WINDOW_STATE_MAXIMIZED ||| GDK_WINDOW_STATE_FULLSCREEN) = 0) then
        ["window-unmaximized"]
      else [] :=
  window_state_priority sample_world_hidden initial_dispatch_state
    ⟨144, .widget_window_state_event, 1, 0, true, some ⟨1, 2, 2⟩⟩ ⟨1, 2, 2⟩ rfl rfl rfl rfl

/-- Witness for C13: a show of the window at 6, which carries the disable
flag. -/
theorem disabled_object_is_skipped_witness :
    dispatch_sound_event sample_world_widgets initial_dispatch_state
        (sample_record 150 .widget_show 6) = initial_dispatch_state ∧
    dispatched_ids sample_world_widgets initial_dispatch_state
        (sample_record 150 .widget_show 6) = [] ∧
    (dispatch_sound_event sample_world_widgets initial_dispatch_state
        (sample_record 150 .widget_show 6)).was_hidden = initial_dispatch_state.was_hidden ∧
    (dispatch_sound_event sample_world_widgets initial_dispatch_state
        (sample_record 150 .widget_show 6)).menu_is_popped_up =
      initial_dispatch_state.menu_is_popped_up :=
  disabled_object_is_skipped sample_world_widgets initial_dispatch_state
    (sample_record 150 .widget_show 6) rfl

/-! ## Buttons and toggles -/

/-- The table of `translate_response` holds no id other than `dialog-ok` and
`dialog-cancel`. -/
theorem translate_response_ids (r : Int) (id : String) (h : translate_response r = some id) :
    id = "dialog-ok" ∨ id = "dialog-cancel" := by
  unfold translate_response at h
  cases hslot : translate_response_slot r with
  | none => simp [hslot] at h
  | some i =>
    have hb := translate_response_slot_bound r i hslot
    simp only [hslot, hb.1, if_true] at h
    have hlt : i.toNat < 12 := by
      have := hb.2
      simp only [response_table, List.length_cons, List.length_nil] at this
      omega
    generalize i.toNat = n at h hlt
    interval_cases n <;> simp [response_table] at h <;> simp [← h]

/-- C15: on an object without the disable flag, a press or release on a link
button plays `link-pressed` or `link-released`; on a button that is neither a
toggle nor a link button a press plays `button-pressed`, and a release plays
`button-released` unless the button has an enclosing dialog whose response
code for the button is translated by `translate_response` (to `dialog-ok` or
`dialog-cancel`, as for OK), in which case nothing is played; a press or
release on a toggle button plays nothing. -/
theorem button_press_release_dispatch (w : World) (s : DispatchState) (d : SoundEventData)
    (hdis : (w.obj d.object).disable_sound = false) :
    ((w.obj d.object).is_toggle_button = false → (w.obj d.object).is_link_button = true →
      (d.signal_id = .button_pressed → dispatched_ids w s d = ["link-pressed"]) ∧
      (d.signal_id = .button_released → dispatched_ids w s d = ["link-released"])) ∧
    ((w.obj d.object).is_toggle_button = false → (w.obj d.object).is_link_button = false →
      (w.obj d.object).is_button = true →
      (d.signal_id = .button_pressed → dispatched_ids w s d = ["button-pressed"]) ∧
      (d.signal_id = .button_released →
        (∀ dialog, find_parent_dialog (w.widget d.object) = some dialog →
          translate_response (dialog.response_for_widget d.object) ≠ none →
          dispatched_ids w s d = []) ∧
        (∀ dialog, find_parent_dialog (w.widget d.object) = some dialog →
          translate_response (dialog.response_for_widget d.object) = none →
          dispatched_ids w s d = ["button-released"]) ∧
        (find_parent_dialog (w.widget d.object) = none →
          dispatched_ids w s d = ["button-released"]))) ∧
    ((w.obj d.object).is_toggle_button = true →
      d.signal_id = .button_pressed ∨ d.signal_id = .button_released →
      dispatched_ids w s d = []) ∧
    (∀ r id, translate_response r = some id → id = "dialog-ok" ∨ id = "dialog-cancel") ∧
    translate_response GTK_RESPONSE_OK = some "dialog-ok" := by
  have hids : dispatched_ids w s d =
      ((block_for d.signal_id w d ⟨s, CA_SUCCESS⟩).st.played.drop s.played.length).map
        PlayCall.event_id := by
    rw [dispatched_ids, dispatch_block_eq w s d hdis, dispatch_warn_played]
  refine ⟨fun ht hl => ⟨fun hs => ?_, fun hs => ?_⟩,
    fun ht hl hb => ⟨fun hs => ?_, fun hs => ⟨fun dialog hf hr => ?_, fun dialog hf hr => ?_,
      fun hf => ?_⟩⟩,
    fun ht hs => ?_, translate_response_ids, rfl⟩
  · rw [hids, hs]; simp [block_for, dispatch_button, ht, hl, hs, ca_gtk_play]
  · rw [hids, hs]; simp [block_for, dispatch_button, ht, hl, hs, ca_gtk_play]
  · rw [hids, hs]; simp [block_for, dispatch_button, ht, hl, hb, hs, ca_gtk_play]
  · rw [hids, hs]
    cases hr1 : translate_response (dialog.response_for_widget d.object) with
    | none => exact absurd hr1 hr
    | some id => simp [block_for, dispatch_button, ht, hl, hb, hs, hf, hr1]
  · rw [hids, hs]; simp [block_for, dispatch_button, ht, hl, hb, hs, hf, hr, ca_gtk_play]
  · rw [hids, hs]; simp [block_for, dispatch_button, ht, hl, hb, hs, hf, ca_gtk_play]
  · rw [hids]
    rcases hs with hs | hs <;> rw [hs] <;> simp [block_for, dispatch_button, ht, hs]

/-- Witness for C15: the link button at 10, and the button at 5 whose dialog
has no response for it. -/
theorem button_press_release_dispatch_witness :
    dispatched_ids sample_world_widgets initial_dispatch_state
        (sample_record 160 .button_pressed 10) = ["link-pressed"] ∧
    dispatched_ids sample_world_widgets initial_dispatch_state
        (sample_record 161 .button_released 5) = ["button-released"] ∧
    dispatched_ids sample_world_widgets initial_dispatch_state
        (sample_record 162 .button_released 8) = [] ∧
    dispatched_ids sample_world_widgets initial_dispatch_state
        (sample_record 163 .button_released 12) = [] :=
  ⟨((button_press_release_dispatch sample_world_widgets initial_dispatch_state
      (sample_record 160 .button_pressed 10) rfl).1 rfl rfl).1 rfl,
   (((button_press_release_dispatch sample_world_widgets initial_dispatch_state
      (sample_record 161 .button_released 5) rfl).2.1 rfl rfl rfl).2 rfl).2.1
      sample_dialog rfl rfl,
   (button_press_release_dispatch sample_world_widgets initial_dispatch_state
      (sample_record 162 .button_released 8) rfl).2.2.1 rfl (Or.inr rfl),
   (((button_press_release_dispatch sample_world_widgets initial_dispatch_state
      (sample_record 163 .button_released 12) rfl).2.1 rfl rfl rfl).2 rfl).1
      sample_ok_dialog rfl (by decide)⟩

/-- C16: on an object without the disable flag, a check-menu-item toggle on a
check menu item, and a toggle-button toggle on a toggle button with no combo
box among itself and its parents, play `button-toggle-on` when the widget is
active and `button-toggle-off` when it is not; a toggle-button toggle on a
toggle button inside a combo box plays nothing. -/
theorem toggle_dispatch (w : World) (s : DispatchState) (d : SoundEventData)
    (hdis : (w.obj d.object).disable_sound = false) :
    (d.signal_id = .check_menu_item_toggled → (w.obj d.object).is_check_menu_item = true →
      dispatched_ids w s d =
        [if (w.obj d.object).active = true then "button-toggle-on" else "button-toggle-off"]) ∧
    (d.signal_id = .toggle_button_toggled → (w.obj d.object).is_toggle_button = true →
      (is_child_of_combo_box (w.widget d.object) = false →
        dispatched_ids w s d =
          [if (w.obj d.object).active = true then "button-toggle-on"
            else "button-toggle-off"]) ∧
      (is_child_of_combo_box (w.widget d.object) = true → dispatched_ids w s d = [])) := by
  have hids : dispatched_ids w s d =
      ((block_for d.signal_id w d ⟨s, CA_SUCCESS⟩).st.played.drop s.played.length).map
        PlayCall.event_id := by
    rw [dispatched_ids, dispatch_block_eq w s d hdis, dispatch_warn_played]
  refine ⟨fun hs hc => ?_, fun hs ht => ⟨fun hcb => ?_, fun hcb => ?_⟩⟩
  · rw [hids, hs]
    cases ha : (w.obj d.object).active <;>
      simp [block_for, dispatch_menu_item, hc, hs, ha, ca_gtk_play]
  · rw [hids, hs]
    cases ha : (w.obj d.object).active <;>
      simp [block_for, dispatch_button, ht, hs, hcb, ha, ca_gtk_play]
  · rw [hids, hs]
    simp [block_for, dispatch_button, ht, hs, hcb]

/-- Witness for C16: the active check menu item at 7, the toggle button at 8
and the toggle button inside a combo box at 9. -/
theorem toggle_dispatch_witness :
    dispatched_ids sample_world_widgets initial_dispatch_state
        (sample_record 170 .check_menu_item_toggled 7) = ["button-toggle-on"] ∧
    dispatched_ids sample_world_widgets initial_dispatch_state
        (sample_record 171 .toggle_button_toggled 8) = ["button-toggle-off"] ∧
    dispatched_ids sample_world_widgets initial_dispatch_state
        (sample_record 172 .toggle_button_toggled 9) = [] :=
  ⟨(toggle_dispatch sample_world_widgets initial_dispatch_state
      (sample_record 170 .check_menu_item_toggled 7) rfl).1 rfl rfl,
   ((toggle_dispatch sample_world_widgets initial_dispatch_state
      (sample_record 171 .toggle_button_toggled 8) rfl).2 rfl rfl).1 rfl,
   ((toggle_dispatch sample_world_widgets initial_dispatch_state
      (sample_record 172 .toggle_button_toggled 9) rfl).2 rfl rfl).2 rfl⟩

/-! ## Which flags a dispatch reads and writes -/

/-- Only the show and hide branches write `menu_is_popped_up`. -/
theorem dispatch_menu_unchanged (w : World) (s : DispatchState) (d : SoundEventData)
    (h1 : d.signal_id ≠ .widget_show) (h2 : d.signal_id ≠ .widget_hide) :
    (dispatch_sound_event w s d).menu_is_popped_up = s.menu_is_popped_up := by
  cases hdis : (w.obj d.object).disable_sound
  · rw [dispatch_block_eq w s d hdis, dispatch_warn_menu]
    cases hs : d.signal_id <;>
      simp only [block_for, dispatch_widget_show, dispatch_response_or_hide,
        dispatch_window_state, dispatch_menu_item, dispatch_button, dispatch_notebook,
        dispatch_tree_view, dispatch_icon_view] <;>
      first
      | exact absurd hs h1
      | exact absurd hs h2
      | ((repeat' split) <;> simp_all [ca_gtk_play])
  · simp [dispatch_sound_event, hdis]

/-- Only the window-state block writes a was-hidden flag. -/
theorem dispatch_was_hidden_unchanged (w : World) (s : DispatchState) (d : SoundEventData)
    (h1 : d.signal_id ≠ .widget_window_state_event) :
    (dispatch_sound_event w s d).was_hidden = s.was_hidden := by
  cases hdis : (w.obj d.object).disable_sound
  · rw [dispatch_block_eq w s d hdis, dispatch_warn_was_hidden]
    cases hs : d.signal_id <;>
      simp only [block_for, dispatch_widget_show, dispatch_response_or_hide,
        dispatch_window_state, dispatch_menu_item, dispatch_button, dispatch_notebook,
        dispatch_tree_view, dispatch_icon_view] <;>
      first
      | exact absurd hs h1
      | ((repeat' split) <;> simp_all [ca_gtk_play])
  · simp [dispatch_sound_event, hdis]

/-- The flag a show leaves behind it. -/
theorem dispatch_show_menu (w : World) (s : DispatchState) (d : SoundEventData)
    (hs : d.signal_id = .widget_show) (hdis : (w.obj d.object).disable_sound = false) :
    (dispatch_sound_event w s d).menu_is_popped_up =
      (is_menu_hint (w.obj d.object).type_hint || s.menu_is_popped_up) := by
  rw [dispatch_show_eq w s d hs hdis, dispatch_warn_menu]
  simp only [dispatch_widget_show, hs, if_true]
  (repeat' split) <;> simp_all [ca_gtk_play]

/-- The window-state block does nothing for an object that is not a window or
a record without event. -/
theorem dispatch_window_state_skipped (w : World) (s : DispatchState) (d : SoundEventData)
    (hs : d.signal_id = .widget_window_state_event)
    (h : (w.obj d.object).is_window = false ∨ d.event = none) :
    dispatch_sound_event w s d = s := by
  cases hdis : (w.obj d.object).disable_sound
  · rw [dispatch_block_eq w s d hdis, hs]
    rcases h with h | h <;>
      simp [block_for, dispatch_window_state, h, dispatch_warn, CA_SUCCESS]
  · simp [dispatch_sound_event, hdis]

/-- The ids a dispatch plays are fixed by the record, the world and the two
kinds of flag. -/
theorem dispatched_ids_congr (w : World) (s1 s2 : DispatchState) (d : SoundEventData)
    (hm : s1.menu_is_popped_up = s2.menu_is_popped_up) (hw : s1.was_hidden = s2.was_hidden) :
    dispatched_ids w s1 d = dispatched_ids w s2 d := by
  cases hdis : (w.obj d.object).disable_sound
  · have key : ∀ s : DispatchState, dispatched_ids w s d =
        (block_for d.signal_id (w.with_port w.play_result) d
          (DispatchCtx.flags_only ⟨s, CA_SUCCESS⟩)).st.played.map PlayCall.event_id := by
      intro s
      rw [dispatched_ids, dispatch_block_eq w s d hdis, dispatch_warn_played,
        (block_for_frame d.signal_id w w.play_result d ⟨s, CA_SUCCESS⟩).2.2.1]
      simp
    rw [key s1, key s2]
    simp [DispatchCtx.flags_only, hm, hw]
  · simp [dispatched_ids, dispatch_sound_event, hdis]

/-- The response and hide branches read no flag. -/
theorem response_hide_ids_stateless (w : World) (s1 s2 : DispatchState) (d : SoundEventData)
    (hs : d.signal_id = .dialog_response ∨ d.signal_id = .widget_hide) :
    dispatched_ids w s1 d = dispatched_ids w s2 d := by
  cases hdis : (w.obj d.object).disable_sound
  · rw [dispatched_ids, dispatched_ids, dispatch_response_hide_eq w s1 d hs hdis,
      dispatch_response_hide_eq w s2 d hs hdis, dispatch_warn_played, dispatch_warn_played]
    simp only [dispatch_response_or_hide]
    (repeat' split) <;> simp [ca_gtk_play]
  · simp [dispatched_ids, dispatch_sound_event, hdis]

/-- C17 as stated fails: from start-up, with window 1 reported hidden, the
window-state record that sets the iconified bit plays `window-minimized` at
the first dispatch and nothing at the second; and a show of the menu window at
3, dispatched twice after a menu was popped down, plays two different ids. -/
theorem dispatch_twice_differs :
    dispatched_ids sample_world_hidden initial_dispatch_state
        ⟨180, .widget_window_state_event, 1, 0, true, some ⟨1, 2, 2⟩⟩ = ["window-minimized"] ∧
    dispatched_ids sample_world_hidden
        (dispatch_sound_event sample_world_hidden initial_dispatch_state
          ⟨180, .widget_window_state_event, 1, 0, true, some ⟨1, 2, 2⟩⟩)
        ⟨180, .widget_window_state_event, 1, 0, true, some ⟨1, 2, 2⟩⟩ = [] ∧
    dispatched_ids sample_world
        (dispatch_sound_event sample_world ⟨false, fun _ => false, [], []⟩
          (sample_record 181 .widget_show 3))
        (sample_record 181 .widget_show 3) ≠
      dispatched_ids sample_world ⟨false, fun _ => false, [], []⟩
        (sample_record 181 .widget_show 3) := by
  refine ⟨by decide, by decide, by decide⟩

/-- C17 (amended): dispatching the same record twice in a row plays the same
id, or nothing, both times, unless the first dispatch writes a flag the second
reads: the record is a show on a window with a menu hint dispatched while
`menu_is_popped_up` is false, or a window-state record on a window whose
detected hidden state differs from its stored was-hidden flag. -/
theorem dispatch_twice_same_id (w : World) (s : DispatchState) (d : SoundEventData)
    (hshow : ¬ (d.signal_id = .widget_show ∧ is_menu_hint (w.obj d.object).type_hint = true ∧
      s.menu_is_popped_up = false))
    (hwsc : ∀ e, d.signal_id = .widget_window_state_event →
      (w.obj d.object).is_window = true → d.event = some e →
      is_hidden w e.window = s.was_hidden d.object) :
    dispatched_ids w (dispatch_sound_event w s d) d = dispatched_ids w s d := by
  cases hdis : (w.obj d.object).disable_sound
  · by_cases h1 : d.signal_id = .dialog_response ∨ d.signal_id = .widget_hide
    · exact response_hide_ids_stateless w _ _ d h1
    · have hnr : d.signal_id ≠ .dialog_response := fun h => h1 (Or.inl h)
      have hnh : d.signal_id ≠ .widget_hide := fun h => h1 (Or.inr h)
      by_cases h2 : d.signal_id = .widget_show
      · refine dispatched_ids_congr w _ _ d ?_
          (dispatch_was_hidden_unchanged w s d (by simp [h2]))
        rw [dispatch_show_menu w s d h2 hdis]
        cases hm : is_menu_hint (w.obj d.object).type_hint
        · simp
        · cases hf : s.menu_is_popped_up
          · exact absurd ⟨h2, hm, hf⟩ hshow
          · simp
      · by_cases h3 : d.signal_id = .widget_window_state_event
        · cases hwin : (w.obj d.object).is_window
          · rw [dispatch_window_state_skipped w s d h3 (Or.inl hwin)]
          · cases he : d.event with
            | none => rw [dispatch_window_state_skipped w s d h3 (Or.inr he)]
            | some e =>
              have hd := window_state_dispatch w s d e h3 hwin hdis he
              refine dispatched_ids_congr w _ _ d hd.2.2 ?_
              rw [hd.2.1]
              funext p
              by_cases hp : p = d.object
              · simp [hp, hwsc e h3 hwin he]
              · simp [hp]
        · exact dispatched_ids_congr w _ _ d (dispatch_menu_unchanged w s d h2 hnh)
            (dispatch_was_hidden_unchanged w s d h3)
  · have : dispatch_sound_event w s d = s := by simp [dispatch_sound_event, hdis]
    rw [this]

/-- Witness for C17 (amended): a show of the menu window at 3 at start-up, when
`menu_is_popped_up` is true. -/
theorem dispatch_twice_same_id_witness :
    dispatched_ids sample_world
        (dispatch_sound_event sample_world initial_dispatch_state
          (sample_record 182 .widget_show 3))
        (sample_record 182 .widget_show 3) =
      dispatched_ids sample_world initial_dispatch_state (sample_record 182 .widget_show 3) :=
  dispatch_twice_same_id sample_world initial_dispatch_state (sample_record 182 .widget_show 3)
    (by decide) (fun _ h => absurd h (by decide))

/-! ## Emission hook -/

/-- C18: `emission_hook_cb` appends the new record to the queue when the two
conditions of `hook_accepts` hold (a hide, show or window-state signal comes
from a window, and a signal other than hide and dialog response comes from a
drawable object) and changes nothing otherwise. So a hide on a window and a
dialog response are enqueued whether or not the object is drawable, and every
other signal on an object that is not drawable is dropped. -/
theorem hook_enqueues_iff (w : World) (e : Emission) (h : HostState) :
    (hook_accepts w e →
      (emission_hook_cb w e h).module.sound_event_queue =
        h.module.sound_event_queue ++ [new_sound_event e]) ∧
    (¬ hook_accepts w e → emission_hook_cb w e h = h) ∧
    (e.signal_id = .widget_hide → (w.obj e.object).is_window = true →
      (emission_hook_cb w e h).module.sound_event_queue =
        h.module.sound_event_queue ++ [new_sound_event e]) ∧
    (e.signal_id = .dialog_response →
      (emission_hook_cb w e h).module.sound_event_queue =
        h.module.sound_event_queue ++ [new_sound_event e]) ∧
    (e.signal_id ≠ .widget_hide → e.signal_id ≠ .dialog_response →
      (w.obj e.object).drawable = false → emission_hook_cb w e h = h) := by
  have hacc : hook_accepts w e →
      (emission_hook_cb w e h).module.sound_event_queue =
        h.module.sound_event_queue ++ [new_sound_event e] := by
    intro ha
    obtain ⟨ha1, ha2⟩ := ha
    have g1 : ¬ ((e.signal_id = .widget_hide ∨ e.signal_id = .widget_show ∨
        e.signal_id = .widget_window_state_event) ∧ (w.obj e.object).is_window = false) := by
      intro hc
      have := ha1 hc.1
      rw [hc.2] at this
      exact absurd this (by simp)
    have g2 : ¬ (e.signal_id ≠ .widget_hide ∧ e.signal_id ≠ .dialog_response ∧
        (w.obj e.object).drawable = false) := by
      intro hc
      have := ha2 ⟨hc.1, hc.2.1⟩
      rw [hc.2.2] at this
      exact absurd this (by simp)
    unfold emission_hook_cb
    rw [if_neg g1, if_neg g2]
    split <;> rfl
  have hrej : ¬ hook_accepts w e → emission_hook_cb w e h = h := by
    intro hn
    unfold emission_hook_cb
    by_cases g1 : (e.signal_id = .widget_hide ∨ e.signal_id = .widget_show ∨
        e.signal_id = .widget_window_state_event) ∧ (w.obj e.object).is_window = false
    · rw [if_pos g1]
    · by_cases g2 : e.signal_id ≠ .widget_hide ∧ e.signal_id ≠ .dialog_response ∧
          (w.obj e.object).drawable = false
      · rw [if_neg g1, if_pos g2]
      · exfalso
        apply hn
        constructor
        · intro hsig
          cases hw : (w.obj e.object).is_window
          · exact absurd ⟨hsig, hw⟩ g1
          · rfl
        · intro hsig
          cases hd : (w.obj e.object).drawable
          · exact absurd ⟨hsig.1, hsig.2, hd⟩ g2
          · rfl
  refine ⟨hacc, hrej, ?_, ?_, ?_⟩
  · intro hs hw
    exact hacc ⟨fun _ => hw, fun hc => absurd hs hc.1⟩
  · intro hs
    refine hacc ⟨fun hc => ?_, fun hc => absurd hs hc.2⟩
    rcases hc with hc | hc | hc <;> rw [hs] at hc <;> exact absurd hc (by decide)
  · intro h1 h2 hd
    refine hrej ?_
    intro ha
    have := ha.2 ⟨h1, h2⟩
    rw [hd] at this
    exact absurd this (by simp)

/-- Witness for C18: a hide of window 1 is enqueued, and a press of the button
at 11, which is not drawable, is dropped. -/
theorem hook_enqueues_iff_witness :
    (emission_hook_cb sample_world_widgets ⟨.widget_hide, 1, 1, 0, none, none, 190⟩
        initial_host_state).module.sound_event_queue =
      initial_host_state.module.sound_event_queue ++
        [new_sound_event ⟨.widget_hide, 1, 1, 0, none, none, 190⟩] ∧
    emission_hook_cb sample_world_widgets ⟨.button_pressed, 11, 1, 0, none, none, 191⟩
        initial_host_state = initial_host_state :=
  ⟨(hook_enqueues_iff sample_world_widgets ⟨.widget_hide, 1, 1, 0, none, none, 190⟩
      initial_host_state).2.2.1 rfl rfl,
   (hook_enqueues_iff sample_world_widgets ⟨.button_pressed, 11, 1, 0, none, none, 191⟩
      initial_host_state).2.2.2.2 (by decide) (by decide) rfl⟩

/-! ## Idle scheduling -/

/-- The drain loop does not touch `idle_id`. -/
theorem drain_idle_id (w : World) (fuel : Nat) (s s1 : ModuleState)
    (h : drain w fuel s = some s1) : s1.idle_id = s.idle_id := by
  induction fuel generalizing s with
  | zero => simp [drain] at h
  | succ n ih =>
    rw [drain_succ] at h
    cases hq : s.sound_event_queue with
    | nil =>
      simp only [hq, Option.some.injEq] at h
      rw [← h]
    | cons d q =>
      simp only [hq] at h
      cases hf : filter_sound_event w d q with
      | none => simp [hf] at h
      | some r =>
        simp only [hf] at h
        cases hret : r.ret with
        | none =>
          simp only [hret] at h
          have h2 := ih _ h
          exact h2
        | some d1 =>
          simp only [hret] at h
          have h2 := ih _ h
          exact h2

/-- Function `idle_cb` returns, with the queue empty and `idle_id` at 0. -/
theorem idle_cb_clears (w : World) (s : ModuleState) :
    ∃ m, idle_cb w s = some m ∧ m.sound_event_queue = [] ∧ m.idle_id = 0 := by
  obtain ⟨m, hm, hq⟩ := drain_total w (s.sound_event_queue.length + 1)
    { s with idle_id := 0 } (by simp)
  exact ⟨m, hm, hq, drain_idle_id w _ _ m hm⟩

/-- Between two callbacks either the queue is empty, `idle_id` is 0 and no
idle source is pending, or the queue is not empty and the one pending idle
source is the one named by `idle_id`. -/
theorem reachable_invariant (h : HostState) (hr : Reachable h) :
    (h.module.sound_event_queue = [] ∧ h.module.idle_id = 0 ∧ h.idle_sources = []) ∨
    (h.module.sound_event_queue ≠ [] ∧ h.module.idle_id ≠ 0 ∧
      h.idle_sources = [h.module.idle_id]) := by
  induction hr with
  | start => exact Or.inl ⟨rfl, rfl, rfl⟩
  | submit w e h _ ih =>
    unfold emission_hook_cb
    split
    · exact ih
    · split
      · exact ih
      · split
        · rename_i hz
          rcases ih with ih | ih
          · right
            refine ⟨by simp, by simp, ?_⟩
            simp [ih.2.2]
          · exact absurd hz ih.2.1
        · rename_i hz
          rcases ih with ih | ih
          · exact absurd ih.2.1 hz
          · right
            exact ⟨by simp, ih.2.1, ih.2.2⟩
  | idle w h id rest m _ hsrc hrun ih =>
    obtain ⟨m1, hm1, hq, hid⟩ := idle_cb_clears w h.module
    rw [hrun] at hm1
    simp only [Option.some.injEq] at hm1
    subst hm1
    rcases ih with ih | ih
    · rw [ih.2.2] at hsrc
      simp at hsrc
    · rw [ih.2.2] at hsrc
      simp only [List.cons.injEq] at hsrc
      left
      exact ⟨hq, hid, hsrc.2.symm⟩

/-- C19: in every state the host loop can be in between two callbacks, at most
one idle source is pending, exactly one when the queue is not empty, and none
exactly when `idle_id` is 0. A submission adds an idle source only when
`idle_id` is 0; an accepted submission into an empty queue leaves exactly one
idle source pending; and `idle_cb` returns with the queue empty and `idle_id`
cleared. -/
theorem idle_scheduled_at_most_once (h : HostState) (hr : Reachable h) :
    h.idle_sources.length ≤ 1 ∧
    (h.module.sound_event_queue ≠ [] → h.idle_sources.length = 1) ∧
    (h.module.idle_id = 0 ↔ h.idle_sources = []) ∧
    (∀ w e, (emission_hook_cb w e h).idle_sources ≠ h.idle_sources → h.module.idle_id = 0) ∧
    (∀ w e, h.module.sound_event_queue = [] → hook_accepts w e →
      h.idle_sources = [] ∧ (emission_hook_cb w e h).idle_sources.length = 1 ∧
      (emission_hook_cb w e h).module.sound_event_queue = [new_sound_event e]) ∧
    (∀ w, ∃ m, idle_cb w h.module = some m ∧ m.sound_event_queue = [] ∧ m.idle_id = 0) := by
  have inv := reachable_invariant h hr
  refine ⟨?_, ?_, ?_, ?_, ?_, fun w => idle_cb_clears w h.module⟩
  · rcases inv with inv | inv <;> simp [inv.2.2]
  · intro hq
    rcases inv with inv | inv
    · exact absurd inv.1 hq
    · simp [inv.2.2]
  · rcases inv with inv | inv
    · simp [inv.2.1, inv.2.2]
    · constructor
      · intro hz; exact absurd hz inv.2.1
      · intro hs; rw [inv.2.2] at hs; simp at hs
  · intro w e hne
    by_contra hz
    apply hne
    unfold emission_hook_cb
    split_ifs <;> rfl
  · intro w e hq ha
    rcases inv with inv | inv
    · have hnext := reachable_invariant _ (Reachable.submit w e h hr)
      have hqueue : (emission_hook_cb w e h).module.sound_event_queue =
          h.module.sound_event_queue ++ [new_sound_event e] := by
        obtain ⟨ha1, ha2⟩ := ha
        have g1 : ¬ ((e.signal_id = .widget_hide ∨ e.signal_id = .widget_show ∨
            e.signal_id = .widget_window_state_event) ∧
            (w.obj e.object).is_window = false) := by
          intro hc
          have := ha1 hc.1
          rw [hc.2] at this
          exact absurd this (by simp)
        have g2 : ¬ (e.signal_id ≠ .widget_hide ∧ e.signal_id ≠ .dialog_response ∧
            (w.obj e.object).drawable = false) := by
          intro hc
          have := ha2 ⟨hc.1, hc.2.1⟩
          rw [hc.2.2] at this
          exact absurd this (by simp)
        unfold emission_hook_cb
        rw [if_neg g1, if_neg g2]
        split <;> rfl
      refine ⟨inv.2.2, ?_, by rw [hqueue, hq]; rfl⟩
      rcases hnext with hn | hn
      · rw [hqueue] at hn
        simp at hn
      · simp [hn.2.2]
    · exact absurd hq inv.1

/-- Witness for C19: the state after a hide of window 1 was submitted at
start-up. -/
theorem idle_scheduled_at_most_once_witness :
    (emission_hook_cb sample_world ⟨.widget_hide, 1, 1, 0, none, none, 200⟩
        initial_host_state).idle_sources.length ≤ 1 ∧
    ((emission_hook_cb sample_world ⟨.widget_hide, 1, 1, 0, none, none, 200⟩
        initial_host_state).module.sound_event_queue ≠ [] →
      (emission_hook_cb sample_world ⟨.widget_hide, 1, 1, 0, none, none, 200⟩
        initial_host_state).idle_sources.length = 1) :=
  ⟨(idle_scheduled_at_most_once _
      (Reachable.submit sample_world ⟨.widget_hide, 1, 1, 0, none, none, 200⟩
        initial_host_state Reachable.start)).1,
   (idle_scheduled_at_most_once _
      (Reachable.submit sample_world ⟨.widget_hide, 1, 1, 0, none, none, 200⟩
        initial_host_state Reachable.start)).2.1⟩

/-! ## Return codes of the playback port -/

theorem scan_with_port (w : World) (port : Nat → Int) (d : SoundEventData)
    (q : List SoundEventData) : scan (w.with_port port) d q = scan w d q := by
  induction q with
  | nil => rfl
  | cons j n ih =>
    simp only [scan, ih, both_menu_windows, with_port_obj]

theorem filter_loop_with_port (w : World) (port : Nat → Int) (fuel : Nat) (d : SoundEventData)
    (q : List SoundEventData) :
    filter_loop (w.with_port port) fuel d q = filter_loop w fuel d q := by
  induction fuel generalizing d q with
  | zero => rfl
  | succ n ih =>
    rw [filter_loop_succ, filter_loop_succ, scan_with_port]
    cases scan w d q with
    | returned_null q1 f => rfl
    | completed q1 f => rfl
    | broke d1 q1 f => simp only [ih]

/-- The filter does not depend on what the playback port returns. -/
theorem filter_sound_event_with_port (w : World) (port : Nat → Int) (d : SoundEventData)
    (q : List SoundEventData) :
    filter_sound_event (w.with_port port) d q = filter_sound_event w d q :=
  filter_loop_with_port w port _ d q

/-- Two dispatches of one record from states with the same flags and call
trace, under ports that may answer differently, leave the same flags and the
same call trace. -/
theorem dispatch_with_port (w : World) (port : Nat → Int) (s1 s2 : DispatchState)
    (d : SoundEventData) (hm : s1.menu_is_popped_up = s2.menu_is_popped_up)
    (hw : s1.was_hidden = s2.was_hidden) (hp : s1.played = s2.played) :
    (dispatch_sound_event w s1 d).menu_is_popped_up =
      (dispatch_sound_event (w.with_port port) s2 d).menu_is_popped_up ∧
    (dispatch_sound_event w s1 d).was_hidden =
      (dispatch_sound_event (w.with_port port) s2 d).was_hidden ∧
    (dispatch_sound_event w s1 d).played =
      (dispatch_sound_event (w.with_port port) s2 d).played := by
  cases hdis : (w.obj d.object).disable_sound
  · have hdis2 : ((w.with_port port).obj d.object).disable_sound = false := hdis
    rw [dispatch_block_eq w s1 d hdis, dispatch_block_eq (w.with_port port) s2 d hdis2,
      dispatch_warn_menu, dispatch_warn_menu, dispatch_warn_was_hidden, dispatch_warn_was_hidden,
      dispatch_warn_played, dispatch_warn_played]
    have f1 := block_for_frame d.signal_id w port d ⟨s1, CA_SUCCESS⟩
    have f2 := block_for_frame d.signal_id (w.with_port port) port d ⟨s2, CA_SUCCESS⟩
    have hflags : DispatchCtx.flags_only ⟨s1, CA_SUCCESS⟩ =
        DispatchCtx.flags_only ⟨s2, CA_SUCCESS⟩ := by
      simp [DispatchCtx.flags_only, hm, hw]
    have hworld : (w.with_port port).with_port port = w.with_port port := rfl
    rw [hworld, ← hflags] at f2
    refine ⟨f1.1.trans f2.1.symm, f1.2.1.trans f2.2.1.symm, ?_⟩
    rw [f1.2.2.1, f2.2.2.1, hp]
  · have hdis2 : ((w.with_port port).obj d.object).disable_sound = true := hdis
    simp [dispatch_sound_event, hdis, hdis2, hm, hw, hp]

/-- A dispatch logs no warning, or logs the one code, other than `CA_SUCCESS`,
that the port returned for its call; with a port that always succeeds it logs
none. -/
theorem dispatch_warnings (w : World) (s : DispatchState) (d : SoundEventData) :
    ((dispatch_sound_event w s d).warnings = s.warnings ∨
      ∃ code, code ≠ CA_SUCCESS ∧ code = w.play_result s.played.length ∧
        (dispatch_sound_event w s d).played ≠ s.played ∧
        (dispatch_sound_event w s d).warnings = s.warnings ++ [code]) ∧
    ((∀ n, w.play_result n = CA_SUCCESS) →
      (dispatch_sound_event w s d).warnings = s.warnings) := by
  cases hdis : (w.obj d.object).disable_sound
  · rw [dispatch_block_eq w s d hdis, dispatch_warn_warnings, dispatch_warn_played,
      (block_for_frame d.signal_id w w.play_result d ⟨s, CA_SUCCESS⟩).2.2.2]
    rcases block_for_play d.signal_id w d ⟨s, CA_SUCCESS⟩ with h | ⟨call, h⟩
    · simp [h.2]
    · rw [h.2]
      constructor
      · by_cases hc : w.play_result s.played.length = CA_SUCCESS
        · left; simp [hc]
        · right
          exact ⟨_, hc, rfl, by simp [h.1], by simp [hc]⟩
      · intro hall
        simp [hall]
  · simp [dispatch_sound_event, hdis]

/-- The drain loop under two ports: from states that agree on everything but
the warnings it ends in states that agree on everything but the warnings. -/
theorem drain_with_port (w : World) (port : Nat → Int) (fuel : Nat) (a b a1 : ModuleState)
    (hq : a.sound_event_queue = b.sound_event_queue) (hi : a.idle_id = b.idle_id)
    (hd : a.dispatched = b.dispatched) (hf : a.freed = b.freed)
    (hm : a.dispatch.menu_is_popped_up = b.dispatch.menu_is_popped_up)
    (hw : a.dispatch.was_hidden = b.dispatch.was_hidden)
    (hp : a.dispatch.played = b.dispatch.played)
    (h : drain w fuel a = some a1) :
    ∃ b1, drain (w.with_port port) fuel b = some b1 ∧
      a1.sound_event_queue = b1.sound_event_queue ∧ a1.idle_id = b1.idle_id ∧
      a1.dispatched = b1.dispatched ∧ a1.freed = b1.freed ∧
      a1.dispatch.menu_is_popped_up = b1.dispatch.menu_is_popped_up ∧
      a1.dispatch.was_hidden = b1.dispatch.was_hidden ∧
      a1.dispatch.played = b1.dispatch.played := by
  induction fuel generalizing a b with
  | zero => simp [drain] at h
  | succ n ih =>
    rw [drain_succ] at h
    rw [drain_succ, ← hq]
    cases hqa : a.sound_event_queue with
    | nil =>
      simp only [hqa, Option.some.injEq] at h
      subst h
      exact ⟨b, rfl, hq, hi, hd, hf, hm, hw, hp⟩
    | cons x q =>
      simp only [hqa] at h
      simp only [filter_sound_event_with_port]
      cases hfil : filter_sound_event w x q with
      | none => simp [hfil] at h
      | some r =>
        simp only [hfil] at h
        cases hret : r.ret with
        | none =>
          simp only [hret] at h ⊢
          exact ih { a with sound_event_queue := r.queue, freed := a.freed ++ r.freed }
            { b with sound_event_queue := r.queue, freed := b.freed ++ r.freed }
            rfl hi hd (by simp [hf]) hm hw hp h
        | some d1 =>
          simp only [hret] at h ⊢
          have hdp := dispatch_with_port w port a.dispatch b.dispatch d1 hm hw hp
          exact ih
            { a with
              sound_event_queue := r.queue
              dispatch := dispatch_sound_event w a.dispatch d1
              dispatched := a.dispatched ++ [d1]
              freed := a.freed ++ r.freed ++ [d1] }
            { b with
              sound_event_queue := r.queue
              dispatch := dispatch_sound_event (w.with_port port) b.dispatch d1
              dispatched := b.dispatched ++ [d1]
              freed := b.freed ++ r.freed ++ [d1] }
            rfl hi (by simp [hd]) (by simp [hf]) hdp.1 hdp.2.1 hdp.2.2 h

/-- Every warning the drain loop logs is a code other than `CA_SUCCESS`, and
with a port that always succeeds it logs none. -/
theorem drain_warnings (w : World) (fuel : Nat) (a a1 : ModuleState)
    (h : drain w fuel a = some a1) :
    ∃ W, a1.dispatch.warnings = a.dispatch.warnings ++ W ∧ (∀ c ∈ W, c ≠ CA_SUCCESS) ∧
      ((∀ n, w.play_result n = CA_SUCCESS) → W = []) := by
  induction fuel generalizing a with
  | zero => simp [drain] at h
  | succ n ih =>
    rw [drain_succ] at h
    cases hqa : a.sound_event_queue with
    | nil =>
      simp only [hqa, Option.some.injEq] at h
      subst h
      exact ⟨[], by simp, by simp, fun _ => rfl⟩
    | cons x q =>
      simp only [hqa] at h
      cases hfil : filter_sound_event w x q with
      | none => simp [hfil] at h
      | some r =>
        simp only [hfil] at h
        cases hret : r.ret with
        | none =>
          simp only [hret] at h
          have h2 := ih _ h
          exact h2
        | some d1 =>
          simp only [hret] at h
          obtain ⟨W, hW, hne, hall⟩ := ih _ h
          have hdw := dispatch_warnings w a.dispatch d1
          simp only at hW
          rcases hdw.1 with h1 | ⟨code, hc, _, _, h1⟩
          · refine ⟨W, by rw [hW, h1], hne, hall⟩
          · refine ⟨code :: W, by rw [hW, h1]; simp, ?_, ?_⟩
            · intro c hcm
              rcases List.mem_cons.mp hcm with rfl | hcm
              · exact hc
              · exact hne c hcm
            · intro hport
              have := hdw.2 hport
              rw [h1] at this
              simp at this

theorem failed_codes_append (port : Nat → Int) (start m n : Nat) :
    failed_codes port start (m + n) =
      failed_codes port start m ++ failed_codes port (start + m) n := by
  unfold failed_codes
  rw [Nat.add_comm m n, ← List.range'_append_1, List.map_append, List.filter_append]

/-- A dispatch appends its calls to the trace and logs exactly the codes,
other than `CA_SUCCESS`, that the port returned for them. -/
theorem dispatch_logs_failures (w : World) (s : DispatchState) (d : SoundEventData) :
    ∃ P, (dispatch_sound_event w s d).played = s.played ++ P ∧
      (dispatch_sound_event w s d).warnings =
        s.warnings ++ failed_codes w.play_result s.played.length P.length := by
  cases hdis : (w.obj d.object).disable_sound
  · rw [dispatch_block_eq w s d hdis, dispatch_warn_warnings, dispatch_warn_played,
      (block_for_frame d.signal_id w w.play_result d ⟨s, CA_SUCCESS⟩).2.2.2]
    rcases block_for_play d.signal_id w d ⟨s, CA_SUCCESS⟩ with h | ⟨call, h⟩
    · refine ⟨[], by simp [h.1], ?_⟩
      simp [h.2, failed_codes]
    · refine ⟨[call], h.1, ?_⟩
      rw [h.2]
      by_cases hc : w.play_result s.played.length = CA_SUCCESS
      · simp [hc, failed_codes]
      · simp [hc, failed_codes]
  · refine ⟨[], ?_, ?_⟩ <;> simp [dispatch_sound_event, hdis, failed_codes]

/-- The drain loop appends its calls to the trace and logs exactly the codes,
other than `CA_SUCCESS`, that the port returned for them, in call order. -/
theorem drain_logs_failures (w : World) (fuel : Nat) (a a1 : ModuleState)
    (h : drain w fuel a = some a1) :
    ∃ P, a1.dispatch.played = a.dispatch.played ++ P ∧
      a1.dispatch.warnings =
        a.dispatch.warnings ++ failed_codes w.play_result a.dispatch.played.length P.length := by
  induction fuel generalizing a with
  | zero => simp [drain] at h
  | succ n ih =>
    rw [drain_succ] at h
    cases hqa : a.sound_event_queue with
    | nil =>
      simp only [hqa, Option.some.injEq] at h
      subst h
      exact ⟨[], by simp, by simp [failed_codes]⟩
    | cons x q =>
      simp only [hqa] at h
      cases hfil : filter_sound_event w x q with
      | none => simp [hfil] at h
      | some r =>
        simp only [hfil] at h
        cases hret : r.ret with
        | none =>
          simp only [hret] at h
          have h2 := ih _ h
          exact h2
        | some d1 =>
          simp only [hret] at h
          obtain ⟨P2, hP2, hW2⟩ := ih _ h
          obtain ⟨P1, hP1, hW1⟩ := dispatch_logs_failures w a.dispatch d1
          simp only at hP2 hW2
          refine ⟨P1 ++ P2, by rw [hP2, hP1, List.append_assoc], ?_⟩
          rw [hW2, hW1, hP1, List.length_append, List.length_append, failed_codes_append,
            List.append_assoc]

/-- C20: whatever the playback port returns, `idle_cb` returns, and two runs
from the same state under two ports dispatch the same records in the same
order, free the same records, make the same calls on the port, leave the same
flags and end on the empty queue; the runs differ only in the warnings: each
run logs, in call order, exactly the codes other than `CA_SUCCESS` that its
port returned for its calls, so a failed call is logged and nothing else
follows from it. -/
theorem playback_failure_never_aborts (w : World) (port : Nat → Int) (s : ModuleState) :
    ∃ s1 s2, idle_cb w s = some s1 ∧ idle_cb (w.with_port port) s = some s2 ∧
      s1.sound_event_queue = [] ∧ s2.sound_event_queue = [] ∧
      s2.dispatched = s1.dispatched ∧ s2.freed = s1.freed ∧ s2.idle_id = s1.idle_id ∧
      s2.dispatch.menu_is_popped_up = s1.dispatch.menu_is_popped_up ∧
      s2.dispatch.was_hidden = s1.dispatch.was_hidden ∧
      s2.dispatch.played = s1.dispatch.played ∧
      (∃ W, s2.dispatch.warnings = s.dispatch.warnings ++ W ∧ (∀ c ∈ W, c ≠ CA_SUCCESS) ∧
        ((∀ n, port n = CA_SUCCESS) → W = [])) ∧
      (∃ P, s1.dispatch.played = s.dispatch.played ++ P ∧
        s1.dispatch.warnings =
          s.dispatch.warnings ++ failed_codes w.play_result s.dispatch.played.length P.length ∧
        s2.dispatch.warnings =
          s.dispatch.warnings ++ failed_codes port s.dispatch.played.length P.length) := by
  obtain ⟨s1, hs1, hq1⟩ := drain_total w (s.sound_event_queue.length + 1)
    { s with idle_id := 0 } (by simp)
  obtain ⟨s2, hs2, h1, h2, h3, h4, h5, h6, h7⟩ :=
    drain_with_port w port _ { s with idle_id := 0 } { s with idle_id := 0 } s1
      rfl rfl rfl rfl rfl rfl rfl hs1
  obtain ⟨W, hW, hne, hall⟩ := drain_warnings (w.with_port port) _ _ s2 hs2
  obtain ⟨P1, hP1, hW1⟩ := drain_logs_failures w _ _ s1 hs1
  obtain ⟨P2, hP2, hW2⟩ := drain_logs_failures (w.with_port port) _ _ s2 hs2
  have hP : P2 = P1 := by
    have : s.dispatch.played ++ P2 = s.dispatch.played ++ P1 := by
      rw [← hP2, ← hP1]; exact h7.symm
    exact List.append_cancel_left this
  rw [hP] at hW2
  exact ⟨s1, s2, hs1, hs2, hq1, by rw [← h1]; exact hq1, h3.symm, h4.symm, h2.symm,
    h5.symm, h6.symm, h7.symm, ⟨W, hW, hne, hall⟩, P1, hP1, hW1, hW2⟩

/-! ## Records kept, handed on and freed by the filter -/

theorem contents_keep (d j : SoundEventData) (r : ScanResult) (a : SoundEventData) :
    ((r.keep j).contents d).count a = (j :: r.contents d).count a := by
  cases r <;>
    simp only [ScanResult.keep, ScanResult.contents, List.count_cons, List.count_append,
      List.cons_append] <;> omega

theorem contents_drop (d j : SoundEventData) (r : ScanResult) (a : SoundEventData) :
    ((r.drop j).contents d).count a = (j :: r.contents d).count a := by
  cases r <;>
    simp only [ScanResult.drop, ScanResult.contents, List.count_cons, List.count_append,
      List.cons_append] <;> omega

/-- A pass neither loses nor duplicates a record: the candidate and the queue
it started on are, up to order, what it ends with. -/
theorem scan_contents (w : World) (d : SoundEventData) (q : List SoundEventData) :
    (d :: q).Perm ((scan w d q).contents d) := by
  rw [List.perm_iff_count]
  intro a
  induction q with
  | nil => simp [scan, ScanResult.contents]
  | cons j n ih =>
    rw [scan_cons]
    split
    · simp only [ScanResult.contents, List.count_cons, List.count_append, List.count_nil]
      omega
    · split
      · simp only [ScanResult.contents, List.count_cons, List.count_append, List.count_nil]
        omega
      · split
        · rw [contents_drop]
          simp only [List.count_cons] at ih ⊢
          omega
        · rw [contents_keep]
          simp only [List.count_cons] at ih ⊢
          omega

/-- The filter neither loses nor duplicates a record. -/
theorem filter_loop_perm (w : World) (fuel : Nat) (d : SoundEventData)
    (q : List SoundEventData) (r : FilterResult) (h : filter_loop w fuel d q = some r) :
    (d :: q).Perm (r.ret.toList ++ r.queue ++ r.freed) := by
  refine filter_loop_induct w
    (fun d q r => (d :: q).Perm (r.ret.toList ++ r.queue ++ r.freed)) ?_ ?_ ?_ fuel d q r h
  · intro d q q1 f hs
    have := scan_contents w d q
    rw [hs] at this
    simpa [ScanResult.contents] using this
  · intro d q q1 f hs
    have := scan_contents w d q
    rw [hs] at this
    simpa [ScanResult.contents] using this
  · intro d q d1 q1 f r hs ih
    have := scan_contents w d q
    rw [hs] at this
    simp only [ScanResult.contents] at this
    rw [List.perm_iff_count] at this ih ⊢
    intro a
    have h1 := this a
    have h2 := ih a
    simp only [List.count_cons, List.count_append] at h1 h2 ⊢
    omega

/-- C21: after `filter_sound_event` the candidate and the input queue are, as
a multiset, the survivor (if any), the remaining queue and the freed records;
the remaining queue is a sublist of the input queue; and when the records are
distinct, none is freed twice, and neither the survivor nor a record still
queued is among the freed ones. -/
theorem records_released_exactly_once (w : World) (d : SoundEventData)
    (q : List SoundEventData) :
    ∃ r, filter_sound_event w d q = some r ∧
      (d :: q).Perm (r.ret.toList ++ r.queue ++ r.freed) ∧
      r.queue.Sublist q ∧
      ((d :: q).Nodup →
        r.freed.Nodup ∧ (∀ s, r.ret = some s → s ∉ r.freed ∧ s ∉ r.queue) ∧
        ∀ j ∈ r.queue, j ∉ r.freed) := by
  obtain ⟨r, hr⟩ := filter_loop_total w (q.length + 1) d q (by omega)
  have hperm := filter_loop_perm w _ d q r hr
  refine ⟨r, hr, hperm, filter_loop_sublist w _ d q r hr, ?_⟩
  intro hn
  have hnd : (r.ret.toList ++ r.queue ++ r.freed).Nodup := hperm.nodup_iff.mp hn
  rw [List.nodup_append] at hnd
  obtain ⟨hleft, hfreed, hdisj⟩ := hnd
  rw [List.nodup_append] at hleft
  obtain ⟨_, _, hdisj2⟩ := hleft
  refine ⟨hfreed, ?_, ?_⟩
  · intro s hs
    constructor
    · intro hc
      exact hdisj (by simp [hs]) hc
    · intro hc
      exact hdisj2 (by simp [hs]) hc
  · intro j hj hc
    exact hdisj (by simp [hj]) hc

/-! ## The filter ends on a queue no rule applies to -/

/-- A pass that runs to the end keeps only entries no test fires on. -/
theorem scan_completed_fixed (w : World) (d : SoundEventData) (q q1 f : List SoundEventData)
    (h : scan w d q = .completed q1 f) :
    ∀ j ∈ q1, cancels d j = false ∧ adopts w d j = false ∧ eliminates w d j = false := by
  induction q generalizing q1 f with
  | nil =>
    simp only [scan, ScanResult.completed.injEq] at h
    intro j hj
    rw [← h.1] at hj
    simp at hj
  | cons x n ih =>
    rw [scan_cons] at h
    split at h
    · simp at h
    · rename_i hc
      split at h
      · simp at h
      · rename_i ha
        split at h
        · cases hs : scan w d n with
          | returned_null a b => simp [hs, ScanResult.drop] at h
          | broke a b c => simp [hs, ScanResult.drop] at h
          | completed q2 f2 =>
            simp only [hs, ScanResult.drop, ScanResult.completed.injEq] at h
            rw [← h.1]
            exact ih q2 f2 hs
        · rename_i he
          cases hs : scan w d n with
          | returned_null a b => simp [hs, ScanResult.keep] at h
          | broke a b c => simp [hs, ScanResult.keep] at h
          | completed q2 f2 =>
            simp only [hs, ScanResult.keep, ScanResult.completed.injEq] at h
            rw [← h.1]
            intro j hj
            rcases List.mem_cons.mp hj with rfl | hj
            · exact ⟨by simpa using hc, by simpa using ha, by simpa using he⟩
            · exact ih q2 f2 hs j hj

/-- No test of the filter fires between the survivor and a record left in the
queue. -/
theorem filter_loop_fixed (w : World) (fuel : Nat) (d : SoundEventData)
    (q : List SoundEventData) (r : FilterResult) (h : filter_loop w fuel d q = some r) :
    ∀ s, r.ret = some s → ∀ j ∈ r.queue,
      cancels s j = false ∧ adopts w s j = false ∧ eliminates w s j = false := by
  refine filter_loop_induct w
    (fun _ _ r => ∀ s, r.ret = some s → ∀ j ∈ r.queue,
      cancels s j = false ∧ adopts w s j = false ∧ eliminates w s j = false)
    ?_ ?_ ?_ fuel d q r h
  · intro d q q1 f _ s hs
    simp at hs
  · intro d q q1 f hs s hr
    simp only [Option.some.injEq] at hr
    rw [← hr]
    exact scan_completed_fixed w d q q1 f hs
  · intro d q d1 q1 f r _ ih s hr
    exact ih s hr

/-- C22: when `filter_sound_event` returns a survivor `s` and leaves the queue
`r.queue`, no test of the filter fires between `s` and a record `j` of that
queue: on the same object `j` has another signal than `s` and the pair is none
of show/hide, hide/response, window-state/hide, window-state/show,
response/hide, show/window-state, hide/window-state; on two menu windows the
pair is neither hide/show nor show/hide. -/
theorem filter_reaches_fixed_point (w : World) (d : SoundEventData) (q : List SoundEventData)
    (r : FilterResult) (s : SoundEventData)
    (hr : filter_sound_event w d q = some r) (hs : r.ret = some s) :
    ∀ j ∈ r.queue,
      (j.object = s.object →
        j.signal_id ≠ s.signal_id ∧
        ¬ (s.signal_id = .widget_show ∧ j.signal_id = .widget_hide) ∧
        ¬ (s.signal_id = .widget_hide ∧ j.signal_id = .dialog_response) ∧
        ¬ (s.signal_id = .widget_window_state_event ∧ j.signal_id = .widget_hide) ∧
        ¬ (s.signal_id = .widget_window_state_event ∧ j.signal_id = .widget_show) ∧
        ¬ (s.signal_id = .dialog_response ∧ j.signal_id = .widget_hide) ∧
        ¬ (s.signal_id = .widget_show ∧ j.signal_id = .widget_window_state_event) ∧
        ¬ (s.signal_id = .widget_hide ∧ j.signal_id = .widget_window_state_event)) ∧
      (j.object ≠ s.object → both_menu_windows w s.object j.object = true →
        ¬ (s.signal_id = .widget_hide ∧ j.signal_id = .widget_show) ∧
        ¬ (s.signal_id = .widget_show ∧ j.signal_id = .widget_hide)) := by
  intro j hj
  obtain ⟨hc, ha, he⟩ := filter_loop_fixed w _ d q r hr s hs j hj
  constructor
  · intro ho
    have ho1 : s.object = j.object := ho.symm
    simp only [cancels, adopts, eliminates, adopts_same_object, drops_same_object, ho1,
      decide_True, Bool.true_and, ne_eq, not_true_eq_false, decide_False, Bool.false_and,
      Bool.or_false, Bool.or_eq_false_iff, Bool.and_eq_false_imp, decide_eq_true_eq,
      decide_eq_false_iff_not] at hc ha he
    refine ⟨fun h => he.2 h.symm, ?_, ?_, ?_, ?_, ?_, ?_, ?_⟩
    · exact fun h => hc h.1 h.2
    · exact fun h => ha.1.1 h.1 h.2
    · exact fun h => ha.1.2 h.1 h.2
    · exact fun h => ha.2 h.1 h.2
    · exact fun h => he.1.1.1 h.1 h.2
    · exact fun h => he.1.1.2 h.1 h.2
    · exact fun h => he.1.2 h.1 h.2
  · intro ho hm
    have ho1 : ¬ s.object = j.object := fun h => ho h.symm
    simp only [adopts, eliminates, ho1, decide_False, Bool.false_and, Bool.false_or, ne_eq,
      not_false_eq_true, decide_True, hm, Bool.true_and, Bool.and_eq_false_imp,
      decide_eq_true_eq, decide_eq_false_iff_not] at ha he
    exact ⟨fun h => ha h.1 h.2, fun h => he h.1 h.2⟩

/-- Witness for C22: a show of window 1 against a window-state event of
window 1 and a press of button 5; the press stays queued. -/
theorem filter_reaches_fixed_point_witness :
    ((sample_record 211 .button_pressed 5).object = (sample_record 210 .widget_show 1).object →
      (sample_record 211 .button_pressed 5).signal_id ≠
        (sample_record 210 .widget_show 1).signal_id ∧
      ¬ ((sample_record 210 .widget_show 1).signal_id = .widget_show ∧
        (sample_record 211 .button_pressed 5).signal_id = .widget_hide) ∧
      ¬ ((sample_record 210 .widget_show 1).signal_id = .widget_hide ∧
        (sample_record 211 .button_pressed 5).signal_id = .dialog_response) ∧
      ¬ ((sample_record 210 .widget_show 1).signal_id = .widget_window_state_event ∧
        (sample_record 211 .button_pressed 5).signal_id = .widget_hide) ∧
      ¬ ((sample_record 210 .widget_show 1).signal_id = .widget_window_state_event ∧
        (sample_record 211 .button_pressed 5).signal_id = .widget_show) ∧
      ¬ ((sample_record 210 .widget_show 1).signal_id = .dialog_response ∧
        (sample_record 211 .button_pressed 5).signal_id = .widget_hide) ∧
      ¬ ((sample_record 210 .widget_show 1).signal_id = .widget_show ∧
        (sample_record 211 .button_pressed 5).signal_id = .widget_window_state_event) ∧
      ¬ ((sample_record 210 .widget_show 1).signal_id = .widget_hide ∧
        (sample_record 211 .button_pressed 5).signal_id = .widget_window_state_event)) ∧
    ((sample_record 211 .button_pressed 5).object ≠ (sample_record 210 .widget_show 1).object →
      both_menu_windows sample_world (sample_record 210 .widget_show 1).object
        (sample_record 211 .button_pressed 5).object = true →
      ¬ ((sample_record 210 .widget_show 1).signal_id = .widget_hide ∧
        (sample_record 211 .button_pressed 5).signal_id = .widget_show) ∧
      ¬ ((sample_record 210 .widget_show 1).signal_id = .widget_show ∧
        (sample_record 211 .button_pressed 5).signal_id = .widget_hide)) :=
  filter_reaches_fixed_point sample_world (sample_record 210 .widget_show 1)
    [sample_record 212 .widget_window_state_event 1, sample_record 211 .button_pressed 5]
    ⟨some (sample_record 210 .widget_show 1), [sample_record 211 .button_pressed 5],
      [sample_record 212 .widget_window_state_event 1]⟩
    (sample_record 210 .widget_show 1) (by decide) rfl
    (sample_record 211 .button_pressed 5) (by simp)

/-! ## Termination -/

/-- Once the loop has more passes than the queue has entries, further passes
change nothing. -/
theorem filter_loop_stable (w : World) (fuel1 fuel2 : Nat) (d : SoundEventData)
    (q : List SoundEventData) (h1 : q.length < fuel1) (h2 : q.length < fuel2) :
    filter_loop w fuel1 d q = filter_loop w fuel2 d q := by
  induction fuel1 generalizing fuel2 d q with
  | zero => omega
  | succ n ih =>
    cases fuel2 with
    | zero => omega
    | succ m =>
      rw [filter_loop_succ, filter_loop_succ]
      cases hs : scan w d q with
      | returned_null q1 f => rfl
      | completed q1 f => rfl
      | broke d1 q1 f =>
        have hlen := (scan_broke w d q d1 q1 f hs).2.2.1
        simp only [ih m d1 q1 (by omega) (by omega)]

/-- The loop goes back to the head of the queue at most once per entry. -/
theorem filter_restarts_le (w : World) (fuel : Nat) (d : SoundEventData)
    (q : List SoundEventData) : filter_restarts w fuel d q ≤ q.length := by
  induction fuel generalizing d q with
  | zero => simp [filter_restarts]
  | succ n ih =>
    unfold filter_restarts
    cases hs : scan w d q with
    | returned_null q1 f => simp
    | completed q1 f => simp
    | broke d1 q1 f =>
      have hlen := (scan_broke w d q d1 q1 f hs).2.2.1
      have := ih d1 q1
      simp only
      omega

/-- C23: `filter_sound_event` returns for every candidate and queue; a pass
that ends in `break` has replaced the candidate and unlinked one record, so the
loop goes back to the head of the queue at most as often as the queue has
entries, and allowing more passes changes nothing; `idle_cb` without
reentrant submissions returns as well, on the empty queue. -/
theorem filter_and_drain_terminate (w : World) (d : SoundEventData) (q : List SoundEventData)
    (s : ModuleState) :
    (∃ r, filter_sound_event w d q = some r) ∧
    (∀ fuel, q.length < fuel → filter_loop w fuel d q = filter_sound_event w d q) ∧
    (∀ fuel, filter_restarts w fuel d q ≤ q.length) ∧
    (∀ d1 q1 f, scan w d q = .broke d1 q1 f →
      adopts w d d1 = true ∧ d1 ∈ q ∧ d ∈ f ∧ q1.length < q.length) ∧
    (∃ s1, idle_cb w s = some s1 ∧ s1.sound_event_queue = []) := by
  refine ⟨filter_loop_total w (q.length + 1) d q (by omega), ?_, ?_, ?_, ?_⟩
  · intro fuel hf
    exact filter_loop_stable w fuel (q.length + 1) d q hf (by omega)
  · intro fuel
    exact filter_restarts_le w fuel d q
  · intro d1 q1 f hs
    have hb := scan_broke w d q d1 q1 f hs
    exact ⟨hb.1, hb.2.1, hb.2.2.2.1, hb.2.2.1⟩
  · exact drain_total w (s.sound_event_queue.length + 1) { s with idle_id := 0 } (by simp)

/-! ## Double events -/

/-- C26: for a candidate whose signal is none of show, hide, window-state and
dialog response, `filter_sound_event` returns the candidate itself, frees the
records of the queue that have the same object and the same signal, and leaves
all other records queued in their order. -/
theorem double_events_dropped (w : World) (d : SoundEventData) (q : List SoundEventData)
    (h1 : d.signal_id ≠ .widget_show) (h2 : d.signal_id ≠ .widget_hide)
    (h3 : d.signal_id ≠ .widget_window_state_event) (h4 : d.signal_id ≠ .dialog_response) :
    filter_sound_event w d q =
      some ⟨some d,
        q.filter (fun j => !decide (j.object = d.object ∧ j.signal_id = d.signal_id)),
        q.filter (fun j => decide (j.object = d.object ∧ j.signal_id = d.signal_id))⟩ := by
  have hpass : ∀ j ∈ q, cancels d j = false ∧ adopts w d j = false := by
    intro j _
    simp [cancels, adopts, adopts_same_object, h1, h2, h3]
  have helim : ∀ j, eliminates w d j = decide (j.object = d.object ∧ j.signal_id = d.signal_id) := by
    intro j
    by_cases ho : d.object = j.object
    · by_cases hsig : d.signal_id = j.signal_id
      · simp [eliminates, drops_same_object, ho, hsig]
      · have hsig2 : ¬ j.signal_id = d.signal_id := fun h => hsig h.symm
        simp [eliminates, drops_same_object, ho, hsig, hsig2, h1, h2, h4]
    · have ho2 : ¬ j.object = d.object := fun h => ho h.symm
      simp [eliminates, ho, ho2, h1]
  rw [filter_sound_event, filter_loop_succ, scan_completed w d q hpass]
  simp only [helim]

/-- Witness for C26: a press of button 5 against a second press of button 5, a
release of button 5 and a press of the link button at 10. -/
theorem double_events_dropped_witness :
    filter_sound_event sample_world_widgets (sample_record 220 .button_pressed 5)
        [sample_record 221 .button_pressed 5, sample_record 222 .button_released 5,
          sample_record 223 .button_pressed 10] =
      some ⟨some (sample_record 220 .button_pressed 5),
        [sample_record 221 .button_pressed 5, sample_record 222 .button_released 5,
          sample_record 223 .button_pressed 10].filter
          (fun j => !decide (j.object = (sample_record 220 .button_pressed 5).object ∧
            j.signal_id = (sample_record 220 .button_pressed 5).signal_id)),
        [sample_record 221 .button_pressed 5, sample_record 222 .button_released 5,
          sample_record 223 .button_pressed 10].filter
          (fun j => decide (j.object = (sample_record 220 .button_pressed 5).object ∧
            j.signal_id = (sample_record 220 .button_pressed 5).signal_id))⟩ :=
  double_events_dropped sample_world_widgets (sample_record 220 .button_pressed 5)
    [sample_record 221 .button_pressed 5, sample_record 222 .button_released 5,
      sample_record 223 .button_pressed 10] (by decide) (by decide) (by decide) (by decide)

/-! ## Window state: maximized and unmaximized -/

theorem lor_eq_zero (a b : Nat) (h : a ||| b = 0) : a = 0 ∧ b = 0 := by
  constructor
  · apply Nat.eq_of_testBit_eq
    intro i
    have := congrArg (fun x => x.testBit i) h
    simp only [Nat.testBit_or, Nat.zero_testBit, Bool.or_eq_false_iff] at this
    simp [this.1]
  · apply Nat.eq_of_testBit_eq
    intro i
    have := congrArg (fun x => x.testBit i) h
    simp only [Nat.testBit_or, Nat.zero_testBit, Bool.or_eq_false_iff] at this
    simp [this.2]

/-- A mask meets the maximized and fullscreen bits exactly when it meets one of
the two. -/
theorem land_max_full (x : Nat) :
    x &&& (GDK_WINDOW_STATE_MAXIMIZED ||| GDK_WINDOW_STATE_FULLSCREEN) ≠ 0 ↔
      (x &&& GDK_WINDOW_STATE_MAXIMIZED ≠ 0 ∨ x &&& GDK_WINDOW_STATE_FULLSCREEN ≠ 0) := by
  rw [Nat.and_or_distrib_left]
  constructor
  · intro h
    by_contra hc
    push_neg at hc
    apply h
    rw [hc.1, hc.2]
    rfl
  · intro h hc
    have := lor_eq_zero _ _ hc
    rcases h with h | h
    · exact h this.1
    · exact h this.2

/-- C24 as stated fails for `window-maximized`: a window-state record of the
window at 1 with the maximized bit alone in the changed mask and the fullscreen
bit alone in the new state plays `window-maximized`, although neither bit is
both in the changed mask and set in the new state. -/
theorem maximized_without_newly_set_bit :
    dispatched_ids sample_world initial_dispatch_state
        ⟨230, .widget_window_state_event, 1, 0, true, some ⟨1, 4, 16⟩⟩ = ["window-maximized"] ∧
    ¬ (4 &&& GDK_WINDOW_STATE_MAXIMIZED ≠ 0 ∧ 16 &&& GDK_WINDOW_STATE_MAXIMIZED ≠ 0) ∧
    ¬ (4 &&& GDK_WINDOW_STATE_FULLSCREEN ≠ 0 ∧ 16 &&& GDK_WINDOW_STATE_FULLSCREEN ≠ 0) := by
  refine ⟨by decide, by decide, by decide⟩

/-- C24 (amended): a window-state record plays `window-maximized` only when a
maximized or fullscreen bit is in the changed mask and a maximized or
fullscreen bit, not necessarily the same one, is set in the new state; and it
plays `window-unmaximized` only when one of the two bits is in the changed mask
and cleared in the new state. -/
theorem maximized_only_when_changed_and_set (w : World) (s : DispatchState)
    (d : SoundEventData) (e : GdkEvent)
    (hs : d.signal_id = .widget_window_state_event) (he : d.event = some e) :
    (dispatched_ids w s d = ["window-maximized"] →
      (e.changed_mask &&& GDK_WINDOW_STATE_MAXIMIZED ≠ 0 ∨
        e.changed_mask &&& GDK_WINDOW_STATE_FULLSCREEN ≠ 0) ∧
      (e.new_window_state &&& GDK_WINDOW_STATE_MAXIMIZED ≠ 0 ∨
        e.new_window_state &&& GDK_WINDOW_STATE_FULLSCREEN ≠ 0)) ∧
    (dispatched_ids w s d = ["window-unmaximized"] →
      (e.changed_mask &&& GDK_WINDOW_STATE_MAXIMIZED ≠ 0 ∧
        e.new_window_state &&& GDK_WINDOW_STATE_MAXIMIZED = 0) ∨
      (e.changed_mask &&& GDK_WINDOW_STATE_FULLSCREEN ≠ 0 ∧
        e.new_window_state &&& GDK_WINDOW_STATE_FULLSCREEN = 0)) := by
  cases hdis : (w.obj d.object).disable_sound
  · cases hwin : (w.obj d.object).is_window
    · have hskip := dispatch_window_state_skipped w s d hs (Or.inl hwin)
      have hnone : dispatched_ids w s d = [] := by simp [dispatched_ids, hskip]
      rw [hnone]
      exact ⟨fun h => absurd h (by simp), fun h => absurd h (by simp)⟩
    · rw [(window_state_dispatch w s d e hs hwin hdis he).1]
      unfold window_state_sound
      constructor
      · intro h
        split_ifs at h with c1 c2 c3 c4
        all_goals first
          | exact absurd h (by decide)
          | exact ⟨(land_max_full _).mp c2.1, (land_max_full _).mp c2.2⟩
      · intro h
        split_ifs at h with c1 c2 c3 c4
        all_goals first
          | exact absurd h (by decide)
          | (have h42 := c4.2
             rw [Nat.and_or_distrib_left] at h42
             have hz := lor_eq_zero _ _ h42
             rcases (land_max_full _).mp c4.1 with hc | hc
             · exact Or.inl ⟨hc, hz.1⟩
             · exact Or.inr ⟨hc, hz.2⟩)
  · have hskip : dispatch_sound_event w s d = s := by simp [dispatch_sound_event, hdis]
    have hnone : dispatched_ids w s d = [] := by simp [dispatched_ids, hskip]
    rw [hnone]
    exact ⟨fun h => absurd h (by simp), fun h => absurd h (by simp)⟩

/-- Witness for C24 (amended): the window at 1 is maximized. -/
theorem maximized_only_when_changed_and_set_witness :
    ((⟨1, 4, 4⟩ : GdkEvent).changed_mask &&& GDK_WINDOW_STATE_MAXIMIZED ≠ 0 ∨
      (⟨1, 4, 4⟩ : GdkEvent).changed_mask &&& GDK_WINDOW_STATE_FULLSCREEN ≠ 0) ∧
    ((⟨1, 4, 4⟩ : GdkEvent).new_window_state &&& GDK_WINDOW_STATE_MAXIMIZED ≠ 0 ∨
      (⟨1, 4, 4⟩ : GdkEvent).new_window_state &&& GDK_WINDOW_STATE_FULLSCREEN ≠ 0) :=
  (maximized_only_when_changed_and_set sample_world initial_dispatch_state
    ⟨231, .widget_window_state_event, 1, 0, true, some ⟨1, 4, 4⟩⟩ ⟨1, 4, 4⟩ rfl rfl).1
    (by decide)

/-! ## The was-hidden flag -/

/-- C25: dispatching a window-state record on a window without the disable
flag sets the was-hidden flag of that window to the detected hidden state,
whatever the masks; dispatching a record of any other signal leaves every
was-hidden flag as it was; and no dispatch changes the flag of an object other
than the one of the record. -/
theorem was_hidden_written_by_window_state_only (w : World) (s : DispatchState)
    (d : SoundEventData) :
    (∀ e, d.signal_id = .widget_window_state_event → (w.obj d.object).is_window = true →
      (w.obj d.object).disable_sound = false → d.event = some e →
      (dispatch_sound_event w s d).was_hidden d.object = is_hidden w e.window) ∧
    (d.signal_id ≠ .widget_window_state_event →
      (dispatch_sound_event w s d).was_hidden = s.was_hidden) ∧
    (∀ p, p ≠ d.object → (dispatch_sound_event w s d).was_hidden p = s.was_hidden p) := by
  refine ⟨?_, dispatch_was_hidden_unchanged w s d, ?_⟩
  · intro e hs hwin hdis he
    rw [(window_state_dispatch w s d e hs hwin hdis he).2.1]
    simp
  · intro p hp
    by_cases hs : d.signal_id = .widget_window_state_event
    · cases hdis : (w.obj d.object).disable_sound
      · cases hwin : (w.obj d.object).is_window
        · rw [dispatch_window_state_skipped w s d hs (Or.inl hwin)]
        · cases he : d.event with
          | none => rw [dispatch_window_state_skipped w s d hs (Or.inr he)]
          | some e =>
            rw [(window_state_dispatch w s d e hs hwin hdis he).2.1]
            simp [hp]
      · have hskip : dispatch_sound_event w s d = s := by simp [dispatch_sound_event, hdis]
        rw [hskip]
    · rw [dispatch_was_hidden_unchanged w s d hs]

/-- Witness for C25: a window-state record of the window at 1 while it is
reported hidden, and a show of the same window. -/
theorem was_hidden_written_by_window_state_only_witness :
    (dispatch_sound_event sample_world_hidden initial_dispatch_state
        ⟨240, .widget_window_state_event, 1, 0, true, some ⟨1, 4, 4⟩⟩).was_hidden
        (⟨240, .widget_window_state_event, 1, 0, true, some ⟨1, 4, 4⟩⟩ : SoundEventData).object =
      is_hidden sample_world_hidden (⟨1, 4, 4⟩ : GdkEvent).window ∧
    (dispatch_sound_event sample_world_hidden initial_dispatch_state
        (sample_record 241 .widget_show 1)).was_hidden = initial_dispatch_state.was_hidden ∧
    (dispatch_sound_event sample_world_hidden initial_dispatch_state
        ⟨240, .widget_window_state_event, 1, 0, true, some ⟨1, 4, 4⟩⟩).was_hidden 2 =
      initial_dispatch_state.was_hidden 2 :=
  ⟨(was_hidden_written_by_window_state_only sample_world_hidden initial_dispatch_state
      ⟨240, .widget_window_state_event, 1, 0, true, some ⟨1, 4, 4⟩⟩).1 ⟨1, 4, 4⟩ rfl rfl rfl rfl,
   (was_hidden_written_by_window_state_only sample_world_hidden initial_dispatch_state
      (sample_record 241 .widget_show 1)).2.1 (by decide),
   (was_hidden_written_by_window_state_only sample_world_hidden initial_dispatch_state
      ⟨240, .widget_window_state_event, 1, 0, true, some ⟨1, 4, 4⟩⟩).2.2 2 (by decide)⟩

/-! ## Sound file accessors -/

/-- C27, evaluated on the code: for a file opened with 2 channels at 44100 Hz,
`ca_sound_file_get_rate` returns 2, the channel count, and not the stored
rate; `ca_sound_file_get_nchannels` returns the channel count; and neither
call changes the struct. -/
theorem get_rate_returns_channel_count :
    (ca_sound_file_get_rate ⟨some 1, none, "bell.wav", 2, 44100, 0⟩).1 = 2 ∧
    (ca_sound_file_get_rate ⟨some 1, none, "bell.wav", 2, 44100, 0⟩).1 ≠
      (⟨some 1, none, "bell.wav", 2, 44100, 0⟩ : ca_sound_file).rate ∧
    (ca_sound_file_get_nchannels ⟨some 1, none, "bell.wav", 2, 44100, 0⟩).1 =
      (⟨some 1, none, "bell.wav", 2, 44100, 0⟩ : ca_sound_file).nchannels ∧
    (ca_sound_file_get_rate ⟨some 1, none, "bell.wav", 2, 44100, 0⟩).2 =
      ⟨some 1, none, "bell.wav", 2, 44100, 0⟩ ∧
    (ca_sound_file_get_nchannels ⟨some 1, none, "bell.wav", 2, 44100, 0⟩).2 =
      ⟨some 1, none, "bell.wav", 2, 44100, 0⟩ := by
  refine ⟨rfl, by decide, rfl, rfl, rfl⟩

/-! ## Further witnesses -/

/-- Witness for C21: a hide of the dialog at 2 against a window-state event, a
dialog response and a second hide of the same dialog, all distinct records. -/
theorem records_released_exactly_once_witness :
    ∃ r, filter_sound_event sample_world (sample_record 250 .widget_hide 2)
        [sample_record 251 .widget_window_state_event 2,
          sample_record 252 .dialog_response 2, sample_record 253 .widget_hide 2] = some r ∧
      r.freed.Nodup ∧ (∀ s, r.ret = some s → s ∉ r.freed ∧ s ∉ r.queue) ∧
      ∀ j ∈ r.queue, j ∉ r.freed := by
  obtain ⟨r, hr, _, _, hn⟩ :=
    records_released_exactly_once sample_world (sample_record 250 .widget_hide 2)
      [sample_record 251 .widget_window_state_event 2,
        sample_record 252 .dialog_response 2, sample_record 253 .widget_hide 2]
  exact ⟨r, hr, hn (by decide)⟩

/-- Witness for C23: the pass of a hide of the dialog at 2 over a press of
button 5 and a dialog response of the dialog breaks out with the response. -/
theorem filter_and_drain_terminate_witness :
    adopts sample_world (sample_record 260 .widget_hide 2)
        (sample_record 262 .dialog_response 2) = true ∧
    sample_record 262 .dialog_response 2 ∈
      [sample_record 261 .button_pressed 5, sample_record 262 .dialog_response 2] ∧
    sample_record 260 .widget_hide 2 ∈ [sample_record 260 .widget_hide 2] ∧
    [sample_record 261 .button_pressed 5].length <
      [sample_record 261 .button_pressed 5, sample_record 262 .dialog_response 2].length :=
  (filter_and_drain_terminate sample_world (sample_record 260 .widget_hide 2)
    [sample_record 261 .button_pressed 5, sample_record 262 .dialog_response 2]
    ⟨[], 0, initial_dispatch_state, [], []⟩).2.2.2.1
    (sample_record 262 .dialog_response 2) [sample_record 261 .button_pressed 5]
    [sample_record 260 .widget_hide 2] rfl

/-- Witness for C20: a show of window 1 and a press of button 5 drained under
a port that fails the first call with code -1 and succeeds afterwards: both
records are dispatched, both calls are made, and the one warning is -1. -/
theorem playback_failure_never_aborts_witness :
    ∃ s2, idle_cb (sample_world.with_port (fun n => if n = 0 then -1 else CA_SUCCESS))
        ⟨[sample_record 270 .widget_show 1, sample_record 271 .button_pressed 5], 1,
          initial_dispatch_state, [], []⟩ = some s2 ∧
      s2.dispatched = [sample_record 270 .widget_show 1, sample_record 271 .button_pressed 5] ∧
      s2.dispatch.played.map PlayCall.event_id = ["window-new", "button-pressed"] ∧
      s2.dispatch.warnings = [-1] := by
  obtain ⟨s1, s2, h1, h2, _, _, h3, _, _, _, _, h4, _, P, hP, _, hW⟩ :=
    playback_failure_never_aborts sample_world (fun n => if n = 0 then -1 else CA_SUCCESS)
      ⟨[sample_record 270 .widget_show 1, sample_record 271 .button_pressed 5], 1,
        initial_dispatch_state, [], []⟩
  have e1 : idle_cb sample_world
      ⟨[sample_record 270 .widget_show 1, sample_record 271 .button_pressed 5], 1,
        initial_dispatch_state, [], []⟩ =
      some ⟨[], 0,
        dispatch_sound_event sample_world
          (dispatch_sound_event sample_world initial_dispatch_state
            (sample_record 270 .widget_show 1))
          (sample_record 271 .button_pressed 5),
        [sample_record 270 .widget_show 1, sample_record 271 .button_pressed 5],
        [sample_record 270 .widget_show 1, sample_record 271 .button_pressed 5]⟩ := rfl
  rw [e1] at h1
  simp only [Option.some.injEq] at h1
  subst h1
  have hplayed : (dispatch_sound_event sample_world
      (dispatch_sound_event sample_world initial_dispatch_state
        (sample_record 270 .widget_show 1))
      (sample_record 271 .button_pressed 5)).played =
      [⟨"window-new", "Window shown"⟩, ⟨"button-pressed", "Button pressed"⟩] := by decide
  simp only at h3 h4 hP hW
  rw [hplayed] at h4 hP
  have hlen : P.length = 2 := by
    have := congrArg List.length hP
    simp [initial_dispatch_state] at this
    omega
  refine ⟨s2, h2, h3, by rw [h4]; rfl, ?_⟩
  rw [hW, hlen]
  decide

end Canberra
